import Mathlib

/-!
# RLVM: object mutators, mutator registry and long-operation stack

A shallow embedding of the mutator opcodes of `src/modules/module_obj_fg_bg.cc`
and of the collaborators they call.  Definitions that embed code of
`module_obj_fg_bg.cc` keep the names of the source.  Collaborators whose code is
not part of the excerpt (`ObjectMutator`, `GraphicsObject`, `RLMachine`,
`WaitLongOperation`, `object_mutator_operations.h`) are modelled from the
specification; each such definition says so in its doc comment.

Machine integers (`int`, `unsigned int`) are embedded as `Int` without
overflow; the one conversion of the source that narrows, the `unsigned int`
tick count passed to an `int` parameter, is embedded as `unsigned_to_int`.  The
floating point progress fraction of the spec is embedded as an exact rational;
the `float` arithmetic of `Texture.cpp` is embedded as IEEE 754 binary32
arithmetic (`Float32`).
-/

namespace RLVM

/-! ## Interpolation -/

/-- Modelled from the spec: the interpolation curves (the interpolation helper
of the repository is absent).  The spec names the set `linear, ease-in,
ease-out, ease-in-out` and says that a curve is a pure function of the
normalized progress `t`; it gives no formulas.  Code `0` is the linear curve
(the one `DisplayMutator` passes), `1`, `2`, `3` are the quadratic ease-in,
ease-out and ease-in-out curves, every other code is linear. -/
def curve (type : Int) (t : ℚ) : ℚ :=
  if type = 1 then t * t
  else if type = 2 then t * (2 - t)
  else if type = 3 then (if 2 * t < 1 then 2 * t * t else 1 - 2 * (1 - t) * (1 - t))
  else t

/-- Modelled from the spec: conversion of the interpolated value to the `int`
that the setters of the source take, the way C++ converts a `double`: toward
zero. -/
def truncate (q : ℚ) : Int :=
  Int.tdiv q.num q.den

/-- Modelled from the spec: the base class `ObjectMutator`
(`systems/base/object_mutator.h`, absent).  Its constructor arguments are those
passed by `AdjustMutator` and `DisplayMutator` in the source:
`(repno, name, creation_time, duration_time, delay, type)`. -/
structure ObjectMutator where
  repno : Int
  name : String
  creation_time : Int
  duration_time : Int
  delay : Int
  type : Int
deriving DecidableEq, Repr

/-- Modelled from the spec: the normalized progress of section 4.1,
`t = clamp((now - creation_time - delay) / duration, 0, 1)`. -/
def ObjectMutator.progress (m : ObjectMutator) (now : Int) : ℚ :=
  max 0 (min 1 (((now - m.creation_time - m.delay : Int) : ℚ) / (m.duration_time : ℚ)))

/-- Modelled from the spec: `ObjectMutator::GetValueForTime` (absent), the
interpolated value for `now` between `start` and `end`: the start value while
`now < creation_time + delay`, the end value when the duration is zero or
negative (the "already finished" rule, no division), and otherwise
`start + (end - start) * curve(t)` converted to `int`. -/
def ObjectMutator.GetValueForTime (m : ObjectMutator) (now : Int) (start : Int)
    (end_ : Int) : Int :=
  if m.duration_time ≤ 0 then end_
  else if now < m.creation_time + m.delay then start
  else start + truncate (((end_ - start : Int) : ℚ) * curve m.type (m.progress now))

/-! ## Graphics objects -/

/-- Modelled from the spec: read of an adjustment slot of `GraphicsObject`
(absent).  The slots are indexed `0 .. length - 1`; an index outside reads as
`0`. -/
def slotGet (slots : List Int) (idx : Int) : Int :=
  if 0 ≤ idx then slots.getD idx.toNat 0 else 0

/-- Modelled from the spec: write of an adjustment slot of `GraphicsObject`
(absent).  Section 7: an out-of-range `repno` is recovered locally as a no-op
and never touches another slot. -/
def slotSet (slots : List Int) (idx : Int) (v : Int) : List Int :=
  if 0 ≤ idx ∧ idx < slots.length then slots.set idx.toNat v else slots

/-- Properties with an `int` setter that the one- and two-integer mutator
opcodes of `addEveObjectFunctions` animate. -/
inductive IntProperty where
  | X | Y | Alpha | Width | Height
deriving DecidableEq, Repr

/-- Per-slot properties that the repno mutator opcodes of
`addEveObjectFunctions` animate. -/
inductive RepnoProperty where
  | XAdjustment | YAdjustment | AlphaAdjustment
deriving DecidableEq, Repr

/-- From the source: the private class `objEveAdjust::AdjustMutator`. -/
structure AdjustMutator where
  base : ObjectMutator
  repno_ : Int
  start_x_ : Int
  end_x_ : Int
  start_y_ : Int
  end_y_ : Int
deriving DecidableEq, Repr

/-- From the source: the class `DisplayMutator` (its data members). -/
structure DisplayMutator where
  base : ObjectMutator
  display_ : Bool
  tr_mod_ : Bool
  tr_start_ : Int
  tr_end_ : Int
  move_mod_ : Bool
  move_start_x_ : Int
  move_end_x_ : Int
  move_start_y_ : Int
  move_end_y_ : Int
  rotate_mod_ : Bool
  scale_x_mod_ : Bool
  scale_y_mod_ : Bool
deriving DecidableEq, Repr

/-- Modelled from the spec: `OneIntObjectMutator` of
`object_mutator_operations.h` (absent), one scalar property from a captured
start value to a target value. -/
structure OneIntObjectMutator where
  base : ObjectMutator
  setter : IntProperty
  startval : Int
  endval : Int
deriving DecidableEq, Repr

/-- Modelled from the spec: `RepnoIntObjectMutator` of
`object_mutator_operations.h` (absent), one per-slot property. -/
structure RepnoIntObjectMutator where
  base : ObjectMutator
  repno : Int
  setter : RepnoProperty
  startval : Int
  endval : Int
deriving DecidableEq, Repr

/-- Modelled from the spec: `TwoIntObjectMutator` of
`object_mutator_operations.h` (absent), a coupled pair of properties. -/
structure TwoIntObjectMutator where
  base : ObjectMutator
  setter_one : IntProperty
  startval_one : Int
  endval_one : Int
  setter_two : IntProperty
  startval_two : Int
  endval_two : Int
deriving DecidableEq, Repr

/-- The dynamic type of an `ObjectMutator*` held by an object. -/
inductive Mutator where
  | Adjust (m : AdjustMutator)
  | Display (m : DisplayMutator)
  | OneInt (m : OneIntObjectMutator)
  | RepnoInt (m : RepnoIntObjectMutator)
  | TwoInt (m : TwoIntObjectMutator)
deriving DecidableEq, Repr

/-- Modelled from the spec: `GraphicsObject` (`systems/base/graphics_object.h`,
absent), the Target of section 3: position, alpha, visibility, scale, the
per-slot adjustment arrays and the ordered mutator registry. -/
structure GraphicsObject where
  x : Int
  y : Int
  alpha : Int
  visible : Int
  width : Int
  height : Int
  adjust_x : List Int
  adjust_y : List Int
  adjust_alpha : List Int
  object_mutators : List Mutator
deriving DecidableEq, Repr

namespace GraphicsObject

/-! The accessors of `GraphicsObject` that the source calls.  Modelled from the
spec: each getter reads and each setter writes its one property. -/

def x_adjustment (o : GraphicsObject) (idx : Int) : Int := slotGet o.adjust_x idx

def y_adjustment (o : GraphicsObject) (idx : Int) : Int := slotGet o.adjust_y idx

def alpha_adjustment (o : GraphicsObject) (idx : Int) : Int := slotGet o.adjust_alpha idx

def SetX (o : GraphicsObject) (v : Int) : GraphicsObject := { o with x := v }

def SetY (o : GraphicsObject) (v : Int) : GraphicsObject := { o with y := v }

def SetAlpha (o : GraphicsObject) (v : Int) : GraphicsObject := { o with alpha := v }

def SetVisible (o : GraphicsObject) (v : Int) : GraphicsObject := { o with visible := v }

def SetWidth (o : GraphicsObject) (v : Int) : GraphicsObject := { o with width := v }

def SetHeight (o : GraphicsObject) (v : Int) : GraphicsObject := { o with height := v }

def SetXAdjustment (o : GraphicsObject) (idx : Int) (v : Int) : GraphicsObject :=
  { o with adjust_x := slotSet o.adjust_x idx v }

def SetYAdjustment (o : GraphicsObject) (idx : Int) (v : Int) : GraphicsObject :=
  { o with adjust_y := slotSet o.adjust_y idx v }

def SetAlphaAdjustment (o : GraphicsObject) (idx : Int) (v : Int) : GraphicsObject :=
  { o with adjust_alpha := slotSet o.adjust_alpha idx v }

end GraphicsObject

/-- Getter of an integer property (`&GraphicsObject::x`, ...). -/
def IntProperty.get (p : IntProperty) (o : GraphicsObject) : Int :=
  match p with
  | .X => o.x
  | .Y => o.y
  | .Alpha => o.alpha
  | .Width => o.width
  | .Height => o.height

/-- Setter of an integer property (`&GraphicsObject::SetX`, ...). -/
def IntProperty.set (p : IntProperty) (o : GraphicsObject) (v : Int) : GraphicsObject :=
  match p with
  | .X => o.SetX v
  | .Y => o.SetY v
  | .Alpha => o.SetAlpha v
  | .Width => o.SetWidth v
  | .Height => o.SetHeight v

/-- Getter of a per-slot property (`&GraphicsObject::x_adjustment`, ...). -/
def RepnoProperty.get (p : RepnoProperty) (o : GraphicsObject) (idx : Int) : Int :=
  match p with
  | .XAdjustment => o.x_adjustment idx
  | .YAdjustment => o.y_adjustment idx
  | .AlphaAdjustment => o.alpha_adjustment idx

/-- Setter of a per-slot property (`&GraphicsObject::SetXAdjustment`, ...). -/
def RepnoProperty.set (p : RepnoProperty) (o : GraphicsObject) (idx : Int) (v : Int) :
    GraphicsObject :=
  match p with
  | .XAdjustment => o.SetXAdjustment idx v
  | .YAdjustment => o.SetYAdjustment idx v
  | .AlphaAdjustment => o.SetAlphaAdjustment idx v

/-! ## The mutators of the source -/

namespace AdjustMutator

/-- From the source: `AdjustMutator::SetToEnd`. -/
def SetToEnd (m : AdjustMutator) (object : GraphicsObject) : GraphicsObject :=
  (object.SetXAdjustment m.repno_ m.end_x_).SetYAdjustment m.repno_ m.end_y_

/-- From the source: `AdjustMutator::PerformSetting`; `now` is the tick count
that `GetValueForTime` reads from the machine. -/
def PerformSetting (m : AdjustMutator) (now : Int) (object : GraphicsObject) :
    GraphicsObject :=
  let x := m.base.GetValueForTime now m.start_x_ m.end_x_
  let object1 := object.SetXAdjustment m.repno_ x
  let y := m.base.GetValueForTime now m.start_y_ m.end_y_
  object1.SetYAdjustment m.repno_ y

end AdjustMutator

namespace DisplayMutator

/-- From the source: the constructor of `DisplayMutator`.  The diagnostics
printed for the unsupported rotate, scale and sin parameters have no effect on
the mutator and are left out. -/
def new (object : GraphicsObject) (creation_time duration_time delay display
    dip_event_mod tr_mod move_mod move_len_x move_len_y rotate_mod rotate_count
    scale_x_mod scale_x_percent scale_y_mod scale_y_percent sin_mod sin_len
    sin_count : Int) : DisplayMutator :=
  -- arguments that the constructor of the source does not store
  let _unused := (dip_event_mod, rotate_count, scale_x_percent, scale_y_percent,
    sin_mod, sin_len, sin_count)
  let tr_mod_ : Bool := tr_mod != 0
  let move_mod_ : Bool := move_mod != 0
  { base := { repno := -1, name := "objEveDisplay", creation_time := creation_time,
              duration_time := duration_time, delay := delay, type := 0 }
    display_ := display != 0
    tr_mod_ := tr_mod_
    tr_start_ := if tr_mod_ then (if display != 0 then 0 else 255) else 0
    tr_end_ := if tr_mod_ then (if display != 0 then 255 else 0) else 0
    move_mod_ := move_mod_
    move_start_x_ :=
      if move_mod_ then (if display != 0 then object.x - move_len_x else object.x) else 0
    move_end_x_ :=
      if move_mod_ then (if display != 0 then object.x else object.x + move_len_x) else 0
    move_start_y_ :=
      if move_mod_ then (if display != 0 then object.y - move_len_y else object.y) else 0
    move_end_y_ :=
      if move_mod_ then (if display != 0 then object.y else object.y + move_len_y) else 0
    rotate_mod_ := rotate_mod != 0
    scale_x_mod_ := scale_x_mod != 0
    scale_y_mod_ := scale_y_mod != 0 }

/-- From the source: `DisplayMutator::SetToEnd`. -/
def SetToEnd (m : DisplayMutator) (object : GraphicsObject) : GraphicsObject :=
  let object1 := object.SetVisible (if m.display_ then 1 else 0)
  let object2 := if m.tr_mod_ then object1.SetAlpha m.tr_end_ else object1
  if m.move_mod_ then (object2.SetX m.move_end_x_).SetY m.move_end_y_ else object2

/-- From the source: `DisplayMutator::PerformSetting`. -/
def PerformSetting (m : DisplayMutator) (now : Int) (object : GraphicsObject) :
    GraphicsObject :=
  let object1 := object.SetVisible 1
  let object2 :=
    if m.tr_mod_ then
      object1.SetAlpha (m.base.GetValueForTime now m.tr_start_ m.tr_end_)
    else object1
  if m.move_mod_ then
    let x := m.base.GetValueForTime now m.move_start_x_ m.move_end_x_
    let object3 := object2.SetX x
    let y := m.base.GetValueForTime now m.move_start_y_ m.move_end_y_
    object3.SetY y
  else object2

end DisplayMutator

namespace OneIntObjectMutator

/-- Modelled from the spec: force-completion writes the end value. -/
def SetToEnd (m : OneIntObjectMutator) (object : GraphicsObject) : GraphicsObject :=
  m.setter.set object m.endval

/-- Modelled from the spec: a tick writes the interpolated value. -/
def PerformSetting (m : OneIntObjectMutator) (now : Int) (object : GraphicsObject) :
    GraphicsObject :=
  m.setter.set object (m.base.GetValueForTime now m.startval m.endval)

end OneIntObjectMutator

namespace RepnoIntObjectMutator

/-- Modelled from the spec: force-completion writes the end value of the slot. -/
def SetToEnd (m : RepnoIntObjectMutator) (object : GraphicsObject) : GraphicsObject :=
  m.setter.set object m.repno m.endval

/-- Modelled from the spec: a tick writes the interpolated value of the slot. -/
def PerformSetting (m : RepnoIntObjectMutator) (now : Int) (object : GraphicsObject) :
    GraphicsObject :=
  m.setter.set object m.repno (m.base.GetValueForTime now m.startval m.endval)

end RepnoIntObjectMutator

namespace TwoIntObjectMutator

/-- Modelled from the spec: force-completion writes both end values. -/
def SetToEnd (m : TwoIntObjectMutator) (object : GraphicsObject) : GraphicsObject :=
  m.setter_two.set (m.setter_one.set object m.endval_one) m.endval_two

/-- Modelled from the spec: a tick writes both interpolated values. -/
def PerformSetting (m : TwoIntObjectMutator) (now : Int) (object : GraphicsObject) :
    GraphicsObject :=
  let object1 :=
    m.setter_one.set object (m.base.GetValueForTime now m.startval_one m.endval_one)
  m.setter_two.set object1 (m.base.GetValueForTime now m.startval_two m.endval_two)

end TwoIntObjectMutator

namespace Mutator

/-- The `ObjectMutator` base part of a mutator. -/
def base : Mutator → ObjectMutator
  | .Adjust m => m.base
  | .Display m => m.base
  | .OneInt m => m.base
  | .RepnoInt m => m.base
  | .TwoInt m => m.base

/-- Virtual dispatch of `SetToEnd`. -/
def SetToEnd : Mutator → GraphicsObject → GraphicsObject
  | .Adjust m => m.SetToEnd
  | .Display m => m.SetToEnd
  | .OneInt m => m.SetToEnd
  | .RepnoInt m => m.SetToEnd
  | .TwoInt m => m.SetToEnd

/-- Virtual dispatch of `PerformSetting`. -/
def PerformSetting : Mutator → Int → GraphicsObject → GraphicsObject
  | .Adjust m => m.PerformSetting
  | .Display m => m.PerformSetting
  | .OneInt m => m.PerformSetting
  | .RepnoInt m => m.PerformSetting
  | .TwoInt m => m.PerformSetting

/-- Modelled from the spec: `ObjectMutator::operator()` (absent), the `Tick` of
section 4.1.  A zero or negative duration is "already finished": the end state
is applied on the first tick.  Before `creation_time + delay` the tick is a
no-op.  Otherwise the interpolated values are written, and when `t = 1` the
`SetToEnd` hook is called and the mutator is finished.  The result is the new
object and the finished flag. -/
def tick (m : Mutator) (now : Int) (object : GraphicsObject) : GraphicsObject × Bool :=
  if m.base.duration_time ≤ 0 then (m.SetToEnd object, true)
  else if now < m.base.creation_time + m.base.delay then (object, false)
  else
    let object1 := m.PerformSetting now object
    if m.base.progress now = 1 then (m.SetToEnd object1, true) else (object1, false)

/-- Modelled from the spec: `ObjectMutator::OperationMatches` (absent), the
matching rule of section 4.2: the names are equal, and the query `repno` is
`-1` ("ignore repno") or equals the stored repno. -/
def OperationMatches (m : Mutator) (repno : Int) (name : String) : Bool :=
  decide (m.base.name = name) && (decide (repno = -1) || decide (m.base.repno = repno))

end Mutator

/-! ## The mutator registry of an object -/

namespace GraphicsObject

/-- Modelled from the spec: `AddMutator` of section 4.2 inserts at the end of
the collection and replaces nothing. -/
def AddObjectMutator (o : GraphicsObject) (m : Mutator) : GraphicsObject :=
  { o with object_mutators := o.object_mutators ++ [m] }

/-- Modelled from the spec: `IsRunningMatching` of section 4.2, whether any
live entry matches. -/
def IsMutatorRunningMatching (o : GraphicsObject) (repno : Int) (name : String) : Bool :=
  o.object_mutators.any (fun m => m.OperationMatches repno name)

/-- One step of the force-complete pass: a matching entry is set to its end and
dropped, any other entry is kept. -/
def endStep (repno : Int) (name : String) (acc : GraphicsObject × List Mutator)
    (m : Mutator) : GraphicsObject × List Mutator :=
  if m.OperationMatches repno name then (m.SetToEnd acc.1, acc.2)
  else (acc.1, acc.2 ++ [m])

/-- Modelled from the spec: `EndMutation` of section 4.2 force-completes and
removes the matching entries in insertion order. -/
def EndObjectMutatorMatching (o : GraphicsObject) (repno : Int) (name : String) :
    GraphicsObject :=
  let r := o.object_mutators.foldl (endStep repno name) (o, [])
  { r.1 with object_mutators := r.2 }

/-- One step of the tick pass: the entry is ticked on the current object and
kept unless it reports that it is finished. -/
def tickStep (now : Int) (acc : GraphicsObject × List Mutator) (m : Mutator) :
    GraphicsObject × List Mutator :=
  let r := m.tick now acc.1
  (r.1, if r.2 then acc.2 else acc.2 ++ [m])

/-- Modelled from the spec: `TickAll` of section 4.2 iterates the entries in
order, applies the tick of section 4.1 and removes the finished ones. -/
def ExecuteMutators (o : GraphicsObject) (now : Int) : GraphicsObject :=
  let r := o.object_mutators.foldl (tickStep now) (o, [])
  { r.1 with object_mutators := r.2 }

end GraphicsObject

/-! ## Long operations and the machine -/

/-- Errors that an opcode surfaces to the host (section 7 of the spec and the
`std::out_of_range` of `std::vector::at`). -/
inductive RLError where
  | ConfigurationError
  | OutOfRange
deriving DecidableEq, Repr

/-- An opaque full-scene snapshot handed out by the render backend. -/
structure Surface where
  pixels : List Int
deriving DecidableEq, Repr

/-- External events of one frame, from the input collaborator (`WasClicked`,
`WasKeyPressed`). -/
structure Events where
  clicked : Bool
  keys : List Int
deriving DecidableEq, Repr

/-- Modelled from the spec: `WaitLongOperation`
(`long_operations/wait_long_operation.h`, absent), the blocking wait of section
4.5.  The break event is the bound function object; it reads the object table
of the machine it was bound to when it is polled. -/
structure WaitLongOperation where
  break_on_clicks_ : Bool
  break_on_event_ : Option (List GraphicsObject → Bool)

namespace WaitLongOperation

/-- A freshly constructed wait: no break condition is set. -/
def new : WaitLongOperation :=
  { break_on_clicks_ := false, break_on_event_ := none }

def BreakOnClicks (w : WaitLongOperation) : WaitLongOperation :=
  { w with break_on_clicks_ := true }

def BreakOnEvent (w : WaitLongOperation) (function : List GraphicsObject → Bool) :
    WaitLongOperation :=
  { w with break_on_event_ := some function }

/-- Modelled from the spec: the cancellation predicate of the interruptible
variants, "a click event occurred". -/
def cancelled (w : WaitLongOperation) (ev : Events) : Bool :=
  w.break_on_clicks_ && ev.clicked

/-- Modelled from the spec: `is_finished` polls the break event. -/
def is_finished (w : WaitLongOperation) (objects : List GraphicsObject) : Bool :=
  match w.break_on_event_ with
  | some function => function objects
  | none => false

end WaitLongOperation

/-- A composite request sent to the render backend:
`CompositeSnapshots(before, after, algorithmCode, fraction)`. -/
structure CompositeRequest where
  before : Surface
  after : Surface
  algorithm : Int
  fraction : ℚ
deriving DecidableEq, Repr

/-- Modelled from the spec: the Transition Effect of section 4.4 (`effects/`,
absent): two snapshots, the blend algorithm code, the absolute start time, the
duration, and the finished mark. -/
structure Effect where
  before : Surface
  after : Surface
  algorithm : Int
  start_time : Int
  duration : Int
  finished : Bool
deriving DecidableEq, Repr

namespace Effect

/-- Modelled from the spec: `fraction = clamp((now - start) / duration, 0, 1)`;
a zero or negative duration counts as complete. -/
def fraction (e : Effect) (now : Int) : ℚ :=
  if e.duration ≤ 0 then 1
  else max 0 (min 1 (((now - e.start_time : Int) : ℚ) / (e.duration : ℚ)))

/-- Modelled from the spec: `advance(now)` requests the composite at the
current fraction and marks the effect finished once the fraction reaches 1. -/
def advance (e : Effect) (now : Int) : Effect × CompositeRequest :=
  let f := e.fraction now
  ({ e with finished := e.finished || decide (1 ≤ f) },
   { before := e.before, after := e.after, algorithm := e.algorithm, fraction := f })

end Effect

/-- The polymorphic `LongOperation*`: the capability set of section 9
(`advance`, `is_finished`, cancellation predicate). -/
inductive LongOperation where
  | Wait (w : WaitLongOperation)
  | Transition (e : Effect)

namespace LongOperation

/-- The cancellation predicate, evaluated against the events of the frame. -/
def cancelled : LongOperation → Events → Bool
  | .Wait w, ev => w.cancelled ev
  | .Transition _, _ => false

/-- One frame of work: the operation after the call and the composite request
it sent, if any.  The advance of a wait is a no-op. -/
def advance : LongOperation → Int → LongOperation × Option CompositeRequest
  | .Wait w, _ => (.Wait w, none)
  | .Transition e, now => (.Transition (e.advance now).1, some (e.advance now).2)

/-- The completion poll. -/
def is_finished : LongOperation → List GraphicsObject → Bool
  | .Wait w, objects => w.is_finished objects
  | .Transition e, _ => e.finished

end LongOperation

/-- An entry of the long-operation stack: the operation and the identity of
its allocation (the pointer value of the `new`-ed operation). -/
structure StackEntry where
  id : Nat
  op : LongOperation

/-- Modelled from the spec: the part of `RLMachine` (`machine/rlmachine.h`,
absent) that the claims speak about: the clock, the object table addressed by
`GetGraphicsObject`, and the Suspended-Operation Stack of section 4.3 with the
top first.  `next_id` numbers the allocations.  `advance_log`, `composites` and
`resumes` record what happened: every `advance(now)` call with the identity of
its receiver, every composite request, and how many times control has returned
to the interpreter. -/
structure RLMachine where
  ticks : Int
  objects : List GraphicsObject
  stack : List StackEntry
  next_id : Nat
  advance_log : List (Nat × Int)
  composites : List CompositeRequest
  resumes : Nat

/-- Modelled from the spec: `GetGraphicsObject(machine, op, obj)`, the lookup of
a target by its handle; a handle out of range addresses no object. -/
def GetGraphicsObject (objects : List GraphicsObject) (obj : Int) : Option GraphicsObject :=
  if 0 ≤ obj then objects.get? obj.toNat else none

/-- Write-back of an object obtained by reference from the object table. -/
def SetGraphicsObject (objects : List GraphicsObject) (obj : Int) (o : GraphicsObject) :
    List GraphicsObject :=
  if 0 ≤ obj then objects.set obj.toNat o else objects

namespace RLMachine

/-- Modelled from the spec: `Push(op)` of section 4.3; the operation becomes
the new top and its predecessors are untouched. -/
def PushLongOperation (machine : RLMachine) (op : LongOperation) : RLMachine :=
  { machine with
    stack := { id := machine.next_id, op := op } :: machine.stack
    next_id := machine.next_id + 1 }

/-- Modelled from the spec: `IsEmpty()` of section 4.3. -/
def IsSuspendedStackEmpty (machine : RLMachine) : Bool :=
  machine.stack.isEmpty

/-- Pop of the top entry; when nothing is left below it, control returns to the
interpreter. -/
def popTop (machine : RLMachine) (rest : List StackEntry) : RLMachine :=
  { machine with
    stack := rest
    resumes := if rest.isEmpty then machine.resumes + 1 else machine.resumes }

/-- Modelled from the spec: `AdvanceTopOnly(now, external_events)` of section
4.3.  The cancellation predicate of the top is evaluated first; on a match the
operation is finished without an `advance` call and popped.  Otherwise
`advance(now)` is called on the top, and the top is popped when it is then
finished.  The next top is left for the next frame.  On an empty stack nothing
happens (the driver checks `IsSuspendedStackEmpty` first). -/
def AdvanceTopOnly (machine : RLMachine) (now : Int) (ev : Events) : RLMachine :=
  match machine.stack with
  | [] => machine
  | top :: rest =>
    if top.op.cancelled ev then machine.popTop rest
    else
      let r := top.op.advance now
      let machine1 : RLMachine :=
        { machine with
          advance_log := machine.advance_log ++ [(top.id, now)]
          composites := machine.composites ++ r.2.toList }
      if r.1.is_finished machine1.objects then machine1.popTop rest
      else { machine1 with stack := { id := top.id, op := r.1 } :: rest }

/-- Input of one frame: the clock reading and the external events. -/
structure FrameInput where
  now : Int
  events : Events
deriving DecidableEq, Repr

/-- Modelled from the spec: one frame of the Scheduler Loop (sections 2 and
5): the clock advances, all mutators of all objects are ticked, then the top
suspended operation, if any, is advanced. -/
def Frame (machine : RLMachine) (inp : FrameInput) : RLMachine :=
  let machine1 : RLMachine :=
    { machine with
      ticks := inp.now
      objects := machine.objects.map (fun o => o.ExecuteMutators inp.now) }
  machine1.AdvanceTopOnly inp.now inp.events

/-- A sequence of frames. -/
def Run (machine : RLMachine) (inputs : List FrameInput) : RLMachine :=
  inputs.foldl Frame machine

/-- Identities of the operations on the stack, top first. -/
def stackIds (machine : RLMachine) : List Nat :=
  machine.stack.map (fun e => e.id)

/-- Identities of the operations whose `advance` is called in the frame `inp`
started from `machine`. -/
def advancedIn (machine : RLMachine) (inp : FrameInput) : List Nat :=
  ((machine.Frame inp).advance_log.drop machine.advance_log.length).map (fun c => c.1)

end RLMachine

/-! ## The opcodes -/

/-- The implicit conversion of the source from `unsigned int` to `int` (32 bits,
two's complement): `GetTicks()` returns an `unsigned int`, which the opcodes
keep in an `unsigned int creation_time` and pass to the `int creation_time`
parameter of the mutator constructors.  A reading below `2^31` is kept; a
larger one wraps to a negative number. -/
def unsigned_to_int (u : Int) : Int :=
  (u + 2147483648) % 4294967296 - 2147483648

/-- Replacement of the object `obj` of the machine. -/
def RLMachine.withObject (machine : RLMachine) (obj : Int) (o : GraphicsObject) :
    RLMachine :=
  { machine with objects := SetGraphicsObject machine.objects obj o }

/-- From the source: `objEveAdjust::operator()`.  A handle that addresses no
object is recovered as a no-op (section 7 of the spec).  `machine.ticks` is the
reading of `GetTicks()`, an `unsigned int`; the `AdjustMutator` constructor
takes it as an `int`. -/
def objEveAdjust (machine : RLMachine) (obj repno x y duration_time delay type : Int) :
    Except RLError RLMachine :=
  let creation_time := machine.ticks
  match GetGraphicsObject machine.objects obj with
  | none => .ok machine
  | some object =>
    let start_x := object.x_adjustment repno
    let start_y := object.y_adjustment repno
    .ok (machine.withObject obj (object.AddObjectMutator (.Adjust
      { base := { repno := repno, name := "objEveAdjust"
                  creation_time := unsigned_to_int creation_time
                  duration_time := duration_time, delay := delay, type := type }
        repno_ := repno
        start_x_ := start_x
        end_x_ := x
        start_y_ := start_y
        end_y_ := y })))

/-- From the source: `objEveDisplay_3::operator()`.  As in `objEveAdjust`, the
`unsigned int` tick count is passed to the `int creation_time` parameter of
the constructor. -/
def objEveDisplay_3 (machine : RLMachine) (obj display duration_time delay
    disp_event_mod tr_mod move_mod move_len_x move_len_y rotate_mod rotate_count
    scale_x_mod scale_x_percent scale_y_mod scale_y_percent sin_mod sin_len
    sin_count : Int) : Except RLError RLMachine :=
  match GetGraphicsObject machine.objects obj with
  | none => .ok machine
  | some object =>
    let creation_time := machine.ticks
    .ok (machine.withObject obj (object.AddObjectMutator (.Display
      (DisplayMutator.new object (unsigned_to_int creation_time) duration_time delay
        display disp_event_mod tr_mod move_mod move_len_x move_len_y rotate_mod rotate_count
        scale_x_mod scale_x_percent scale_y_mod scale_y_percent sin_mod sin_len
        sin_count))))

/-- From the source: `objEveDisplay_2::operator()`. -/
def objEveDisplay_2 (machine : RLMachine) (obj display duration_time delay
    disp_event_mod tr_mod move_mod move_len_x move_len_y : Int) :
    Except RLError RLMachine :=
  match GetGraphicsObject machine.objects obj with
  | none => .ok machine
  | some object =>
    let creation_time := machine.ticks
    .ok (machine.withObject obj (object.AddObjectMutator (.Display
      (DisplayMutator.new object (unsigned_to_int creation_time) duration_time delay
        display disp_event_mod tr_mod move_mod move_len_x move_len_y 0 0 0 0 0 0 0 0 0))))

/-- The checked element access `std::vector::at`. -/
def vectorAt (v : List Int) (i : Nat) : Except RLError Int :=
  match v.get? i with
  | some a => .ok a
  | none => .error .OutOfRange

/-- From the source: `objEveDisplay_1::operator()`.  `objdisp` is the Gameexe
table `OBJDISP`: `objdisp param` is the integer vector of the key
`OBJDISP.param`. -/
def objEveDisplay_1 (objdisp : Int → List Int) (machine : RLMachine)
    (obj display duration_time delay param : Int) : Except RLError RLMachine :=
  let disp := objdisp param
  match GetGraphicsObject machine.objects obj with
  | none => .ok machine
  | some object =>
    let creation_time := machine.ticks
    do
      let d0 ← vectorAt disp 0
      let d1 ← vectorAt disp 1
      let d2 ← vectorAt disp 2
      let d3 ← vectorAt disp 3
      let d4 ← vectorAt disp 4
      let d5 ← vectorAt disp 5
      let d6 ← vectorAt disp 6
      let d7 ← vectorAt disp 7
      let d8 ← vectorAt disp 8
      let d9 ← vectorAt disp 9
      let d10 ← vectorAt disp 10
      let d11 ← vectorAt disp 11
      let d12 ← vectorAt disp 12
      let d13 ← vectorAt disp 13
      .ok (machine.withObject obj (object.AddObjectMutator (.Display
        (DisplayMutator.new object (unsigned_to_int creation_time) duration_time delay
          display d0 d1 d2 d3 d4 d5 d6 d7 d8 d9 d10 d11 d12 d13))))

/-- Modelled from the spec: `Op_ObjectMutatorInt` of
`object_mutator_operations.h` (absent), the mutator overload of the
one-integer opcodes (`objEveLeft`, `objEveTop`, `objEveAlpha`).  As in
`objEveAdjust`, the start value is captured from the object at creation, and
the mutator is stored for the whole object (repno `-1`). -/
def Op_ObjectMutatorInt (property : IntProperty) (name : String) (machine : RLMachine)
    (obj endval duration_time delay type : Int) : Except RLError RLMachine :=
  let creation_time := machine.ticks
  match GetGraphicsObject machine.objects obj with
  | none => .ok machine
  | some object =>
    let startval := property.get object
    .ok (machine.withObject obj (object.AddObjectMutator (.OneInt
      { base := { repno := -1, name := name, creation_time := creation_time,
                  duration_time := duration_time, delay := delay, type := type }
        setter := property
        startval := startval
        endval := endval })))

/-- Modelled from the spec: `Op_ObjectMutatorRepnoInt` of
`object_mutator_operations.h` (absent), the mutator overload of the per-slot
opcodes (`objEveAdjustX`, `objEveAdjustY`, `objEveAdjustAlpha`). -/
def Op_ObjectMutatorRepnoInt (property : RepnoProperty) (name : String)
    (machine : RLMachine) (obj repno endval duration_time delay type : Int) :
    Except RLError RLMachine :=
  let creation_time := machine.ticks
  match GetGraphicsObject machine.objects obj with
  | none => .ok machine
  | some object =>
    let startval := property.get object repno
    .ok (machine.withObject obj (object.AddObjectMutator (.RepnoInt
      { base := { repno := repno, name := name, creation_time := creation_time,
                  duration_time := duration_time, delay := delay, type := type }
        repno := repno
        setter := property
        startval := startval
        endval := endval })))

/-- Modelled from the spec: `Op_ObjectMutatorIntInt` of
`object_mutator_operations.h` (absent), the mutator overload of the coupled
opcodes (`objEveMove`, `objEveScale`). -/
def Op_ObjectMutatorIntInt (property_one property_two : IntProperty) (name : String)
    (machine : RLMachine) (obj endval_one endval_two duration_time delay type : Int) :
    Except RLError RLMachine :=
  let creation_time := machine.ticks
  match GetGraphicsObject machine.objects obj with
  | none => .ok machine
  | some object =>
    let startval_one := property_one.get object
    let startval_two := property_two.get object
    .ok (machine.withObject obj (object.AddObjectMutator (.TwoInt
      { base := { repno := -1, name := name, creation_time := creation_time,
                  duration_time := duration_time, delay := delay, type := type }
        setter_one := property_one
        startval_one := startval_one
        endval_one := endval_one
        setter_two := property_two
        startval_two := startval_two
        endval_two := endval_two })))

/-- Modelled from the spec: `Op_EndObjectMutation_RepNo` of
`object_mutator_operations.h` (absent), `ForceEndMutator(handle, repno, name)`
of section 6. -/
def Op_EndObjectMutation_RepNo (name : String) (machine : RLMachine) (obj repno : Int) :
    Except RLError RLMachine :=
  match GetGraphicsObject machine.objects obj with
  | none => .ok machine
  | some object => .ok (machine.withObject obj (object.EndObjectMutatorMatching repno name))

/-- Modelled from the spec: `Op_EndObjectMutation_Normal` of
`object_mutator_operations.h` (absent), the end opcode of the families stored
for the whole object; it passes repno `-1`. -/
def Op_EndObjectMutation_Normal (name : String) (machine : RLMachine) (obj : Int) :
    Except RLError RLMachine :=
  Op_EndObjectMutation_RepNo name machine obj (-1)

/-- From the source: `MutatorIsDone`.  The machine reference is the object
table that is current when the function is called; on a handle that addresses
no object no mutator is running. -/
def MutatorIsDone (objects : List GraphicsObject) (obj repno : Int) (name : String) : Bool :=
  match GetGraphicsObject objects obj with
  | some object => object.IsMutatorRunningMatching repno name == false
  | none => true

/-- From the source: `Op_MutatorWaitNormal::operator()`. -/
def Op_MutatorWaitNormal (name_ : String) (machine : RLMachine) (obj : Int) :
    Except RLError RLMachine :=
  let wait_op := WaitLongOperation.new
  let wait_op := wait_op.BreakOnEvent (fun objects => MutatorIsDone objects obj (-1) name_)
  .ok (machine.PushLongOperation (.Wait wait_op))

/-- From the source: `Op_MutatorWaitRepNo::operator()`. -/
def Op_MutatorWaitRepNo (name_ : String) (machine : RLMachine) (obj repno : Int) :
    Except RLError RLMachine :=
  let wait_op := WaitLongOperation.new
  let wait_op := wait_op.BreakOnEvent (fun objects => MutatorIsDone objects obj repno name_)
  .ok (machine.PushLongOperation (.Wait wait_op))

/-- From the source: `objectMutatorIsWorking`. -/
def objectMutatorIsWorking (objects : List GraphicsObject) (obj repno : Int)
    (name : String) : Bool :=
  match GetGraphicsObject objects obj with
  | some object => object.IsMutatorRunningMatching repno name == false
  | none => true

/-- From the source: `Op_MutatorWaitCNormal::operator()`. -/
def Op_MutatorWaitCNormal (name_ : String) (machine : RLMachine) (obj : Int) :
    Except RLError RLMachine :=
  let wait_op := WaitLongOperation.new
  let wait_op := wait_op.BreakOnClicks
  let wait_op :=
    wait_op.BreakOnEvent (fun objects => objectMutatorIsWorking objects obj (-1) name_)
  .ok (machine.PushLongOperation (.Wait wait_op))

/-- From the source: `Op_MutatorWaitCRepNo::operator()`. -/
def Op_MutatorWaitCRepNo (name_ : String) (machine : RLMachine) (obj repno : Int) :
    Except RLError RLMachine :=
  let wait_op := WaitLongOperation.new
  let wait_op := wait_op.BreakOnClicks
  let wait_op :=
    wait_op.BreakOnEvent (fun objects => objectMutatorIsWorking objects obj repno name_)
  .ok (machine.PushLongOperation (.Wait wait_op))

/-! ## Concrete states used by the examples -/

/-- An object at the origin with eight adjustment slots and an empty registry. -/
def exampleObject : GraphicsObject :=
  { x := 0, y := 0, alpha := 255, visible := 1, width := 100, height := 100
    adjust_x := [0, 0, 0, 0, 0, 0, 0, 0]
    adjust_y := [0, 0, 0, 0, 0, 0, 0, 0]
    adjust_alpha := [0, 0, 0, 0, 0, 0, 0, 0]
    object_mutators := [] }

/-- An `AdjustMutator` on slot `repno`, created at time 0, lasting 1000 ms, from
`(0, 0)` to `(5, 6)`. -/
def exampleAdjust (repno : Int) : AdjustMutator :=
  { base := { repno := repno, name := "objEveAdjust", creation_time := 0,
              duration_time := 1000, delay := 0, type := 0 }
    repno_ := repno, start_x_ := 0, end_x_ := 5, start_y_ := 0, end_y_ := 6 }

/-- A machine at time 0 whose object table holds `exampleObject` only. -/
def exampleMachine : RLMachine :=
  { ticks := 0, objects := [exampleObject], stack := [], next_id := 0
    advance_log := [], composites := [], resumes := 0 }

/-- The example machine at the tick count 3000000000, which is above `2^31`
and below `2^32`. -/
def exampleMachineLate : RLMachine :=
  { exampleMachine with ticks := 3000000000 }

/-- The mutator of the linear scenario: `x` from 0 to 100, created at time 0,
no delay, 1000 ms, linear. -/
def scenarioMutator : Mutator :=
  .OneInt { base := { repno := -1, name := "objEveLeft", creation_time := 0,
                      duration_time := 1000, delay := 0, type := 0 }
            setter := .X, startval := 0, endval := 100 }

/-- The object of the linear scenario after the mutator was added. -/
def scenarioObject : GraphicsObject :=
  exampleObject.AddObjectMutator scenarioMutator

/-- The states that the stack can be in after operation `a` and then operation
`b` were pushed on an empty stack whose machine had returned to the interpreter
`r` times: both on the stack, only `a` left, or both popped and control
returned once more. -/
def RLMachine.twoPushed (a b r : Nat) (m : RLMachine) : Prop :=
  (∃ opB opA, m.stack = [{ id := b, op := opB }, { id := a, op := opA }] ∧ m.resumes = r)
  ∨ (∃ opA, m.stack = [{ id := a, op := opA }] ∧ m.resumes = r)
  ∨ (m.stack = [] ∧ m.resumes = r + 1)

/-- A wait for the `objEveLeft` mutators of object 0, as pushed by
`Op_MutatorWaitNormal`. -/
def exampleWait : LongOperation :=
  .Wait (WaitLongOperation.new.BreakOnEvent
    (fun objects => MutatorIsDone objects 0 (-1) "objEveLeft"))

/-- A frame at time `now` without external events. -/
def quietFrame (now : Int) : RLMachine.FrameInput :=
  { now := now, events := { clicked := false, keys := [] } }

/-! ## The effect factory and the Bgr opcodes -/

/-- What the effect factory resolves a known selector to: the blend algorithm
and the duration of the transition in milliseconds. -/
structure SelEntry where
  algorithm : Int
  duration : Int
deriving DecidableEq, Repr

/-- Modelled from the spec: `EffectFactory::BuildFromSEL` (`effects/`, absent).
Section 4.4: the blend algorithm is selected by integer code, resolved once at
construction; a code the factory does not know fails with a
`ConfigurationError` and nothing is defaulted.  `factory sel` is what the
factory knows of the selector (`none` for an unknown code).  The effect is
anchored at the clock reading of its construction and starts unfinished.  The
argument order `(after, before)` is that of the calls in the source. -/
def BuildFromSEL (factory : Int → Option SelEntry) (machine : RLMachine)
    (after before : Surface) (sel : Int) : Except RLError LongOperation :=
  match factory sel with
  | none => .error .ConfigurationError
  | some entry =>
    .ok (.Transition
      { before := before, after := after, algorithm := entry.algorithm
        start_time := machine.ticks, duration := entry.duration, finished := false })

/-- A sequence of `advance` calls on an effect, at the given times in order. -/
def Effect.advanceAll (e : Effect) (times : List Int) : Effect :=
  times.foldl (fun acc now => (acc.advance now).1) e

/-- The kind of background the graphics system shows. -/
inductive GraphicsBackground where
  | BACKGROUND_DC0
  | BACKGROUND_HIK
deriving DecidableEq, Repr

/-- A rectangle of a surface, as `(x, y, width, height)`. -/
structure Rect where
  x : Int
  y : Int
  width : Int
  height : Int
deriving DecidableEq, Repr

/-- A point of a surface. -/
structure Point where
  x : Int
  y : Int
deriving DecidableEq, Repr

/-- Modelled from the spec: the state of `GraphicsSystem`
(`systems/base/graphics_system.h`, absent) that the Bgr opcodes of the source
set: the default background name, the HIK renderer (the script it plays, or
none for `NULL`), the background kind, the haikei backing surface, the replay
stack of graphics commands, the names of the images marked as viewed, and the
background layer of objects (the foreground layer is the object table of the
machine). -/
structure GraphicsSystem where
  default_bgr_name : String
  hik_renderer : Option String
  graphics_background : GraphicsBackground
  haikei : Surface
  graphics_stack : List String
  viewed : List String
  background_objects : List GraphicsObject
deriving DecidableEq, Repr

namespace GraphicsSystem

def setDefaultBgrName (g : GraphicsSystem) (name : String) : GraphicsSystem :=
  { g with default_bgr_name := name }

def defaultBgrName (g : GraphicsSystem) : String := g.default_bgr_name

def setHikRenderer (g : GraphicsSystem) (renderer : Option String) : GraphicsSystem :=
  { g with hik_renderer := renderer }

def setGraphicsBackground (g : GraphicsSystem) (t : GraphicsBackground) : GraphicsSystem :=
  { g with graphics_background := t }

def clearStack (g : GraphicsSystem) : GraphicsSystem :=
  { g with graphics_stack := [] }

def getHaikei (g : GraphicsSystem) : Surface := g.haikei

end GraphicsSystem

/-- The collaborators of the Bgr opcodes whose code is absent and about which
the spec says nothing beyond their interface; they are parameters of the
opcodes.  `renderToSurface` captures the full-scene snapshot from the graphics
state and the foreground objects.  `clearAndPromoteObjects` acts on the
graphics state and the foreground objects.  `getSurfaceNamedAndMarkViewed`
loads an image and may fail.  `blitToSurface src dst srcRect dstRect alpha
useSrcAlpha` is the destination surface after the blit.  `FindFile` is the
path found for a name (empty when there is none), `GetHIKScript` the script a
HIK renderer is built from, `GetSELPointAndRect` the source rectangle and
destination point of a selector. -/
structure GraphicsBackend where
  renderToSurface : GraphicsSystem → List GraphicsObject → Surface
  clearAndPromoteObjects :
    GraphicsSystem → List GraphicsObject → GraphicsSystem × List GraphicsObject
  getSurfaceNamedAndMarkViewed :
    GraphicsSystem → String → Except RLError (Surface × GraphicsSystem)
  blitToSurface : Surface → Surface → Rect → Rect → Int → Bool → Surface
  rect : Surface → Rect
  fillClear : Surface → Surface
  FindFile : String → String
  GetHIKScript : String → String → String
  GetSELPointAndRect : Int → Rect × Point

/-- The state the Bgr opcodes run on: the machine, its graphics system, and
whether the machine is replaying the graphics stack. -/
structure BgrSystem where
  machine : RLMachine
  graphics : GraphicsSystem
  replaying_graphics_stack : Bool

/-- What an opcode leaves behind: the state reached, and the error it threw,
if any.  An exception does not undo the changes made before it. -/
structure Outcome where
  system : BgrSystem
  error : Option RLError

/-- The common tail of the three effect opcodes of the source:
`if (!machine.replaying_graphics_stack()) graphics.clearAndPromoteObjects();`
then `after = graphics.renderToSurface()`, then
`effect = EffectFactory::BuildFromSEL(machine, after, before, sel)` and
`machine.PushLongOperation(effect)`. -/
def promoteRenderBuildPush (be : GraphicsBackend) (factory : Int → Option SelEntry)
    (s : BgrSystem) (before : Surface) (sel : Int) : Outcome :=
  let promoted :=
    if !s.replaying_graphics_stack then
      be.clearAndPromoteObjects s.graphics s.machine.objects
    else (s.graphics, s.machine.objects)
  let s1 : BgrSystem :=
    { s with graphics := promoted.1, machine := { s.machine with objects := promoted.2 } }
  let after := be.renderToSurface s1.graphics s1.machine.objects
  match BuildFromSEL factory s1.machine after before sel with
  | .error e => { system := s1, error := some e }
  | .ok effect =>
    { system := { s1 with machine := s1.machine.PushLongOperation effect }, error := none }

/-- From the source: `bgrLoadHaikei_blank::operator()`. -/
def bgrLoadHaikei_blank (be : GraphicsBackend) (factory : Int → Option SelEntry)
    (s : BgrSystem) (sel : Int) : Outcome :=
  let graphics := s.graphics.setDefaultBgrName ""
  let graphics := graphics.setHikRenderer none
  let graphics := graphics.setGraphicsBackground .BACKGROUND_HIK
  let before := be.renderToSurface graphics s.machine.objects
  let graphics := { graphics with haikei := be.fillClear graphics.getHaikei }
  promoteRenderBuildPush be factory { s with graphics := graphics } before sel

/-- The test `iends_with(path.string(), "hik")` of the source. -/
def iends_with_hik (path : String) : Bool :=
  path.toLower.endsWith "hik"

/-- From the source: `bgrLoadHaikei_main::operator()`. -/
def bgrLoadHaikei_main (be : GraphicsBackend) (factory : Int → Option SelEntry)
    (s : BgrSystem) (filename : String) (sel : Int) : Outcome :=
  let graphics := s.graphics.setDefaultBgrName filename
  let graphics := graphics.setGraphicsBackground .BACKGROUND_HIK
  let graphics := graphics.clearStack
  let path := be.FindFile filename
  if iends_with_hik path then
    let promoted :=
      if !s.replaying_graphics_stack then
        be.clearAndPromoteObjects graphics s.machine.objects
      else (graphics, s.machine.objects)
    let graphics := promoted.1.setHikRenderer (some (be.GetHIKScript filename path))
    { system :=
        { s with graphics := graphics, machine := { s.machine with objects := promoted.2 } }
      error := none }
  else
    let before := be.renderToSurface graphics s.machine.objects
    if path ≠ "" then
      match be.getSurfaceNamedAndMarkViewed graphics filename with
      | .error e => { system := { s with graphics := graphics }, error := some e }
      | .ok (source, graphics) =>
        let haikei := graphics.getHaikei
        let graphics :=
          { graphics with
            haikei := be.blitToSurface source haikei (be.rect source) (be.rect source) 255 true }
        promoteRenderBuildPush be factory { s with graphics := graphics } before sel
    else
      promoteRenderBuildPush be factory { s with graphics := graphics } before sel

/-- One element of the `BgrMultiCommand` list: the tag `type`, the payload
`first` of a type 0 command and the payload `third` of a type 2 command. -/
structure BgrMultiCommand where
  type : Int
  first : String
  third : String × Int
deriving DecidableEq, Repr

/-- From the source: the body of the `for` loop of `bgrMulti_1::operator()`,
acting on the graphics state. -/
def bgrMultiStep (be : GraphicsBackend) (graphics : GraphicsSystem)
    (it : BgrMultiCommand) : Except RLError GraphicsSystem :=
  if it.type = 0 then
    match be.getSurfaceNamedAndMarkViewed graphics it.first with
    | .error e => .error e
    | .ok (surface, graphics) =>
      .ok { graphics with
            haikei := be.blitToSurface surface graphics.getHaikei (be.rect surface)
              (be.rect surface) 255 true }
  else if it.type = 2 then
    let srcRect := (be.GetSELPointAndRect it.third.2).1
    let dest := (be.GetSELPointAndRect it.third.2).2
    match be.getSurfaceNamedAndMarkViewed graphics it.third.1 with
    | .error e => .error e
    | .ok (surface, graphics) =>
      let destRect : Rect :=
        { x := dest.x, y := dest.y, width := srcRect.width, height := srcRect.height }
      .ok { graphics with
            haikei := be.blitToSurface surface graphics.getHaikei srcRect destRect 255 true }
  else .ok graphics

/-- From the source: the `for` loop of `bgrMulti_1::operator()`.  The result is
the graphics state reached and the error that ended the loop, if any. -/
def bgrMultiLoop (be : GraphicsBackend) :
    GraphicsSystem → List BgrMultiCommand → GraphicsSystem × Option RLError
  | graphics, [] => (graphics, none)
  | graphics, it :: rest =>
    match bgrMultiStep be graphics it with
    | .error e => (graphics, some e)
    | .ok graphics1 => bgrMultiLoop be graphics1 rest

/-- From the source: `bgrMulti_1::operator()`. -/
def bgrMulti_1 (be : GraphicsBackend) (factory : Int → Option SelEntry)
    (s : BgrSystem) (filename : String) (effectNum : Int)
    (commands : List BgrMultiCommand) : Outcome :=
  let before := be.renderToSurface s.graphics s.machine.objects
  let graphics := s.graphics.setGraphicsBackground .BACKGROUND_HIK
  let filename := if filename = "???" then graphics.defaultBgrName else filename
  match be.getSurfaceNamedAndMarkViewed graphics filename with
  | .error e => { system := { s with graphics := graphics }, error := some e }
  | .ok (surface, graphics) =>
    let graphics :=
      { graphics with
        haikei := be.blitToSurface surface graphics.getHaikei (be.rect surface)
          (be.rect surface) 255 true }
    match bgrMultiLoop be graphics commands with
    | (graphics, some e) => { system := { s with graphics := graphics }, error := some e }
    | (graphics, none) =>
      promoteRenderBuildPush be factory { s with graphics := graphics } before effectNum

/-! ## The opcode table of `addEveObjectFunctions` -/

/-- The setters of `GraphicsObject` that the plain (overload 0) opcodes of the
table are built from. -/
inductive ObjectSetter where
  | SetX | SetY | SetAlpha | SetVisible | SetWidth | SetHeight
deriving DecidableEq, Repr

/-- The operation objects that `addEveObjectFunctions` registers, with their
constructor arguments (`getter`/`setter` pairs are given by the property they
address, the last argument is the name tag). -/
inductive EveOperation where
  | Obj_SetOneIntOnObj (setter : ObjectSetter)
  | Obj_SetTwoIntOnObj (setter_one setter_two : ObjectSetter)
  | adjust
  | adjustX
  | adjustY
  | objAdjustAlpha
  | Op_ObjectMutatorInt (property : IntProperty) (name : String)
  | Op_ObjectMutatorIntInt (property_one property_two : IntProperty) (name : String)
  | Op_ObjectMutatorRepnoInt (property : RepnoProperty) (name : String)
  | objEveDisplay_1
  | objEveDisplay_2
  | objEveDisplay_3
  | objEveAdjust
  | Op_MutatorWaitNormal (name : String)
  | Op_MutatorWaitRepNo (name : String)
  | Op_MutatorWaitCNormal (name : String)
  | Op_MutatorWaitCRepNo (name : String)
  | Op_EndObjectMutation_Normal (name : String)
  | Op_EndObjectMutation_RepNo (name : String)
deriving DecidableEq, Repr

/-- One `m.AddOpcode(opcode, overload, name, op)` call. -/
structure OpcodeEntry where
  opcode : Nat
  overload : Nat
  name : String
  op : EveOperation
deriving DecidableEq, Repr

/-- From the source: the `AddOpcode` calls of `addEveObjectFunctions`, in
order. -/
def addEveObjectFunctions : List OpcodeEntry :=
  [ { opcode := 2000, overload := 0, name := "objEveMove",
      op := .Obj_SetTwoIntOnObj .SetX .SetY },
    { opcode := 2000, overload := 1, name := "objEveMove",
      op := .Op_ObjectMutatorIntInt .X .Y "objEveMove" },
    { opcode := 2001, overload := 0, name := "objEveLeft", op := .Obj_SetOneIntOnObj .SetX },
    { opcode := 2001, overload := 1, name := "objEveLeft",
      op := .Op_ObjectMutatorInt .X "objEveLeft" },
    { opcode := 2002, overload := 0, name := "objEveTop", op := .Obj_SetOneIntOnObj .SetY },
    { opcode := 2002, overload := 1, name := "objEveTop",
      op := .Op_ObjectMutatorInt .Y "objEveTop" },
    { opcode := 2003, overload := 0, name := "objEveAlpha",
      op := .Obj_SetOneIntOnObj .SetAlpha },
    { opcode := 2003, overload := 1, name := "objEveAlpha",
      op := .Op_ObjectMutatorInt .Alpha "objEveAlpha" },
    { opcode := 2004, overload := 0, name := "objEveDisplay",
      op := .Obj_SetOneIntOnObj .SetVisible },
    { opcode := 2004, overload := 1, name := "objEveDisplay", op := .objEveDisplay_1 },
    { opcode := 2004, overload := 2, name := "objEveDisplay", op := .objEveDisplay_2 },
    { opcode := 2004, overload := 3, name := "objEveDisplay", op := .objEveDisplay_3 },
    { opcode := 2006, overload := 0, name := "objEveAdjust", op := .adjust },
    { opcode := 2006, overload := 1, name := "objEveAdjust", op := .objEveAdjust },
    { opcode := 2007, overload := 0, name := "objEveAdjustX", op := .adjustX },
    { opcode := 2007, overload := 1, name := "objEveAdjustX",
      op := .Op_ObjectMutatorRepnoInt .XAdjustment "objEveAdjustX" },
    { opcode := 2008, overload := 0, name := "objEveAdjustY", op := .adjustY },
    { opcode := 2008, overload := 1, name := "objEveAdjustY",
      op := .Op_ObjectMutatorRepnoInt .YAdjustment "objEveAdjustY" },
    { opcode := 2040, overload := 0, name := "objEveAdjustAlpha", op := .objAdjustAlpha },
    { opcode := 2040, overload := 1, name := "objEveAdjustAlpha",
      op := .Op_ObjectMutatorRepnoInt .AlphaAdjustment "objEveAdjustAlpha" },
    { opcode := 2046, overload := 0, name := "objEveScale",
      op := .Obj_SetTwoIntOnObj .SetWidth .SetHeight },
    { opcode := 2046, overload := 1, name := "objEveScale",
      op := .Op_ObjectMutatorIntInt .Width .Height "objEveScale" },
    { opcode := 4000, overload := 0, name := "objEveMoveWait",
      op := .Op_MutatorWaitNormal "objEveMove" },
    { opcode := 4001, overload := 0, name := "objEveLeftWait",
      op := .Op_MutatorWaitNormal "objEveLeft" },
    { opcode := 4002, overload := 0, name := "objEveTopWait",
      op := .Op_MutatorWaitNormal "objEveTop" },
    { opcode := 4003, overload := 0, name := "objEveAlphaWait",
      op := .Op_MutatorWaitNormal "objEveAlpha" },
    { opcode := 4004, overload := 0, name := "objEveDisplayWait",
      op := .Op_MutatorWaitNormal "objEveDisplay" },
    { opcode := 4006, overload := 0, name := "objEveAdjustEnd",
      op := .Op_MutatorWaitRepNo "objEveAdjust" },
    { opcode := 4040, overload := 0, name := "objEveAdjustAlpha",
      op := .Op_MutatorWaitRepNo "objEveAdjustAlpha" },
    { opcode := 5000, overload := 0, name := "objEveMoveWaitC",
      op := .Op_MutatorWaitCNormal "objEveMove" },
    { opcode := 5001, overload := 0, name := "objEveLeftWaitC",
      op := .Op_MutatorWaitCNormal "objEveLeft" },
    { opcode := 5002, overload := 0, name := "objEveTopWaitC",
      op := .Op_MutatorWaitCNormal "objEveTop" },
    { opcode := 5003, overload := 0, name := "objEveAlphaWaitC",
      op := .Op_MutatorWaitCNormal "objEveAlpha" },
    { opcode := 5004, overload := 0, name := "objEveDisplayWaitC",
      op := .Op_MutatorWaitCNormal "objEveDisplay" },
    { opcode := 5006, overload := 0, name := "objEveAdjustWaitC",
      op := .Op_MutatorWaitCRepNo "objEveAdjust" },
    { opcode := 5040, overload := 0, name := "objEveAdjustAlphaWaitC",
      op := .Op_MutatorWaitCRepNo "objEveAdjustAlpha" },
    { opcode := 6000, overload := 0, name := "objEveMoveEnd",
      op := .Op_EndObjectMutation_Normal "objEveMove" },
    { opcode := 6001, overload := 0, name := "objEveLeftEnd",
      op := .Op_EndObjectMutation_Normal "objEveLeft" },
    { opcode := 6002, overload := 0, name := "objEveTopEnd",
      op := .Op_EndObjectMutation_Normal "objEveTop" },
    { opcode := 6003, overload := 0, name := "objEveAlphaEnd",
      op := .Op_EndObjectMutation_Normal "objEveAlpha" },
    { opcode := 6004, overload := 0, name := "objEveDisplayEnd",
      op := .Op_EndObjectMutation_Normal "objEveDisplay" },
    { opcode := 6006, overload := 0, name := "objEveAdjustEnd",
      op := .Op_EndObjectMutation_RepNo "objEveAdjust" },
    { opcode := 6040, overload := 0, name := "objEveAdjustAlphaEnd",
      op := .Op_EndObjectMutation_RepNo "objEveAdjustAlpha" } ]

/-- The mutator an operation of the table adds when it is executed, by the
embedding of that operation, at clock reading 0 on the object `object` taken
with an empty registry; the script arguments are passed as `arg` (the repno of
the repno-taking operations is `repno`).  `none` for the operations that add no
mutator. -/
def EveOperation.created (op : EveOperation) (object : GraphicsObject) (repno arg : Int) :
    Option Mutator :=
  let machine : RLMachine :=
    { ticks := 0, objects := [{ object with object_mutators := [] }], stack := [],
      next_id := 0, advance_log := [], composites := [], resumes := 0 }
  let result : Option (Except RLError RLMachine) :=
    match op with
    | .Op_ObjectMutatorInt property name =>
      some (RLVM.Op_ObjectMutatorInt property name machine 0 arg arg arg arg)
    | .Op_ObjectMutatorIntInt p q name =>
      some (RLVM.Op_ObjectMutatorIntInt p q name machine 0 arg arg arg arg arg)
    | .Op_ObjectMutatorRepnoInt property name =>
      some (RLVM.Op_ObjectMutatorRepnoInt property name machine 0 repno arg arg arg arg)
    | .objEveDisplay_1 =>
      some (RLVM.objEveDisplay_1 (fun _ => List.replicate 14 arg) machine 0 arg arg arg arg)
    | .objEveDisplay_2 =>
      some (RLVM.objEveDisplay_2 machine 0 arg arg arg arg arg arg arg arg)
    | .objEveDisplay_3 =>
      some (RLVM.objEveDisplay_3 machine 0 arg arg arg arg arg arg arg arg arg arg arg arg
        arg arg arg arg arg)
    | .objEveAdjust => some (RLVM.objEveAdjust machine 0 repno arg arg arg arg arg)
    | _ => none
  match result with
  | some (.ok machine1) =>
    match machine1.objects.head? with
    | some object1 => object1.object_mutators.getLast?
    | none => none
  | _ => none

/-- The name tag a wait or end operation of the table queries, and whether the
operation takes a repno argument from the script. -/
def EveOperation.queried : EveOperation → Option (String × Bool)
  | .Op_MutatorWaitNormal name => some (name, false)
  | .Op_MutatorWaitRepNo name => some (name, true)
  | .Op_MutatorWaitCNormal name => some (name, false)
  | .Op_MutatorWaitCRepNo name => some (name, true)
  | .Op_EndObjectMutation_Normal name => some (name, false)
  | .Op_EndObjectMutation_RepNo name => some (name, true)
  | _ => none

/-- The name tag and the repno kind (`true`: the slot repno of the script,
`false`: `-1`, the whole object) that the mutator-creating operations of the
table store; `none` for the other operations. -/
def EveOperation.stored : EveOperation → Option (String × Bool)
  | .Op_ObjectMutatorInt _ name => some (name, false)
  | .Op_ObjectMutatorIntInt _ _ name => some (name, false)
  | .Op_ObjectMutatorRepnoInt _ name => some (name, true)
  | .objEveDisplay_1 => some ("objEveDisplay", false)
  | .objEveDisplay_2 => some ("objEveDisplay", false)
  | .objEveDisplay_3 => some ("objEveDisplay", false)
  | .objEveAdjust => some ("objEveAdjust", true)
  | _ => none

/-! ## Single-precision arithmetic (`float`) -/

/-- Rounding to the nearest integer, ties to the even one. -/
def roundHalfEven (x : ℚ) : Int :=
  if x - ⌊x⌋ < 1 / 2 then ⌊x⌋
  else if 1 / 2 < x - ⌊x⌋ then ⌊x⌋ + 1
  else if ⌊x⌋ % 2 = 0 then ⌊x⌋ else ⌊x⌋ + 1

/-- The binary exponent `e` of the `float` binade of `q`:
`2^e ≤ |q| < 2^(e+1)`, and `-126` in the subnormal range. -/
def floatExponent (q : ℚ) : Int :=
  max (Int.log 2 |q|) (-126)

/-- Rounding of a real value to `float` precision (IEEE 754 binary32, round to
nearest, ties to even): the significand has 24 bits, so the values of the
binade of exponent `e` are the multiples of `2^(e-23)`.  The exponent is not
bounded from above here; `Float32.round` takes care of the overflow. -/
def roundToFloat (q : ℚ) : ℚ :=
  if q = 0 then 0
  else (roundHalfEven (q / 2 ^ (floatExponent q - 23)) : ℚ) * 2 ^ (floatExponent q - 23)

/-- A value of the C++ type `float` as the source computes with it (IEEE 754
binary32, every operation rounded to `float`, as on x86-64): a finite value,
given exactly, or a value that is not finite (an infinity or a NaN). -/
inductive Float32 where
  | finite (value : ℚ)
  | nonfinite
deriving DecidableEq

namespace Float32

/-- The `float` nearest to `q`; a value that rounds to `2^128` or beyond
overflows to an infinity. -/
def round (q : ℚ) : Float32 :=
  if (2 : ℚ) ^ 128 ≤ |roundToFloat q| then nonfinite else finite (roundToFloat q)

/-- The conversion of an `int` to `float`. -/
def ofInt (n : Int) : Float32 := round (n : ℚ)

/-- The sum of two `float`s.  An operand that is not finite gives a result that
is not finite. -/
def add : Float32 → Float32 → Float32
  | finite x, finite y => round (x + y)
  | _, _ => nonfinite

/-- The difference of two `float`s. -/
def sub : Float32 → Float32 → Float32
  | finite x, finite y => round (x - y)
  | _, _ => nonfinite

/-- The product of two `float`s (a product with an infinity is an infinity or a
NaN). -/
def mul : Float32 → Float32 → Float32
  | finite x, finite y => round (x * y)
  | _, _ => nonfinite

/-- The quotient of two `float`s.  Division by zero gives an infinity or a NaN.
The divisors of the source are converted `int`s and the constant `100.0f`,
which are finite. -/
def div : Float32 → Float32 → Float32
  | finite x, finite y => if y = 0 then nonfinite else round (x / y)
  | _, _ => nonfinite

/-- The function `floor` of `<cmath>`; the floor of a `float` is a `float`. -/
def floor : Float32 → Float32
  | finite x => finite (⌊x⌋ : Int)
  | nonfinite => nonfinite

/-- The conversion of a floating-point value to `int`: truncation toward zero.
For a value that is not finite or whose truncation is outside the range of
`int` the conversion is undefined in C++; the value given here is the one the
x86 conversion instruction yields, `INT_MIN`. -/
def toInt : Float32 → Int
  | finite x =>
    if -2147483648 ≤ truncate x ∧ truncate x < 2147483648 then truncate x
    else -2147483648
  | nonfinite => -2147483648

end Float32

/-! ## Texture pieces (`Systems/SDL/Texture.cpp`) -/

/-- The data members of `Texture` that `filterCoords` reads (`Texture.hpp` is
absent; the members are taken as `int`). -/
structure Texture where
  m_xOffset : Int
  m_yOffset : Int
  m_logicalWidth : Int
  m_logicalHeight : Int
deriving DecidableEq, Repr

/-- The eight in/out reference parameters of `Texture::filterCoords`. -/
structure Coords where
  x1 : Int
  y1 : Int
  x2 : Int
  y2 : Int
  dx1 : Int
  dy1 : Int
  dx2 : Int
  dy2 : Int
deriving DecidableEq, Repr

/-- From the source: `Texture::filterCoords`.  The result is the returned
boolean and the values of the eight reference parameters after the call.  The
destination adjustment is computed in `float` arithmetic as in the source: an
`int` operand of a `float` operation is converted to `float`, every operation
is rounded to `float`, and the result of `floor` is converted to `int` on
assignment. -/
def Texture.filterCoords (t : Texture) (c : Coords) : Bool × Coords :=
  let w1 := c.x2 - c.x1
  let h1 := c.y2 - c.y1
  if c.x1 + w1 > t.m_xOffset ∧ c.x1 < t.m_xOffset + t.m_logicalWidth ∧
      c.y1 + h1 > t.m_yOffset ∧ c.y1 < t.m_yOffset + t.m_logicalHeight then
    let virX := max c.x1 t.m_xOffset
    let virY := max c.y1 t.m_yOffset
    let w := min (c.x1 + w1) (t.m_xOffset + t.m_logicalWidth) - max c.x1 t.m_xOffset
    let h := min (c.y1 + h1) (t.m_yOffset + t.m_logicalHeight) - max c.y1 t.m_yOffset
    let dxWidth := c.dx2 - c.dx1
    let dyHeight := c.dy2 - c.dy1
    let dx1Off := (Float32.ofInt (virX - c.x1)).div (Float32.ofInt w1)
    let dx1 :=
      (((Float32.ofInt c.dx1).add ((Float32.ofInt dxWidth).mul dx1Off)).floor).toInt
    let dx2Off := (Float32.ofInt (w1 - w - (virX - c.x1))).div (Float32.ofInt w1)
    let dx2 :=
      (((Float32.ofInt c.dx2).sub ((Float32.ofInt dxWidth).mul dx2Off)).floor).toInt
    let dy1Off := (Float32.ofInt (virY - c.y1)).div (Float32.ofInt h1)
    let dy1 :=
      (((Float32.ofInt c.dy1).add ((Float32.ofInt dyHeight).mul dy1Off)).floor).toInt
    let dy2Off := (Float32.ofInt (h1 - h - (virY - c.y1))).div (Float32.ofInt h1)
    let dy2 :=
      (((Float32.ofInt c.dy2).sub ((Float32.ofInt dyHeight).mul dy2Off)).floor).toInt
    let x1 := virX - t.m_xOffset
    let y1 := virY - t.m_yOffset
    (true, { x1 := x1, y1 := y1, x2 := x1 + w, y2 := y1 + h,
             dx1 := dx1, dy1 := dy1, dx2 := dx2, dy2 := dy2 })
  else (false, c)

/-- The static members `Texture::m_shaderObjectID` and
`Texture::m_programObjectID`, shared by all textures, together with the number
of `buildShader` invocations so far. -/
structure ShaderStatics where
  m_shaderObjectID : Nat
  m_programObjectID : Nat
  builds : Nat
deriving DecidableEq, Repr

/-- From the source: the initial values of the static members. -/
def ShaderStatics.initial : ShaderStatics :=
  { m_shaderObjectID := 0, m_programObjectID := 0, builds := 0 }

/-- From the source: `Texture::buildShader`.  `glCreateShaderObjectARB k` and
`glCreateProgramObjectARB k` are the handles the GL driver returns to the
invocation number `k`. -/
def buildShader (glCreateShaderObjectARB glCreateProgramObjectARB : Nat → Nat)
    (g : ShaderStatics) : ShaderStatics :=
  { m_shaderObjectID := glCreateShaderObjectARB g.builds
    m_programObjectID := glCreateProgramObjectARB g.builds
    builds := g.builds + 1 }

/-- From the source: `Texture::renderToScreenAsColorMask_subtractive_glsl`, its
effect on the static members: nothing when `filterCoords` rejects the
coordinates, otherwise the shader is built if `m_shaderObjectID == 0`.  The
drawing calls that follow read the ids and do not write them. -/
def renderToScreenAsColorMask_subtractive_glsl
    (glCreateShaderObjectARB glCreateProgramObjectARB : Nat → Nat)
    (g : ShaderStatics) (call : Texture × Coords) : ShaderStatics :=
  if !(call.1.filterCoords call.2).1 then g
  else if g.m_shaderObjectID = 0 then
    buildShader glCreateShaderObjectARB glCreateProgramObjectARB g
  else g

/-- A transition effect of 500 ms built at time 1000 from two snapshots. -/
def exampleEffect : Effect :=
  { before := { pixels := [0] }, after := { pixels := [1] }, algorithm := 10
    start_time := 1000, duration := 500, finished := false }

/-- A factory that knows selector 0 only: algorithm 10, 500 ms. -/
def exampleFactory (sel : Int) : Option SelEntry :=
  if sel = 0 then some { algorithm := 10, duration := 500 } else none

/-- The example machine at clock reading 1000. -/
def exampleMachineAt1000 : RLMachine :=
  { exampleMachine with ticks := 1000 }

/-- The machine of the transition scenario: the example effect alone on the
stack, at clock reading 1000, the start time of the effect. -/
def transitionScenario : RLMachine :=
  exampleMachineAt1000.PushLongOperation (.Transition exampleEffect)

/-- A graphics state with an empty haikei and no renderer. -/
def exampleGraphics : GraphicsSystem :=
  { default_bgr_name := "", hik_renderer := none, graphics_background := .BACKGROUND_DC0
    haikei := { pixels := [] }, graphics_stack := [], viewed := []
    background_objects := [] }

/-- A backend whose snapshot is the haikei surface, whose image loads succeed
with an empty image, and whose other operations change nothing. -/
def exampleBackend : GraphicsBackend :=
  { renderToSurface := fun g _ => g.haikei
    clearAndPromoteObjects := fun g objects => (g, objects)
    getSurfaceNamedAndMarkViewed := fun g _ => .ok ({ pixels := [] }, g)
    blitToSurface := fun _ dst _ _ _ _ => dst
    rect := fun _ => { x := 0, y := 0, width := 0, height := 0 }
    fillClear := fun _ => { pixels := [] }
    FindFile := fun name => name
    GetHIKScript := fun name _ => name
    GetSELPointAndRect := fun _ =>
      ({ x := 0, y := 0, width := 0, height := 0 }, { x := 0, y := 0 }) }

/-- The example machine with the example graphics state, not replaying. -/
def exampleBgrSystem : BgrSystem :=
  { machine := exampleMachine, graphics := exampleGraphics
    replaying_graphics_stack := false }

/-- A texture piece of 640 by 480 at the origin. -/
def exampleTexture : Texture :=
  { m_xOffset := 0, m_yOffset := 0, m_logicalWidth := 640, m_logicalHeight := 480 }

/-- Coordinates whose source rectangle `[600, 700) x [400, 500)` overlaps the
example texture. -/
def exampleCoords : Coords :=
  { x1 := 600, y1 := 400, x2 := 700, y2 := 500, dx1 := 0, dy1 := 0, dx2 := 100, dy2 := 100 }

/-- Coordinates whose source rectangle lies to the right of the example
texture. -/
def exampleCoordsOutside : Coords :=
  { x1 := 640, y1 := 0, x2 := 700, y2 := 100, dx1 := 0, dy1 := 0, dx2 := 60, dy2 := 100 }

/-- The values `Texture::renderToScreenAsObject` reads from its arguments: the
rectangle of the pattern `surface.getPattern(go.pattNo())`, and from the object
`go` its position, adjustment sums, scale in percent and clip rectangle. -/
structure ObjectRenderInput where
  xSrc1 : Int
  ySrc1 : Int
  xSrc2 : Int
  ySrc2 : Int
  x : Int
  y : Int
  xAdjustmentSum : Int
  yAdjustmentSum : Int
  width : Int
  height : Int
  hasClip : Bool
  clipX1 : Int
  clipY1 : Int
  clipX2 : Int
  clipY2 : Int
deriving DecidableEq, Repr

/-- From the source: the first part of `Texture::renderToScreenAsObject`, the
source rectangle to clip out of the image and the position to display on,
before clipping.  `xPos2` is
`int(xPos1 + (xSrc2 - xSrc1) * (go.width() / 100.0f))`, computed in `float`
arithmetic: the `int` operands are converted to `float`, the quotient, the
product and the sum are each rounded to `float`, and `int(...)` truncates. -/
def objectCoords (i : ObjectRenderInput) : Coords :=
  let xPos1 := i.x + i.xAdjustmentSum
  let yPos1 := i.y + i.yAdjustmentSum
  let xPos2 :=
    ((Float32.ofInt xPos1).add
      ((Float32.ofInt (i.xSrc2 - i.xSrc1)).mul
        ((Float32.ofInt i.width).div (Float32.finite 100)))).toInt
  let yPos2 :=
    ((Float32.ofInt yPos1).add
      ((Float32.ofInt (i.ySrc2 - i.ySrc1)).mul
        ((Float32.ofInt i.height).div (Float32.finite 100)))).toInt
  { x1 := i.xSrc1, y1 := i.ySrc1, x2 := i.xSrc2, y2 := i.ySrc2
    dx1 := xPos1, dy1 := yPos1, dx2 := xPos2, dy2 := yPos2 }

/-- From the source: the clip handling of `Texture::renderToScreenAsObject` (the
body of `if (go.hasClip())`), on the source coordinates `x1 .. y2` (`xSrc1 ..
ySrc2`) and destination coordinates `dx1 .. dy2` (`xPos1 .. yPos2`).  `none`
when the function returns because the object falls wholly outside the clip
area. -/
def clipCoords (i : ObjectRenderInput) (c : Coords) : Option Coords :=
  if c.dx2 < i.clipX1 ∨ c.dx1 > i.clipX2 ∨ c.dy2 < i.clipY1 ∨ c.dy1 > i.clipY2 then none
  else
    let c1 : Coords :=
      if c.dx1 < i.clipX1 then { c with x1 := c.x1 + (i.clipX1 - c.dx1), dx1 := i.clipX1 }
      else c
    let c2 : Coords :=
      if c1.dy1 < i.clipY1 then { c1 with y1 := c1.y1 + (i.clipY1 - c1.dy1), dy1 := i.clipY1 }
      else c1
    let c3 : Coords :=
      if c2.dx2 ≥ i.clipX2 then
        { c2 with x2 := c2.x2 - (c2.dx2 - i.clipX2), dx2 := i.clipX2 + 1 }
      else c2
    let c4 : Coords :=
      if c3.dy2 ≥ i.clipY2 then
        { c3 with y2 := c3.y2 - (c3.dy2 - i.clipY2), dy2 := i.clipY2 + 1 }
      else c3
    some c4

/-- From the source: the coordinates that `Texture::renderToScreenAsObject`
hands to `filterCoords`; `none` when it returned in the clip test. -/
def coordsForObject (i : ObjectRenderInput) : Option Coords :=
  if i.hasClip then clipCoords i (objectCoords i) else some (objectCoords i)

/-- From the source: `Texture::renderToScreenAsObject`, the quad it draws: the
source and destination coordinates after the clip handling and `filterCoords`;
`none` when nothing is rendered. -/
def Texture.renderToScreenAsObject (t : Texture) (i : ObjectRenderInput) : Option Coords :=
  match coordsForObject i with
  | none => none
  | some c => if (t.filterCoords c).1 then some (t.filterCoords c).2 else none

/-- An unscaled object showing the pattern `[0, 100) x [0, 100)` at the origin,
clipped to the inclusive rectangle `(0, 0) - (99, 99)`: exactly its own area. -/
def exampleClipped : ObjectRenderInput :=
  { xSrc1 := 0, ySrc1 := 0, xSrc2 := 100, ySrc2 := 100, x := 0, y := 0
    xAdjustmentSum := 0, yAdjustmentSum := 0, width := 100, height := 100
    hasClip := true, clipX1 := 0, clipY1 := 0, clipX2 := 99, clipY2 := 99 }

/-- The same object clipped to the inclusive rectangle `(10, 20) - (49, 59)`. -/
def exampleClippedInside : ObjectRenderInput :=
  { exampleClipped with clipX1 := 10, clipY1 := 20, clipX2 := 49, clipY2 := 59 }

/-- The same object with a clip rectangle entirely to its left. -/
def exampleClippedOutside : ObjectRenderInput :=
  { exampleClipped with clipX1 := -50, clipY1 := 0, clipX2 := -1, clipY2 := 99 }


/-- Coordinates of magnitude at most `2^23`, which the conversion to `float`
keeps exact together with their sums and differences. -/
def Coords.small (c : Coords) : Prop :=
  (-8388608 ≤ c.x1 ∧ c.x1 ≤ 8388608) ∧ (-8388608 ≤ c.y1 ∧ c.y1 ≤ 8388608)
  ∧ (-8388608 ≤ c.x2 ∧ c.x2 ≤ 8388608) ∧ (-8388608 ≤ c.y2 ∧ c.y2 ≤ 8388608)
  ∧ (-8388608 ≤ c.dx1 ∧ c.dx1 ≤ 8388608) ∧ (-8388608 ≤ c.dy1 ∧ c.dy1 ≤ 8388608)
  ∧ (-8388608 ≤ c.dx2 ∧ c.dx2 ≤ 8388608) ∧ (-8388608 ≤ c.dy2 ∧ c.dy2 ≤ 8388608)

/-- An object scaled to 9 percent, showing a pattern 600 wide at `x = -100`,
with a clip rectangle that starts at `-45`. -/
def exampleScaled9 : ObjectRenderInput :=
  { xSrc1 := 0, ySrc1 := 0, xSrc2 := 600, ySrc2 := 100, x := -100, y := 0
    xAdjustmentSum := 0, yAdjustmentSum := 0, width := 9, height := 100
    hasClip := true, clipX1 := -45, clipY1 := 0, clipX2 := 100, clipY2 := 99 }

/-- An object scaled to 21 percent, showing a pattern 300 wide at the origin,
with a clip rectangle that starts at `63`. -/
def exampleScaled21 : ObjectRenderInput :=
  { xSrc1 := 0, ySrc1 := 0, xSrc2 := 300, ySrc2 := 100, x := 0, y := 0
    xAdjustmentSum := 0, yAdjustmentSum := 0, width := 21, height := 100
    hasClip := true, clipX1 := 63, clipY1 := 0, clipX2 := 200, clipY2 := 99 }

/-- A `DisplayMutator` that hides the example object at once: display 0,
duration 0, with `tr_mod` and `move_mod` set and a move of `(30, 40)`. -/
def exampleHiding : DisplayMutator :=
  DisplayMutator.new exampleObject 0 0 0 0 0 1 1 30 40 0 0 0 0 0 0 0 0 0

/-- The example backend with a snapshot that shows the kind of background
being displayed (`1` for `BACKGROUND_HIK`, `0` for `BACKGROUND_DC0`) in front
of the haikei surface. -/
def exampleKindBackend : GraphicsBackend :=
  { exampleBackend with
    renderToSurface := fun g _ =>
      { pixels :=
          (match g.graphics_background with
            | .BACKGROUND_HIK => 1
            | .BACKGROUND_DC0 => 0) :: g.haikei.pixels } }

/-- What an effect opcode that started in state `s` and took the snapshot
`before` leaves behind when it completes: exactly one entry on top of the stack
`s` had, holding the effect that `BuildFromSEL` builds from the selector, from
`before`, and from the `after` snapshot rendered from the final graphics state
and objects. -/
def Outcome.pushedEffectFrom (out : Outcome) (be : GraphicsBackend)
    (factory : Int → Option SelEntry) (s : BgrSystem) (before : Surface) (sel : Int) :
    Prop :=
  ∃ effect,
    BuildFromSEL factory s.machine
        (be.renderToSurface out.system.graphics out.system.machine.objects) before sel
      = .ok effect
    ∧ out.system.machine.stack = { id := s.machine.next_id, op := effect } :: s.machine.stack

/-! ## Lemmas on interpolation and slots -/

theorem truncate_intCast (n : Int) : truncate (n : ℚ) = n := by
  simp [truncate]

theorem truncate_zero : truncate 0 = 0 := by
  simp [truncate]

theorem curve_zero (type : Int) : curve type 0 = 0 := by
  unfold curve
  split_ifs <;> norm_num at *

theorem curve_one (type : Int) : curve type 1 = 1 := by
  unfold curve
  split_ifs <;> norm_num at *

theorem progress_at_start (m : ObjectMutator) :
    m.progress (m.creation_time + m.delay) = 0 := by
  unfold ObjectMutator.progress
  have h : m.creation_time + m.delay - m.creation_time - m.delay = 0 := by ring
  rw [h]
  simp

theorem progress_at_end (m : ObjectMutator) (now : Int) (hd : 0 < m.duration_time)
    (h : m.creation_time + m.delay + m.duration_time ≤ now) : m.progress now = 1 := by
  unfold ObjectMutator.progress
  have hd' : (0 : ℚ) < (m.duration_time : ℚ) := by exact_mod_cast hd
  have h1 : (1 : ℚ) ≤ ((now - m.creation_time - m.delay : Int) : ℚ) / (m.duration_time : ℚ) := by
    rw [le_div_iff₀ hd']
    have : m.duration_time ≤ now - m.creation_time - m.delay := by omega
    simpa using (Int.cast_le (R := ℚ)).mpr this
  rw [min_eq_left h1]
  norm_num

theorem GetValueForTime_at_start (m : ObjectMutator) (hd : 0 < m.duration_time)
    (start end_ : Int) :
    m.GetValueForTime (m.creation_time + m.delay) start end_ = start := by
  unfold ObjectMutator.GetValueForTime
  rw [if_neg (by omega), if_neg (by omega), progress_at_start, curve_zero]
  simp [truncate_zero]

theorem GetValueForTime_at_end (m : ObjectMutator) (now : Int) (hd : 0 < m.duration_time)
    (h : m.creation_time + m.delay + m.duration_time ≤ now) (start end_ : Int) :
    m.GetValueForTime now start end_ = end_ := by
  unfold ObjectMutator.GetValueForTime
  rw [if_neg (by omega), if_neg (by omega), progress_at_end m now hd h, curve_one, mul_one,
    truncate_intCast]
  ring

theorem slotGet_slotSet (slots : List Int) (idx v : Int)
    (h : 0 ≤ idx ∧ idx < slots.length) : slotGet (slotSet slots idx v) idx = v := by
  unfold slotGet slotSet
  rw [if_pos h, if_pos h.1]
  have : idx.toNat < slots.length := by omega
  simp [List.getD, this]

theorem slotSet_slotSet (slots : List Int) (idx v : Int) :
    slotSet (slotSet slots idx v) idx v = slotSet slots idx v := by
  unfold slotSet
  by_cases h : 0 ≤ idx ∧ idx < slots.length
  · simp [h]
  · simp [h]

theorem slotSet_invalid (slots : List Int) (idx v : Int)
    (h : ¬ (0 ≤ idx ∧ idx < slots.length)) : slotSet slots idx v = slots := by
  unfold slotSet
  rw [if_neg h]


theorem AdjustMutator_SetToEnd_invalid (a : AdjustMutator) (o : GraphicsObject)
    (hx : ¬ (0 ≤ a.repno_ ∧ a.repno_ < o.adjust_x.length))
    (hy : ¬ (0 ≤ a.repno_ ∧ a.repno_ < o.adjust_y.length)) : a.SetToEnd o = o := by
  simp only [AdjustMutator.SetToEnd, GraphicsObject.SetXAdjustment,
    GraphicsObject.SetYAdjustment, slotSet_invalid _ _ _ hx, slotSet_invalid _ _ _ hy]

theorem AdjustMutator_PerformSetting_invalid (a : AdjustMutator) (now : Int)
    (o : GraphicsObject)
    (hx : ¬ (0 ≤ a.repno_ ∧ a.repno_ < o.adjust_x.length))
    (hy : ¬ (0 ≤ a.repno_ ∧ a.repno_ < o.adjust_y.length)) : a.PerformSetting now o = o := by
  simp only [AdjustMutator.PerformSetting, GraphicsObject.SetXAdjustment,
    GraphicsObject.SetYAdjustment, slotSet_invalid _ _ _ hx, slotSet_invalid _ _ _ hy]

theorem tick_Adjust_invalid (a : AdjustMutator) (now : Int) (o : GraphicsObject)
    (hx : ¬ (0 ≤ a.repno_ ∧ a.repno_ < o.adjust_x.length))
    (hy : ¬ (0 ≤ a.repno_ ∧ a.repno_ < o.adjust_y.length)) :
    ((Mutator.Adjust a).tick now o).1 = o := by
  simp only [Mutator.tick, Mutator.SetToEnd, Mutator.PerformSetting,
    AdjustMutator_PerformSetting_invalid a now o hx hy,
    AdjustMutator_SetToEnd_invalid a o hx hy]
  split_ifs <;> rfl

theorem tick_at_start (m : Mutator) (o : GraphicsObject) (hd : 0 < m.base.duration_time) :
    m.tick (m.base.creation_time + m.base.delay) o
      = (m.PerformSetting (m.base.creation_time + m.base.delay) o, false) := by
  unfold Mutator.tick
  rw [if_neg (by omega), if_neg (by omega), progress_at_start]
  simp

theorem tick_at_end (m : Mutator) (now : Int) (o : GraphicsObject)
    (hd : 0 < m.base.duration_time)
    (h : m.base.creation_time + m.base.delay + m.base.duration_time ≤ now) :
    m.tick now o = (m.SetToEnd (m.PerformSetting now o), true) := by
  unfold Mutator.tick
  rw [if_neg (by omega), if_neg (by omega), progress_at_end m.base now hd h]
  simp

theorem AdjustMutator_SetToEnd_x (a : AdjustMutator) (o : GraphicsObject)
    (hx : 0 ≤ a.repno_ ∧ a.repno_ < o.adjust_x.length) :
    (a.SetToEnd o).x_adjustment a.repno_ = a.end_x_ := by
  simp only [AdjustMutator.SetToEnd, GraphicsObject.SetXAdjustment,
    GraphicsObject.SetYAdjustment, GraphicsObject.x_adjustment]
  exact slotGet_slotSet _ _ _ hx

theorem AdjustMutator_SetToEnd_y (a : AdjustMutator) (o : GraphicsObject)
    (hy : 0 ≤ a.repno_ ∧ a.repno_ < o.adjust_y.length) :
    (a.SetToEnd o).y_adjustment a.repno_ = a.end_y_ := by
  simp only [AdjustMutator.SetToEnd, GraphicsObject.SetXAdjustment,
    GraphicsObject.SetYAdjustment, GraphicsObject.y_adjustment]
  exact slotGet_slotSet _ _ _ hy

theorem AdjustMutator_PerformSetting_lengths (a : AdjustMutator) (now : Int)
    (o : GraphicsObject) :
    (a.PerformSetting now o).adjust_x.length = o.adjust_x.length
      ∧ (a.PerformSetting now o).adjust_y.length = o.adjust_y.length := by
  simp only [AdjustMutator.PerformSetting, GraphicsObject.SetXAdjustment,
    GraphicsObject.SetYAdjustment, slotSet]
  constructor <;> split_ifs <;> simp

theorem AdjustMutator_PerformSetting_x (a : AdjustMutator) (now : Int) (o : GraphicsObject)
    (hx : 0 ≤ a.repno_ ∧ a.repno_ < o.adjust_x.length) :
    (a.PerformSetting now o).x_adjustment a.repno_
      = a.base.GetValueForTime now a.start_x_ a.end_x_ := by
  simp only [AdjustMutator.PerformSetting, GraphicsObject.SetXAdjustment,
    GraphicsObject.SetYAdjustment, GraphicsObject.x_adjustment]
  exact slotGet_slotSet _ _ _ hx

theorem AdjustMutator_PerformSetting_y (a : AdjustMutator) (now : Int) (o : GraphicsObject)
    (hy : 0 ≤ a.repno_ ∧ a.repno_ < o.adjust_y.length) :
    (a.PerformSetting now o).y_adjustment a.repno_
      = a.base.GetValueForTime now a.start_y_ a.end_y_ := by
  simp only [AdjustMutator.PerformSetting, GraphicsObject.SetXAdjustment,
    GraphicsObject.SetYAdjustment, GraphicsObject.y_adjustment]
  exact slotGet_slotSet _ _ _ hy

theorem DisplayMutator_SetToEnd_fields (d : DisplayMutator) (o : GraphicsObject) :
    (d.SetToEnd o).visible = (if d.display_ then 1 else 0)
      ∧ (d.tr_mod_ = true → (d.SetToEnd o).alpha = d.tr_end_)
      ∧ (d.move_mod_ = true →
          (d.SetToEnd o).x = d.move_end_x_ ∧ (d.SetToEnd o).y = d.move_end_y_) := by
  unfold DisplayMutator.SetToEnd
  cases d.tr_mod_ <;> cases d.move_mod_ <;>
    simp [GraphicsObject.SetVisible, GraphicsObject.SetAlpha, GraphicsObject.SetX,
      GraphicsObject.SetY]

theorem DisplayMutator_PerformSetting_fields (d : DisplayMutator) (now : Int)
    (o : GraphicsObject) :
    (d.PerformSetting now o).visible = 1
      ∧ (d.tr_mod_ = true →
          (d.PerformSetting now o).alpha = d.base.GetValueForTime now d.tr_start_ d.tr_end_)
      ∧ (d.move_mod_ = true →
          (d.PerformSetting now o).x
              = d.base.GetValueForTime now d.move_start_x_ d.move_end_x_
            ∧ (d.PerformSetting now o).y
              = d.base.GetValueForTime now d.move_start_y_ d.move_end_y_) := by
  unfold DisplayMutator.PerformSetting
  cases d.tr_mod_ <;> cases d.move_mod_ <;>
    simp [GraphicsObject.SetVisible, GraphicsObject.SetAlpha, GraphicsObject.SetX,
      GraphicsObject.SetY]

/-! ## C1: start and end values of a ticked mutator -/

/-- C1, as stated, fails: an `AdjustMutator` whose repno addresses no slot of
the object (slot 8 of an object with slots 0 to 7) has duration 1000 > 0 and
delay 0, yet after a tick at `now = 1000 = creation_time + delay + d` the object
does not hold `end_x` in `x_adjustment(repno)`: the write is a no-op. -/
theorem C1_counterexample_invalid_repno :
    0 < (Mutator.Adjust (exampleAdjust 8)).base.duration_time
      ∧ 0 ≤ (Mutator.Adjust (exampleAdjust 8)).base.delay
      ∧ (Mutator.Adjust (exampleAdjust 8)).base.creation_time
          + (Mutator.Adjust (exampleAdjust 8)).base.delay
          + (Mutator.Adjust (exampleAdjust 8)).base.duration_time ≤ 1000
      ∧ (((Mutator.Adjust (exampleAdjust 8)).tick 1000 exampleObject).1.x_adjustment
            (exampleAdjust 8).repno_ ≠ (exampleAdjust 8).end_x_) := by
  refine ⟨by decide, by decide, by decide, ?_⟩
  rw [tick_Adjust_invalid (exampleAdjust 8) 1000 exampleObject (by decide) (by decide)]
  decide

/-- C1 (amended): for every mutator with duration `d > 0` and delay `≥ 0`, and
for every start/end pair, the interpolated value at
`now = creation_time + delay` is the start value and at every
`now ≥ creation_time + delay + d` it is the end value.  After a tick at
`creation_time + delay` the target holds the start values, and after a tick at
any `now ≥ creation_time + delay + d` it holds exactly the end values and the
mutator is finished: for an `AdjustMutator` whose repno addresses a slot of the
object, `x_adjustment(repno)` and `y_adjustment(repno)`; for a
`DisplayMutator`, alpha when `tr_mod` is on and the position when `move_mod` is
on. -/
theorem C1_start_and_end_values (m : Mutator) (o : GraphicsObject)
    (hd : 0 < m.base.duration_time) (_hdelay : 0 ≤ m.base.delay) :
    (∀ start end_ : Int,
        m.base.GetValueForTime (m.base.creation_time + m.base.delay) start end_ = start)
    ∧ (∀ now start end_ : Int,
        m.base.creation_time + m.base.delay + m.base.duration_time ≤ now →
        m.base.GetValueForTime now start end_ = end_)
    ∧ (∀ now : Int, m.base.creation_time + m.base.delay + m.base.duration_time ≤ now →
        (m.tick now o).2 = true)
    ∧ (∀ a : AdjustMutator, m = .Adjust a →
        (0 ≤ a.repno_ ∧ a.repno_ < o.adjust_x.length) →
        (0 ≤ a.repno_ ∧ a.repno_ < o.adjust_y.length) →
        ((m.tick (m.base.creation_time + m.base.delay) o).1.x_adjustment a.repno_
              = a.start_x_
          ∧ (m.tick (m.base.creation_time + m.base.delay) o).1.y_adjustment a.repno_
              = a.start_y_)
        ∧ ∀ now : Int, m.base.creation_time + m.base.delay + m.base.duration_time ≤ now →
            (m.tick now o).1.x_adjustment a.repno_ = a.end_x_
            ∧ (m.tick now o).1.y_adjustment a.repno_ = a.end_y_)
    ∧ (∀ d : DisplayMutator, m = .Display d →
        ((d.tr_mod_ = true →
            (m.tick (m.base.creation_time + m.base.delay) o).1.alpha = d.tr_start_)
          ∧ (d.move_mod_ = true →
            (m.tick (m.base.creation_time + m.base.delay) o).1.x = d.move_start_x_
            ∧ (m.tick (m.base.creation_time + m.base.delay) o).1.y = d.move_start_y_))
        ∧ ∀ now : Int, m.base.creation_time + m.base.delay + m.base.duration_time ≤ now →
            (d.tr_mod_ = true → (m.tick now o).1.alpha = d.tr_end_)
            ∧ (d.move_mod_ = true →
                (m.tick now o).1.x = d.move_end_x_ ∧ (m.tick now o).1.y = d.move_end_y_)) := by
  refine ⟨fun s e => GetValueForTime_at_start m.base hd s e,
    fun now s e h => GetValueForTime_at_end m.base now hd h s e, ?_, ?_, ?_⟩
  · intro now h
    rw [tick_at_end m now o hd h]
  · intro a ha hx hy
    subst ha
    constructor
    · rw [tick_at_start _ o hd]
      exact ⟨by
          simp only [Mutator.PerformSetting, Mutator.base]
          rw [AdjustMutator_PerformSetting_x a _ o hx]
          exact GetValueForTime_at_start a.base hd _ _,
        by
          simp only [Mutator.PerformSetting, Mutator.base]
          rw [AdjustMutator_PerformSetting_y a _ o hy]
          exact GetValueForTime_at_start a.base hd _ _⟩
    · intro now h
      rw [tick_at_end _ now o hd h]
      have hl := AdjustMutator_PerformSetting_lengths a now o
      exact ⟨AdjustMutator_SetToEnd_x a (a.PerformSetting now o) (by rw [hl.1]; exact hx),
        AdjustMutator_SetToEnd_y a (a.PerformSetting now o) (by rw [hl.2]; exact hy)⟩
  · intro d hdm
    subst hdm
    constructor
    · rw [tick_at_start _ o hd]
      have hp := DisplayMutator_PerformSetting_fields d
        (d.base.creation_time + d.base.delay) o
      refine ⟨fun ht => ?_, fun hm => ?_⟩
      · simp only [Mutator.PerformSetting, Mutator.base]
        rw [hp.2.1 ht]
        exact GetValueForTime_at_start d.base hd _ _
      · simp only [Mutator.PerformSetting, Mutator.base]
        rw [(hp.2.2 hm).1, (hp.2.2 hm).2]
        exact ⟨GetValueForTime_at_start d.base hd _ _,
          GetValueForTime_at_start d.base hd _ _⟩
    · intro now h
      rw [tick_at_end _ now o hd h]
      have he := DisplayMutator_SetToEnd_fields d (d.PerformSetting now o)
      exact ⟨he.2.1, he.2.2⟩

/-- Witness of C1 (amended): the example `AdjustMutator` on slot 3, ticked at
`now = 1000`, leaves `x_adjustment(3) = 5` and `y_adjustment(3) = 6`. -/
theorem C1_start_and_end_values_witness :
    0 < (Mutator.Adjust (exampleAdjust 3)).base.duration_time
      ∧ 0 ≤ (Mutator.Adjust (exampleAdjust 3)).base.delay
      ∧ ((Mutator.Adjust (exampleAdjust 3)).tick 1000 exampleObject).1.x_adjustment 3 = 5
      ∧ ((Mutator.Adjust (exampleAdjust 3)).tick 1000 exampleObject).1.y_adjustment 3 = 6 :=
  ⟨by decide, by decide,
    ((C1_start_and_end_values (.Adjust (exampleAdjust 3)) exampleObject (by decide)
        (by decide)).2.2.2.1
      (exampleAdjust 3) rfl (by decide) (by decide)).2 1000 (by decide)⟩

/-! ## C2: the linear end-to-end scenario -/

theorem scenario_value_500 :
    scenarioMutator.base.GetValueForTime 500 0 100 = 50 := by
  simp only [ObjectMutator.GetValueForTime, ObjectMutator.progress, scenarioMutator,
    Mutator.base, curve, truncate]
  norm_num

theorem scenario_progress_500 : scenarioMutator.base.progress 500 ≠ 1 := by
  simp only [ObjectMutator.progress, scenarioMutator, Mutator.base]
  norm_num

theorem scenario_tick_500 (o : GraphicsObject) :
    scenarioMutator.tick 500 o = (o.SetX 50, false) := by
  unfold Mutator.tick
  rw [if_neg (by decide), if_neg (by decide), if_neg scenario_progress_500]
  simp only [Mutator.PerformSetting, scenarioMutator, OneIntObjectMutator.PerformSetting]
  have := scenario_value_500
  simp only [scenarioMutator, Mutator.base] at this
  rw [this]
  rfl

theorem scenario_tick_1000 (o : GraphicsObject) :
    scenarioMutator.tick 1000 o = (o.SetX 100, true) := by
  rw [tick_at_end scenarioMutator 1000 o (by decide) (by decide)]
  rfl

theorem scenario_execute_500 :
    scenarioObject.ExecuteMutators 500 = scenarioObject.SetX 50 := by
  simp only [GraphicsObject.ExecuteMutators, scenarioObject, GraphicsObject.AddObjectMutator,
    exampleObject, List.nil_append, List.foldl_cons, List.foldl_nil,
    GraphicsObject.tickStep, scenario_tick_500]
  rfl

theorem scenario_execute_1000 (o : GraphicsObject) (h : o.object_mutators = [scenarioMutator]) :
    o.ExecuteMutators 1000 = { o.SetX 100 with object_mutators := [] } := by
  simp only [GraphicsObject.ExecuteMutators, h, List.foldl_cons, List.foldl_nil,
    GraphicsObject.tickStep, scenario_tick_1000]
  rfl

/-- C2: the object starts at `x = 0`; the one-integer mutator opcode
(`objEveLeft`), executed at time 0 with end value 100, duration 1000 ms, delay 0
and the linear curve, adds the scenario mutator; the tick pass at `now = 500`
leaves `x = 50` with the mutator still running; the tick pass at `now = 1000`
leaves `x = 100`, the registry is empty and the query for the name of the
mutator returns false. -/
theorem C2_linear_scenario :
    exampleObject.x = 0
      ∧ Op_ObjectMutatorInt .X "objEveLeft" exampleMachine 0 100 1000 0 0
          = .ok { exampleMachine with objects := [scenarioObject] }
      ∧ (scenarioObject.ExecuteMutators 500).x = 50
      ∧ (scenarioObject.ExecuteMutators 500).IsMutatorRunningMatching (-1) "objEveLeft" = true
      ∧ ((scenarioObject.ExecuteMutators 500).ExecuteMutators 1000).x = 100
      ∧ ((scenarioObject.ExecuteMutators 500).ExecuteMutators 1000).object_mutators = []
      ∧ ((scenarioObject.ExecuteMutators 500).ExecuteMutators 1000).IsMutatorRunningMatching
          (-1) "objEveLeft" = false
      ∧ (scenarioObject.ExecuteMutators 1000).x = 100
      ∧ (scenarioObject.ExecuteMutators 1000).IsMutatorRunningMatching (-1) "objEveLeft"
          = false := by
  have h1 : (scenarioObject.SetX 50).object_mutators = [scenarioMutator] := rfl
  have h2 : scenarioObject.object_mutators = [scenarioMutator] := rfl
  rw [scenario_execute_500, scenario_execute_1000 _ h1, scenario_execute_1000 _ h2]
  refine ⟨rfl, rfl, rfl, ?_, rfl, rfl, rfl, rfl, rfl⟩
  decide

/-! ## C3: zero or negative duration -/

theorem tick_nonpositive_duration (m : Mutator) (now : Int) (o : GraphicsObject)
    (h : m.base.duration_time ≤ 0) : m.tick now o = (m.SetToEnd o, true) := by
  unfold Mutator.tick
  rw [if_pos h]

/-- C3, as stated, fails: `objEveAdjust` executed with duration 0 and repno 8
on the example machine, whose object has the slots 0 to 7, adds a mutator whose
first tick finishes it and drops it from the registry, yet the object does not
hold the end value `x = 5` in `x_adjustment(8)`: the write to a slot that does
not exist is a no-op. -/
theorem C3_counterexample_invalid_repno :
    ∃ a : AdjustMutator,
      objEveAdjust exampleMachine 0 8 5 6 0 50 0
          = .ok (exampleMachine.withObject 0 (exampleObject.AddObjectMutator (.Adjust a)))
      ∧ a.base.duration_time ≤ 0
      ∧ a.end_x_ = 5
      ∧ ((Mutator.Adjust a).tick 0 (exampleObject.AddObjectMutator (.Adjust a))).2 = true
      ∧ ((exampleObject.AddObjectMutator (.Adjust a)).ExecuteMutators 0).object_mutators = []
      ∧ ((exampleObject.AddObjectMutator (.Adjust a)).ExecuteMutators 0).x_adjustment 8 = 0
      ∧ ((exampleObject.AddObjectMutator (.Adjust a)).ExecuteMutators 0).x_adjustment 8
          ≠ a.end_x_ :=
  ⟨{ base := { repno := 8, name := "objEveAdjust", creation_time := 0, duration_time := 0,
               delay := 50, type := 0 }
     repno_ := 8, start_x_ := 0, end_x_ := 5, start_y_ := 0, end_y_ := 6 },
    rfl, by decide, rfl, by decide, by decide, by decide, by decide⟩

/-- C3 (amended): a mutator whose `duration_time` is zero or negative is
finished by its first tick, at any time `now`; the tick is the `SetToEnd` of
the mutator (the progress fraction is not evaluated, so nothing is divided by
the duration), and the tick pass drops the mutator from the registry.
`objEveAdjust` stores the duration of the script unchanged; after the first
tick of the mutator it creates with such a duration, the ticked object holds
`x` in `x_adjustment(repno)` and `y` in `y_adjustment(repno)`, provided that
the repno addresses a slot of the object.  The `DisplayMutator` constructor
used by every `objEveDisplay` overload stores the duration unchanged too;
after the first tick of such a mutator the visibility of the object is the
display flag, its alpha is `tr_end` when `tr_mod` is set and its position is
`(move_end_x, move_end_y)` when `move_mod` is set. -/
theorem C3_nonpositive_duration_finishes_at_once (duration_time : Int)
    (h : duration_time ≤ 0) :
    (∀ (m : Mutator) (now : Int) (o : GraphicsObject), m.base.duration_time = duration_time →
        m.tick now o = (m.SetToEnd o, true)
        ∧ (o.object_mutators = [m] →
            o.ExecuteMutators now = { m.SetToEnd o with object_mutators := [] }))
    ∧ (∀ (machine : RLMachine) (obj : Int) (object : GraphicsObject)
        (repno x y delay type : Int),
        GetGraphicsObject machine.objects obj = some object →
        ∃ a : AdjustMutator,
          objEveAdjust machine obj repno x y duration_time delay type
              = .ok (machine.withObject obj (object.AddObjectMutator (.Adjust a)))
          ∧ a.base.duration_time = duration_time
          ∧ ∀ (now : Int) (o : GraphicsObject),
              ((Mutator.Adjust a).tick now o).2 = true
              ∧ ((0 ≤ repno ∧ repno < o.adjust_x.length) →
                  ((Mutator.Adjust a).tick now o).1.x_adjustment repno = x)
              ∧ ((0 ≤ repno ∧ repno < o.adjust_y.length) →
                  ((Mutator.Adjust a).tick now o).1.y_adjustment repno = y))
    ∧ (∀ (object : GraphicsObject) (creation_time delay display dip_event_mod tr_mod
        move_mod move_len_x move_len_y rotate_mod rotate_count scale_x_mod scale_x_percent
        scale_y_mod scale_y_percent sin_mod sin_len sin_count now : Int)
        (o : GraphicsObject) (d : DisplayMutator),
        d = DisplayMutator.new object creation_time duration_time delay
            display dip_event_mod tr_mod move_mod move_len_x move_len_y rotate_mod
            rotate_count scale_x_mod scale_x_percent scale_y_mod scale_y_percent sin_mod
            sin_len sin_count →
        ((Mutator.Display d).tick now o).2 = true
        ∧ ((Mutator.Display d).tick now o).1.visible = (if display ≠ 0 then 1 else 0)
        ∧ (tr_mod ≠ 0 → ((Mutator.Display d).tick now o).1.alpha = d.tr_end_)
        ∧ (move_mod ≠ 0 →
            ((Mutator.Display d).tick now o).1.x = d.move_end_x_
            ∧ ((Mutator.Display d).tick now o).1.y = d.move_end_y_)) := by
  refine ⟨?_, ?_, ?_⟩
  · intro m now o hm
    have hm' : m.base.duration_time ≤ 0 := by rw [hm]; exact h
    refine ⟨tick_nonpositive_duration m now o hm', fun hr => ?_⟩
    simp only [GraphicsObject.ExecuteMutators, hr, List.foldl_cons, List.foldl_nil,
      GraphicsObject.tickStep, tick_nonpositive_duration m now o hm']
    rfl
  · intro machine obj object repno x y delay type hobj
    refine ⟨{ base := { repno := repno, name := "objEveAdjust",
                        creation_time := unsigned_to_int machine.ticks
                        duration_time := duration_time,
                        delay := delay, type := type }
              repno_ := repno, start_x_ := object.x_adjustment repno, end_x_ := x
              start_y_ := object.y_adjustment repno, end_y_ := y }, ?_, rfl, ?_⟩
    · simp only [objEveAdjust, hobj]
    · intro now o
      have ht := tick_nonpositive_duration
        (.Adjust { base := { repno := repno, name := "objEveAdjust",
                             creation_time := unsigned_to_int machine.ticks
                             duration_time := duration_time,
                             delay := delay, type := type }
                   repno_ := repno, start_x_ := object.x_adjustment repno, end_x_ := x
                   start_y_ := object.y_adjustment repno, end_y_ := y }) now o h
      rw [ht]
      exact ⟨rfl, fun hx => AdjustMutator_SetToEnd_x _ o hx,
        fun hy => AdjustMutator_SetToEnd_y _ o hy⟩
  · intro object creation_time delay display dip_event_mod tr_mod move_mod move_len_x
      move_len_y rotate_mod rotate_count scale_x_mod scale_x_percent scale_y_mod
      scale_y_percent sin_mod sin_len sin_count now o d hd
    have hdur : (Mutator.Display d).base.duration_time ≤ 0 := by
      rw [hd]
      exact h
    rw [tick_nonpositive_duration _ now o hdur]
    have he := DisplayMutator_SetToEnd_fields d o
    refine ⟨rfl, ?_, ?_, ?_⟩
    · show (d.SetToEnd o).visible = _
      rw [he.1, hd]
      by_cases hz : display = 0 <;> simp [DisplayMutator.new, hz]
    · intro ht
      exact he.2.1 (by rw [hd]; simp [DisplayMutator.new, ht])
    · intro hm
      exact he.2.2 (by rw [hd]; simp [DisplayMutator.new, hm])

/-- Witness of C3 (amended): `objEveAdjust` executed with duration 0 on slot 3
of the example machine adds a mutator whose first tick, even at time 0 and
before its delay of 50 ms has passed, is finished and leaves `(5, 6)` in the
slot. -/
theorem C3_nonpositive_duration_witness :
    (0 : Int) ≤ 0
      ∧ ∃ a : AdjustMutator,
          objEveAdjust exampleMachine 0 3 5 6 0 50 0
              = .ok (exampleMachine.withObject 0
                  (exampleObject.AddObjectMutator (.Adjust a)))
          ∧ a.base.duration_time = 0
          ∧ ((Mutator.Adjust a).tick 0 exampleObject).2 = true
          ∧ ((Mutator.Adjust a).tick 0 exampleObject).1.x_adjustment 3 = 5
          ∧ ((Mutator.Adjust a).tick 0 exampleObject).1.y_adjustment 3 = 6 := by
  obtain ⟨a, h1, h2, h3⟩ :=
    (C3_nonpositive_duration_finishes_at_once 0 (le_refl 0)).2.1 exampleMachine 0
      exampleObject 3 5 6 50 0 rfl
  exact ⟨le_refl 0, a, h1, h2, (h3 0 exampleObject).1,
    (h3 0 exampleObject).2.1 (by decide), (h3 0 exampleObject).2.2 (by decide)⟩

/-! ## C4: the end state of a force-completed mutator -/

/-- C4, as stated, fails: `SetToEnd` of an `AdjustMutator` whose repno addresses
no slot of the object (slot 8 of an object with slots 0 to 7) leaves
`x_adjustment(repno)` at 0, not at `end_x = 5`. -/
theorem C4_counterexample_invalid_repno :
    ((exampleAdjust 8).SetToEnd exampleObject).x_adjustment (exampleAdjust 8).repno_
      ≠ (exampleAdjust 8).end_x_ := by
  decide

/-- C4 (amended): for every object state, after `SetToEnd` of an
`AdjustMutator` whose repno addresses a slot of the object,
`x_adjustment(repno) = end_x` and `y_adjustment(repno) = end_y`; after
`SetToEnd` of any `DisplayMutator` the visibility is the display flag, the alpha
is `tr_end` when `tr_mod` is set and the position is
`(move_end_x, move_end_y)` when `move_mod` is set. -/
theorem C4_SetToEnd_end_state (o : GraphicsObject) :
    (∀ a : AdjustMutator,
        (0 ≤ a.repno_ ∧ a.repno_ < o.adjust_x.length) →
        (0 ≤ a.repno_ ∧ a.repno_ < o.adjust_y.length) →
        ((Mutator.Adjust a).SetToEnd o).x_adjustment a.repno_ = a.end_x_
        ∧ ((Mutator.Adjust a).SetToEnd o).y_adjustment a.repno_ = a.end_y_)
    ∧ (∀ d : DisplayMutator,
        ((Mutator.Display d).SetToEnd o).visible = (if d.display_ then 1 else 0)
        ∧ (d.tr_mod_ = true → ((Mutator.Display d).SetToEnd o).alpha = d.tr_end_)
        ∧ (d.move_mod_ = true →
            ((Mutator.Display d).SetToEnd o).x = d.move_end_x_
            ∧ ((Mutator.Display d).SetToEnd o).y = d.move_end_y_)) :=
  ⟨fun a hx hy => ⟨AdjustMutator_SetToEnd_x a o hx, AdjustMutator_SetToEnd_y a o hy⟩,
    fun d => DisplayMutator_SetToEnd_fields d o⟩

/-- Witness of C4 (amended): the example `AdjustMutator` on slot 3 of the
example object. -/
theorem C4_SetToEnd_end_state_witness :
    ((Mutator.Adjust (exampleAdjust 3)).SetToEnd exampleObject).x_adjustment 3 = 5
      ∧ ((Mutator.Adjust (exampleAdjust 3)).SetToEnd exampleObject).y_adjustment 3 = 6 :=
  (C4_SetToEnd_end_state exampleObject).1 (exampleAdjust 3) (by decide) (by decide)

/-! ## C5: force-ending is idempotent -/

theorem IntProperty_set_set (p q : IntProperty) (o : GraphicsObject) (v w : Int) :
    q.set (p.set (q.set (p.set o v) w) v) w = q.set (p.set o v) w := by
  cases p <;> cases q <;> rfl

theorem SetToEnd_idempotent (m : Mutator) (o : GraphicsObject) :
    m.SetToEnd (m.SetToEnd o) = m.SetToEnd o := by
  cases m with
  | Adjust a =>
    simp only [Mutator.SetToEnd, AdjustMutator.SetToEnd, GraphicsObject.SetXAdjustment,
      GraphicsObject.SetYAdjustment, slotSet_slotSet]
  | Display d =>
    simp only [Mutator.SetToEnd, DisplayMutator.SetToEnd]
    cases d.tr_mod_ <;> cases d.move_mod_ <;> rfl
  | OneInt a =>
    simp only [Mutator.SetToEnd, OneIntObjectMutator.SetToEnd]
    cases a.setter <;> rfl
  | RepnoInt a =>
    simp only [Mutator.SetToEnd, RepnoIntObjectMutator.SetToEnd]
    cases a.setter <;>
      simp only [RepnoProperty.set, GraphicsObject.SetXAdjustment,
        GraphicsObject.SetYAdjustment, GraphicsObject.SetAlphaAdjustment, slotSet_slotSet]
  | TwoInt a =>
    simp only [Mutator.SetToEnd, TwoIntObjectMutator.SetToEnd]
    exact IntProperty_set_set _ _ _ _ _

theorem foldl_endStep_no_match (repno : Int) (name : String) (l : List Mutator) :
    ∀ (o : GraphicsObject) (acc : List Mutator),
      (∀ m ∈ l, m.OperationMatches repno name = false) →
      l.foldl (GraphicsObject.endStep repno name) (o, acc) = (o, acc ++ l) := by
  induction l with
  | nil => intro o acc _; simp
  | cons m l ih =>
    intro o acc h
    have hm : m.OperationMatches repno name = false := h m (List.mem_cons_self _ _)
    rw [List.foldl_cons]
    have hs : GraphicsObject.endStep repno name (o, acc) m = (o, acc ++ [m]) := by
      simp [GraphicsObject.endStep, hm]
    rw [hs, ih o (acc ++ [m]) (fun m' hm' => h m' (List.mem_cons_of_mem _ hm'))]
    simp

theorem foldl_endStep_registry (repno : Int) (name : String) (l : List Mutator) :
    ∀ (o : GraphicsObject) (acc : List Mutator),
      (l.foldl (GraphicsObject.endStep repno name) (o, acc)).2
        = acc ++ l.filter (fun m => !m.OperationMatches repno name) := by
  induction l with
  | nil => intro o acc; simp
  | cons m l ih =>
    intro o acc
    rw [List.foldl_cons]
    by_cases hm : m.OperationMatches repno name = true
    · have hs : GraphicsObject.endStep repno name (o, acc) m = (m.SetToEnd o, acc) := by
        simp [GraphicsObject.endStep, hm]
      rw [hs, ih]
      simp [List.filter_cons, hm]
    · have hm' : m.OperationMatches repno name = false := by simpa using hm
      have hs : GraphicsObject.endStep repno name (o, acc) m = (o, acc ++ [m]) := by
        simp [GraphicsObject.endStep, hm']
      rw [hs, ih]
      simp [List.filter_cons, hm']

theorem EndObjectMutatorMatching_no_match (o : GraphicsObject) (repno : Int) (name : String)
    (h : o.IsMutatorRunningMatching repno name = false) :
    o.EndObjectMutatorMatching repno name = o := by
  have hall : ∀ m ∈ o.object_mutators, m.OperationMatches repno name = false := by
    simpa [GraphicsObject.IsMutatorRunningMatching, List.any_eq_false] using h
  simp only [GraphicsObject.EndObjectMutatorMatching,
    foldl_endStep_no_match repno name o.object_mutators o [] hall, List.nil_append]

theorem EndObjectMutatorMatching_not_running (o : GraphicsObject) (repno : Int)
    (name : String) :
    (o.EndObjectMutatorMatching repno name).IsMutatorRunningMatching repno name = false := by
  simp only [GraphicsObject.EndObjectMutatorMatching, GraphicsObject.IsMutatorRunningMatching,
    foldl_endStep_registry, List.nil_append]
  simp [List.any_eq_false]

theorem SetGraphicsObject_same (objects : List GraphicsObject) (obj : Int)
    (o : GraphicsObject) (h : GetGraphicsObject objects obj = some o) :
    SetGraphicsObject objects obj o = objects := by
  unfold GetGraphicsObject at h
  unfold SetGraphicsObject
  by_cases hobj : 0 ≤ obj
  · rw [if_pos hobj] at h
    rw [if_pos hobj]
    generalize obj.toNat = n at h
    induction objects generalizing n with
    | nil => rfl
    | cons a l ih =>
      cases n with
      | zero => simp at h; simp [h]
      | succ k =>
        simp only [List.get?_cons_succ] at h
        simp [ih k h]
  · rw [if_neg hobj]

theorem withObject_same (machine : RLMachine) (obj : Int) (o : GraphicsObject)
    (h : GetGraphicsObject machine.objects obj = some o) : machine.withObject obj o = machine := by
  unfold RLMachine.withObject
  rw [SetGraphicsObject_same _ _ _ h]

/-- C5: applying `SetToEnd` twice gives the same object state as applying it
once, for every mutator and every object state; ending a `(repno, name)`
mutation on an object that has no matching entry leaves the object unchanged,
and the end opcodes then return normally with the machine unchanged; after an
end no matching entry is left, so a second end changes nothing. -/
theorem C5_force_end_idempotent (m : Mutator) (o : GraphicsObject) (repno : Int)
    (name : String) :
    m.SetToEnd (m.SetToEnd o) = m.SetToEnd o
    ∧ (o.IsMutatorRunningMatching repno name = false →
        o.EndObjectMutatorMatching repno name = o)
    ∧ (o.EndObjectMutatorMatching repno name).EndObjectMutatorMatching repno name
        = o.EndObjectMutatorMatching repno name
    ∧ (∀ (machine : RLMachine) (obj : Int),
        GetGraphicsObject machine.objects obj = some o →
        o.IsMutatorRunningMatching repno name = false →
        Op_EndObjectMutation_RepNo name machine obj repno = .ok machine)
    ∧ (∀ (machine : RLMachine) (obj : Int),
        GetGraphicsObject machine.objects obj = some o →
        o.IsMutatorRunningMatching (-1) name = false →
        Op_EndObjectMutation_Normal name machine obj = .ok machine) := by
  refine ⟨SetToEnd_idempotent m o, EndObjectMutatorMatching_no_match o repno name,
    EndObjectMutatorMatching_no_match _ repno name
      (EndObjectMutatorMatching_not_running o repno name), ?_, ?_⟩
  · intro machine obj hobj hrun
    simp only [Op_EndObjectMutation_RepNo, hobj,
      EndObjectMutatorMatching_no_match o repno name hrun, withObject_same machine obj o hobj]
  · intro machine obj hobj hrun
    simp only [Op_EndObjectMutation_Normal, Op_EndObjectMutation_RepNo, hobj,
      EndObjectMutatorMatching_no_match o (-1) name hrun, withObject_same machine obj o hobj]

/-- Witness of C5: the example object has an empty registry, so ending
`objEveAdjust` on slot 3 leaves it and the example machine unchanged. -/
theorem C5_force_end_idempotent_witness :
    exampleObject.EndObjectMutatorMatching 3 "objEveAdjust" = exampleObject
      ∧ Op_EndObjectMutation_RepNo "objEveAdjust" exampleMachine 0 3 = .ok exampleMachine :=
  ⟨(C5_force_end_idempotent (.Adjust (exampleAdjust 3)) exampleObject 3 "objEveAdjust").2.1
      rfl,
    (C5_force_end_idempotent (.Adjust (exampleAdjust 3)) exampleObject 3 "objEveAdjust").2.2.2.1
      exampleMachine 0 rfl rfl⟩

/-! ## C6: the wildcard query -/

theorem IsMutatorRunningMatching_wildcard (o : GraphicsObject) (name : String) :
    o.IsMutatorRunningMatching (-1) name = true
      ↔ ∃ m ∈ o.object_mutators, m.base.name = name := by
  simp [GraphicsObject.IsMutatorRunningMatching, Mutator.OperationMatches]

theorem MutatorIsDone_wildcard (objects : List GraphicsObject) (obj : Int) (name : String) :
    MutatorIsDone objects obj (-1) name = false
      ↔ ∃ object, GetGraphicsObject objects obj = some object
          ∧ ∃ m ∈ object.object_mutators, m.base.name = name := by
  unfold MutatorIsDone
  cases hg : GetGraphicsObject objects obj with
  | none => simp
  | some object =>
    simp only [Option.some.injEq, exists_eq_left']
    rw [← IsMutatorRunningMatching_wildcard]
    cases object.IsMutatorRunningMatching (-1) name <;> simp

/-- C6: the query `IsMutatorRunningMatching(-1, name)` returns true if and only
if the registry of the object holds an entry with that name, whatever repno the
entry was stored with; accordingly `MutatorIsDone` with repno `-1`, the break
event of the non-repno wait opcodes, is false exactly when the addressed object
holds such an entry. -/
theorem C6_wildcard_query_matches_any_repno (o : GraphicsObject) (name : String)
    (objects : List GraphicsObject) (obj : Int) :
    (o.IsMutatorRunningMatching (-1) name = true
      ↔ ∃ m ∈ o.object_mutators, m.base.name = name)
    ∧ (MutatorIsDone objects obj (-1) name = false
      ↔ ∃ object, GetGraphicsObject objects obj = some object
          ∧ ∃ m ∈ object.object_mutators, m.base.name = name)
    ∧ (objectMutatorIsWorking objects obj (-1) name = false
      ↔ ∃ object, GetGraphicsObject objects obj = some object
          ∧ ∃ m ∈ object.object_mutators, m.base.name = name) := by
  refine ⟨IsMutatorRunningMatching_wildcard o name, MutatorIsDone_wildcard objects obj name,
    ?_⟩
  have h : objectMutatorIsWorking objects obj (-1) name = MutatorIsDone objects obj (-1) name :=
    rfl
  rw [h]
  exact MutatorIsDone_wildcard objects obj name

/-! ## C7 and C8: the wait opcodes -/

/-- C7: `Op_MutatorWaitNormal` (with repno `-1`) and `Op_MutatorWaitRepNo` (with
the given repno) return normally; the resulting machine differs from the
initial one only by one new wait operation on top of the stack (and the
allocation counter); that operation has no click cancellation, and its
completion poll on an object table in which the handle addresses an object is
true exactly when no mutator matching `(repno, name)` is running on that
object. -/
theorem C7_wait_opcodes_push_one_wait (name : String) (machine : RLMachine)
    (obj repno : Int) :
    (∃ (m' : RLMachine) (w : WaitLongOperation),
        Op_MutatorWaitNormal name machine obj = .ok m'
        ∧ m'.stack = { id := machine.next_id, op := .Wait w } :: machine.stack
        ∧ m'.objects = machine.objects ∧ m'.ticks = machine.ticks
        ∧ m'.advance_log = machine.advance_log ∧ m'.composites = machine.composites
        ∧ m'.resumes = machine.resumes
        ∧ (∀ ev, (LongOperation.Wait w).cancelled ev = false)
        ∧ ∀ (objects : List GraphicsObject) (object : GraphicsObject),
            GetGraphicsObject objects obj = some object →
            ((LongOperation.Wait w).is_finished objects = true
              ↔ object.IsMutatorRunningMatching (-1) name = false))
    ∧ (∃ (m' : RLMachine) (w : WaitLongOperation),
        Op_MutatorWaitRepNo name machine obj repno = .ok m'
        ∧ m'.stack = { id := machine.next_id, op := .Wait w } :: machine.stack
        ∧ m'.objects = machine.objects ∧ m'.ticks = machine.ticks
        ∧ m'.advance_log = machine.advance_log ∧ m'.composites = machine.composites
        ∧ m'.resumes = machine.resumes
        ∧ (∀ ev, (LongOperation.Wait w).cancelled ev = false)
        ∧ ∀ (objects : List GraphicsObject) (object : GraphicsObject),
            GetGraphicsObject objects obj = some object →
            ((LongOperation.Wait w).is_finished objects = true
              ↔ object.IsMutatorRunningMatching repno name = false)) := by
  constructor
  · refine ⟨_, _, rfl, rfl, rfl, rfl, rfl, rfl, rfl, fun ev => rfl, ?_⟩
    intro objects object hg
    simp [LongOperation.is_finished, WaitLongOperation.is_finished,
      WaitLongOperation.BreakOnEvent, MutatorIsDone, hg]
  · refine ⟨_, _, rfl, rfl, rfl, rfl, rfl, rfl, rfl, fun ev => rfl, ?_⟩
    intro objects object hg
    simp [LongOperation.is_finished, WaitLongOperation.is_finished,
      WaitLongOperation.BreakOnEvent, MutatorIsDone, hg]

/-- Witness of C7: on the scenario object, whose registry holds the running
`objEveLeft` mutator, the wait pushed by `Op_MutatorWaitNormal "objEveLeft"` is
not finished. -/
theorem C7_wait_opcodes_witness :
    ∃ (m' : RLMachine) (w : WaitLongOperation),
      Op_MutatorWaitNormal "objEveLeft" exampleMachine 0 = .ok m'
      ∧ m'.stack = { id := exampleMachine.next_id, op := .Wait w } :: exampleMachine.stack
      ∧ ((LongOperation.Wait w).is_finished [scenarioObject] = true
          ↔ scenarioObject.IsMutatorRunningMatching (-1) "objEveLeft" = false) := by
  obtain ⟨m', w, h1, h2, _, _, _, _, _, _, h3⟩ :=
    (C7_wait_opcodes_push_one_wait "objEveLeft" exampleMachine 0 0).1
  exact ⟨m', w, h1, h2, h3 [scenarioObject] scenarioObject rfl⟩

/-- C8: `objectMutatorIsWorking` returns the same boolean as `MutatorIsDone`
for every object table, handle, repno and name (true exactly when no matching
mutator is running on the addressed object), and the operation pushed by
`Op_MutatorWaitCNormal` / `Op_MutatorWaitCRepNo` is the operation pushed by
`Op_MutatorWaitNormal` / `Op_MutatorWaitRepNo` with break-on-click enabled: the
same completion poll, and a cancellation predicate that is the click event
where the plain variant has none. -/
theorem C8_click_variants_same_completion (name : String) (machine : RLMachine)
    (obj repno : Int) (objects : List GraphicsObject) :
    objectMutatorIsWorking objects obj repno name = MutatorIsDone objects obj repno name
    ∧ (∀ object : GraphicsObject, GetGraphicsObject objects obj = some object →
        (objectMutatorIsWorking objects obj repno name = true
          ↔ object.IsMutatorRunningMatching repno name = false))
    ∧ (∃ w : WaitLongOperation,
        Op_MutatorWaitNormal name machine obj = .ok (machine.PushLongOperation (.Wait w))
        ∧ Op_MutatorWaitCNormal name machine obj
            = .ok (machine.PushLongOperation (.Wait w.BreakOnClicks))
        ∧ w.break_on_clicks_ = false
        ∧ (∀ objs, (LongOperation.Wait w.BreakOnClicks).is_finished objs
            = (LongOperation.Wait w).is_finished objs)
        ∧ (∀ ev, (LongOperation.Wait w.BreakOnClicks).cancelled ev = ev.clicked)
        ∧ (∀ ev, (LongOperation.Wait w).cancelled ev = false))
    ∧ (∃ w : WaitLongOperation,
        Op_MutatorWaitRepNo name machine obj repno
            = .ok (machine.PushLongOperation (.Wait w))
        ∧ Op_MutatorWaitCRepNo name machine obj repno
            = .ok (machine.PushLongOperation (.Wait w.BreakOnClicks))
        ∧ w.break_on_clicks_ = false
        ∧ (∀ objs, (LongOperation.Wait w.BreakOnClicks).is_finished objs
            = (LongOperation.Wait w).is_finished objs)
        ∧ (∀ ev, (LongOperation.Wait w.BreakOnClicks).cancelled ev = ev.clicked)
        ∧ (∀ ev, (LongOperation.Wait w).cancelled ev = false)) := by
  refine ⟨rfl, ?_, ?_, ?_⟩
  · intro object hg
    simp [objectMutatorIsWorking, hg]
  · exact ⟨_, rfl, rfl, rfl, fun _ => rfl, fun ev => by
      simp [LongOperation.cancelled, WaitLongOperation.cancelled,
        WaitLongOperation.BreakOnClicks], fun _ => rfl⟩
  · exact ⟨_, rfl, rfl, rfl, fun _ => rfl, fun ev => by
      simp [LongOperation.cancelled, WaitLongOperation.cancelled,
        WaitLongOperation.BreakOnClicks], fun _ => rfl⟩

/-- Witness of C8: on the scenario object both functions report that the
`objEveLeft` mutator is not done. -/
theorem C8_click_variants_witness :
    objectMutatorIsWorking [scenarioObject] 0 (-1) "objEveLeft" = true
      ↔ scenarioObject.IsMutatorRunningMatching (-1) "objEveLeft" = false :=
  (C8_click_variants_same_completion "objEveLeft" exampleMachine 0 (-1)
    [scenarioObject]).2.1 scenarioObject rfl

/-! ## C10 and C9: the long-operation stack -/

theorem AdvanceTopOnly_cancelled (machine : RLMachine) (top : StackEntry)
    (rest : List StackEntry) (now : Int) (ev : Events) (h : machine.stack = top :: rest)
    (hc : top.op.cancelled ev = true) :
    machine.AdvanceTopOnly now ev = machine.popTop rest := by
  unfold RLMachine.AdvanceTopOnly
  rw [h]
  simp only [hc, if_true]

theorem AdvanceTopOnly_not_cancelled (machine : RLMachine) (top : StackEntry)
    (rest : List StackEntry) (now : Int) (ev : Events) (h : machine.stack = top :: rest)
    (hc : top.op.cancelled ev = false) :
    (machine.AdvanceTopOnly now ev).advance_log = machine.advance_log ++ [(top.id, now)]
    ∧ (((machine.AdvanceTopOnly now ev).stack = rest
          ∧ (machine.AdvanceTopOnly now ev).resumes
              = if rest.isEmpty then machine.resumes + 1 else machine.resumes)
        ∨ (∃ op', (machine.AdvanceTopOnly now ev).stack = { id := top.id, op := op' } :: rest
            ∧ (machine.AdvanceTopOnly now ev).resumes = machine.resumes)) := by
  unfold RLMachine.AdvanceTopOnly
  rw [h]
  simp only [hc, Bool.false_eq_true, if_false]
  by_cases hf : (top.op.advance now).1.is_finished machine.objects = true
  · rw [if_pos hf]
    exact ⟨rfl, Or.inl ⟨rfl, rfl⟩⟩
  · rw [if_neg hf]
    exact ⟨rfl, Or.inr ⟨_, rfl, rfl⟩⟩

theorem Frame_eq_AdvanceTopOnly (machine : RLMachine) (inp : RLMachine.FrameInput) :
    machine.Frame inp
      = RLMachine.AdvanceTopOnly
          { machine with
            ticks := inp.now
            objects := machine.objects.map (fun o => o.ExecuteMutators inp.now) }
          inp.now inp.events := rfl

/-- C10: when the stack is non-empty, one frame evaluates the cancellation
predicate of the top operation first.  If an event matches, no `advance` is
called in that frame and the top operation is finished and popped.  Otherwise
`advance(now)` is called exactly once, on the top operation and on no other.
In both cases the operations below the top are left as they were. -/
theorem C10_cancellation_first_then_advance_top (machine : RLMachine) (top : StackEntry)
    (rest : List StackEntry) (now : Int) (ev : Events) (h : machine.stack = top :: rest) :
    (top.op.cancelled ev = true →
        (machine.AdvanceTopOnly now ev).advance_log = machine.advance_log
        ∧ (machine.AdvanceTopOnly now ev).composites = machine.composites
        ∧ (machine.AdvanceTopOnly now ev).stack = rest
        ∧ machine.advancedIn { now := now, events := ev } = [])
    ∧ (top.op.cancelled ev = false →
        (machine.AdvanceTopOnly now ev).advance_log = machine.advance_log ++ [(top.id, now)]
        ∧ ((machine.AdvanceTopOnly now ev).stack = rest
            ∨ ∃ op', (machine.AdvanceTopOnly now ev).stack
                = { id := top.id, op := op' } :: rest)
        ∧ machine.advancedIn { now := now, events := ev } = [top.id]) := by
  constructor
  · intro hc
    rw [AdvanceTopOnly_cancelled machine top rest now ev h hc]
    refine ⟨rfl, rfl, rfl, ?_⟩
    unfold RLMachine.advancedIn
    have hF : (machine.Frame { now := now, events := ev }).advance_log
        = machine.advance_log := by
      have h4 := AdvanceTopOnly_cancelled
        { machine with
          ticks := now
          objects := machine.objects.map (fun o => o.ExecuteMutators now) }
        top rest now ev h hc
      rw [Frame_eq_AdvanceTopOnly]
      exact (congrArg RLMachine.advance_log h4).trans rfl
    rw [hF]
    simp
  · intro hc
    have h1 := AdvanceTopOnly_not_cancelled machine top rest now ev h hc
    refine ⟨h1.1, ?_, ?_⟩
    · rcases h1.2 with h2 | ⟨op', h2⟩
      · exact Or.inl h2.1
      · exact Or.inr ⟨op', h2.1⟩
    · unfold RLMachine.advancedIn
      have hF : (machine.Frame { now := now, events := ev }).advance_log
          = machine.advance_log ++ [(top.id, now)] := by
        rw [Frame_eq_AdvanceTopOnly]
        exact (AdvanceTopOnly_not_cancelled
          { machine with
            ticks := now
            objects := machine.objects.map (fun o => o.ExecuteMutators now) }
          top rest now ev h hc).1
      rw [hF]
      simp

/-- Witness of C10: a wait on top of the example machine, in a frame without
events, is advanced exactly once. -/
theorem C10_cancellation_first_witness :
    (exampleMachine.PushLongOperation exampleWait).advancedIn (quietFrame 10)
      = [exampleMachine.next_id] :=
  ((C10_cancellation_first_then_advance_top (exampleMachine.PushLongOperation exampleWait)
    { id := exampleMachine.next_id, op := exampleWait } [] 10
    { clicked := false, keys := [] } rfl).2 rfl).2.2

theorem advancedIn_cancelled (machine : RLMachine) (top : StackEntry) (rest : List StackEntry)
    (inp : RLMachine.FrameInput) (h : machine.stack = top :: rest)
    (hc : top.op.cancelled inp.events = true) : machine.advancedIn inp = [] := by
  unfold RLMachine.advancedIn
  have hF : (machine.Frame inp).advance_log = machine.advance_log := by
    have h4 := AdvanceTopOnly_cancelled
      { machine with
        ticks := inp.now
        objects := machine.objects.map (fun o => o.ExecuteMutators inp.now) }
      top rest inp.now inp.events h hc
    rw [Frame_eq_AdvanceTopOnly]
    exact (congrArg RLMachine.advance_log h4).trans rfl
  rw [hF]
  simp

theorem Frame_nonempty (machine : RLMachine) (top : StackEntry) (rest : List StackEntry)
    (inp : RLMachine.FrameInput) (h : machine.stack = top :: rest) :
    (((machine.Frame inp).stack = rest
        ∧ (machine.Frame inp).resumes
            = if rest.isEmpty then machine.resumes + 1 else machine.resumes)
      ∨ (∃ op', (machine.Frame inp).stack = { id := top.id, op := op' } :: rest
          ∧ (machine.Frame inp).resumes = machine.resumes))
    ∧ (machine.advancedIn inp = [] ∨ machine.advancedIn inp = [top.id]) := by
  cases hc : top.op.cancelled inp.events with
  | true =>
    have h4 := AdvanceTopOnly_cancelled
      { machine with
        ticks := inp.now
        objects := machine.objects.map (fun o => o.ExecuteMutators inp.now) }
      top rest inp.now inp.events h hc
    refine ⟨Or.inl ?_, Or.inl ?_⟩
    · rw [Frame_eq_AdvanceTopOnly, h4]
      exact ⟨rfl, rfl⟩
    · exact ((advancedIn_cancelled machine top rest inp h hc))
  | false =>
    have h4 := AdvanceTopOnly_not_cancelled
      { machine with
        ticks := inp.now
        objects := machine.objects.map (fun o => o.ExecuteMutators inp.now) }
      top rest inp.now inp.events h hc
    refine ⟨?_, Or.inr ?_⟩
    · rw [Frame_eq_AdvanceTopOnly]
      exact h4.2
    · unfold RLMachine.advancedIn
      have hF : (machine.Frame inp).advance_log
          = machine.advance_log ++ [(top.id, inp.now)] := by
        rw [Frame_eq_AdvanceTopOnly]
        exact h4.1
      rw [hF]
      simp

theorem Frame_empty (machine : RLMachine) (inp : RLMachine.FrameInput)
    (h : machine.stack = []) :
    (machine.Frame inp).stack = [] ∧ (machine.Frame inp).resumes = machine.resumes := by
  rw [Frame_eq_AdvanceTopOnly]
  unfold RLMachine.AdvanceTopOnly
  simp [h]

theorem Frame_twoPushed (a b r : Nat) (m : RLMachine) (inp : RLMachine.FrameInput)
    (h : RLMachine.twoPushed a b r m) : RLMachine.twoPushed a b r (m.Frame inp) := by
  rcases h with ⟨opB, opA, hs, hr⟩ | ⟨opA, hs, hr⟩ | ⟨hs, hr⟩
  · rcases (Frame_nonempty m _ _ inp hs).1 with ⟨h1, h2⟩ | ⟨op', h1, h2⟩
    · exact Or.inr (Or.inl ⟨opA, h1, by simpa [hr] using h2⟩)
    · exact Or.inl ⟨op', opA, h1, by rw [h2, hr]⟩
  · rcases (Frame_nonempty m _ _ inp hs).1 with ⟨h1, h2⟩ | ⟨op', h1, h2⟩
    · exact Or.inr (Or.inr ⟨h1, by simpa [hr] using h2⟩)
    · exact Or.inr (Or.inl ⟨op', h1, by rw [h2, hr]⟩)
  · have h1 := Frame_empty m inp hs
    exact Or.inr (Or.inr ⟨h1.1, by rw [h1.2, hr]⟩)

theorem Run_twoPushed (a b r : Nat) (inputs : List RLMachine.FrameInput) :
    ∀ m : RLMachine, RLMachine.twoPushed a b r m → RLMachine.twoPushed a b r (m.Run inputs) := by
  induction inputs with
  | nil => intro m h; exact h
  | cons inp l ih =>
    intro m h
    exact ih (m.Frame inp) (Frame_twoPushed a b r m inp h)

theorem twoPushed_initial (m0 : RLMachine) (A B : LongOperation) (h : m0.stack = []) :
    RLMachine.twoPushed m0.next_id (m0.next_id + 1) m0.resumes
      ((m0.PushLongOperation A).PushLongOperation B) := by
  refine Or.inl ⟨B, A, ?_, rfl⟩
  simp [RLMachine.PushLongOperation, h]

/-- C9: after operation A and then operation B are pushed on an empty stack,
in every state reached by any sequence of frames the stack holds B above A, or
A alone, or nothing (B is popped before A); while B is on the stack no frame
calls the advance of A; and control has returned to the interpreter exactly
once when the stack is empty and not at all while it is not. -/
theorem C9_pushed_pair_stack_discipline (m0 : RLMachine) (A B : LongOperation)
    (inputs : List RLMachine.FrameInput) (h : m0.stack = []) :
    ((((m0.PushLongOperation A).PushLongOperation B).Run inputs).stackIds
          = [m0.next_id + 1, m0.next_id]
        ∨ (((m0.PushLongOperation A).PushLongOperation B).Run inputs).stackIds
          = [m0.next_id]
        ∨ (((m0.PushLongOperation A).PushLongOperation B).Run inputs).stackIds = [])
    ∧ (∀ inp : RLMachine.FrameInput,
        m0.next_id + 1 ∈ (((m0.PushLongOperation A).PushLongOperation B).Run inputs).stackIds →
        m0.next_id ∉ (((m0.PushLongOperation A).PushLongOperation B).Run inputs).advancedIn inp)
    ∧ ((((m0.PushLongOperation A).PushLongOperation B).Run inputs).stack = [] →
        (((m0.PushLongOperation A).PushLongOperation B).Run inputs).resumes = m0.resumes + 1)
    ∧ ((((m0.PushLongOperation A).PushLongOperation B).Run inputs).stack ≠ [] →
        (((m0.PushLongOperation A).PushLongOperation B).Run inputs).resumes = m0.resumes) := by
  have hinv := Run_twoPushed m0.next_id (m0.next_id + 1) m0.resumes inputs _
    (twoPushed_initial m0 A B h)
  generalize (((m0.PushLongOperation A).PushLongOperation B).Run inputs) = m at hinv
  rcases hinv with ⟨opB, opA, hs, hr⟩ | ⟨opA, hs, hr⟩ | ⟨hs, hr⟩
  · refine ⟨Or.inl (by simp [RLMachine.stackIds, hs]), ?_, ?_, fun _ => hr⟩
    · intro inp _
      rcases (Frame_nonempty m _ _ inp hs).2 with h1 | h1
      · rw [h1]; simp
      · rw [h1]; simp
    · intro h0
      rw [hs] at h0
      exact absurd h0 (by simp)
  · refine ⟨Or.inr (Or.inl (by simp [RLMachine.stackIds, hs])), ?_, ?_, fun _ => hr⟩
    · intro inp hb
      simp [RLMachine.stackIds, hs] at hb
    · intro h0
      rw [hs] at h0
      exact absurd h0 (by simp)
  · refine ⟨Or.inr (Or.inr (by simp [RLMachine.stackIds, hs])), ?_, fun _ => hr,
      fun hne => absurd hs hne⟩
    intro inp hb
    simp [RLMachine.stackIds, hs] at hb

/-- Witness of C9: two waits pushed on the example machine; after two quiet
frames both are popped, the stack is empty and control has returned once. -/
theorem C9_pushed_pair_witness :
    exampleMachine.stack = []
      ∧ (((exampleMachine.PushLongOperation exampleWait).PushLongOperation exampleWait).Run
          [quietFrame 10, quietFrame 20]).stack = []
      ∧ (((exampleMachine.PushLongOperation exampleWait).PushLongOperation exampleWait).Run
          [quietFrame 10, quietFrame 20]).resumes = exampleMachine.resumes + 1 :=
  ⟨rfl, rfl,
    (C9_pushed_pair_stack_discipline exampleMachine exampleWait exampleWait
      [quietFrame 10, quietFrame 20] rfl).2.2.1 rfl⟩

/-! ## C11 and C12: the transition effect -/

theorem Effect_fraction_ge_one_iff (e : Effect) (now : Int) (hT : 0 < e.duration) :
    1 ≤ e.fraction now ↔ e.start_time + e.duration ≤ now := by
  unfold Effect.fraction
  rw [if_neg (by omega)]
  have hd : (0 : ℚ) < (e.duration : ℚ) := by exact_mod_cast hT
  constructor
  · intro h
    have h1 : (1 : ℚ) ≤ min 1 (((now - e.start_time : Int) : ℚ) / (e.duration : ℚ)) := by
      rcases le_max_iff.mp h with h0 | h0
      · norm_num at h0
      · exact h0
    have h2 := (le_min_iff.mp h1).2
    rw [le_div_iff₀ hd, one_mul] at h2
    have h3 : e.duration ≤ now - e.start_time := by exact_mod_cast h2
    omega
  · intro h
    have h3 : e.duration ≤ now - e.start_time := by omega
    have h2 : (1 : ℚ) ≤ ((now - e.start_time : Int) : ℚ) / (e.duration : ℚ) := by
      rw [le_div_iff₀ hd, one_mul]
      exact_mod_cast h3
    rw [min_eq_left h2]
    norm_num

theorem Effect_advance_finished (e : Effect) (now : Int) (hT : 0 < e.duration) :
    (e.advance now).1.finished = true
      ↔ e.finished = true ∨ e.start_time + e.duration ≤ now := by
  simp only [Effect.advance, Bool.or_eq_true, decide_eq_true_eq,
    Effect_fraction_ge_one_iff e now hT]

theorem Effect_advance_keeps (e : Effect) (now : Int) :
    (e.advance now).1.duration = e.duration ∧ (e.advance now).1.start_time = e.start_time :=
  ⟨rfl, rfl⟩

theorem Effect_advanceAll_finished (times : List Int) :
    ∀ e : Effect, 0 < e.duration →
      ((e.advanceAll times).finished = true
        ↔ e.finished = true ∨ ∃ t ∈ times, e.start_time + e.duration ≤ t) := by
  induction times with
  | nil => intro e _; simp [Effect.advanceAll]
  | cons now rest ih =>
    intro e hT
    have hstep : e.advanceAll (now :: rest) = (e.advance now).1.advanceAll rest := rfl
    rw [hstep, ih (e.advance now).1 hT, Effect_advance_finished e now hT]
    simp only [(Effect_advance_keeps e now).1, (Effect_advance_keeps e now).2,
      List.mem_cons, exists_eq_or_imp, or_assoc]

/-- C11: for a transition effect built at time `start` (unfinished, as the
factory builds it) with duration `T > 0`, `is_finished()` is false after an
advance at any time in `[start, start + T)` and true after an advance at any
time `≥ start + T`; after any sequence of advances it is true exactly when one
of them was at a time `≥ start + T`.  The effect the factory builds for a known
selector is unfinished, starts at the clock reading of its construction and has
the duration of the selector. -/
theorem C11_finished_iff_duration_elapsed (e : Effect) (objects : List GraphicsObject)
    (hT : 0 < e.duration) (hf : e.finished = false) :
    (∀ now : Int, e.start_time ≤ now → now < e.start_time + e.duration →
        (LongOperation.Transition e).is_finished objects = false
        ∧ ((LongOperation.Transition e).advance now).1.is_finished objects = false)
    ∧ (∀ now : Int, e.start_time + e.duration ≤ now →
        ((LongOperation.Transition e).advance now).1.is_finished objects = true)
    ∧ (∀ times : List Int,
        (LongOperation.Transition (e.advanceAll times)).is_finished objects = true
          ↔ ∃ t ∈ times, e.start_time + e.duration ≤ t)
    ∧ (∀ (factory : Int → Option SelEntry) (machine : RLMachine) (after before : Surface)
        (sel : Int) (entry : SelEntry), factory sel = some entry →
        ∃ e' : Effect,
          BuildFromSEL factory machine after before sel = .ok (.Transition e')
          ∧ e'.start_time = machine.ticks ∧ e'.duration = entry.duration
          ∧ e'.finished = false ∧ e'.before = before ∧ e'.after = after) := by
  refine ⟨?_, ?_, ?_, ?_⟩
  · intro now _ h2
    refine ⟨hf, ?_⟩
    have h := Effect_advance_finished e now hT
    simp only [LongOperation.advance, LongOperation.is_finished]
    cases hfin : (e.advance now).1.finished
    · rfl
    · rcases h.mp hfin with h0 | h0
      · rw [hf] at h0; exact absurd h0 (by simp)
      · omega
  · intro now h1
    simp only [LongOperation.advance, LongOperation.is_finished]
    exact (Effect_advance_finished e now hT).mpr (Or.inr h1)
  · intro times
    simp only [LongOperation.is_finished]
    rw [Effect_advanceAll_finished times e hT, hf]
    simp
  · intro factory machine after before sel entry hsel
    exact ⟨{ before := before, after := after, algorithm := entry.algorithm
             start_time := machine.ticks, duration := entry.duration, finished := false },
      by simp only [BuildFromSEL, hsel], rfl, rfl, rfl, rfl, rfl⟩

/-- Witness of C11: the example effect (start 1000, duration 500) is finished
after an advance at time 1500. -/
theorem C11_finished_iff_duration_elapsed_witness :
    ((LongOperation.Transition exampleEffect).advance 1500).1.is_finished [] = true :=
  (C11_finished_iff_duration_elapsed exampleEffect [] (by decide) rfl).2.1 1500 (by decide)

theorem exampleEffect_fraction_1250 : exampleEffect.fraction 1250 = 1 / 2 := by
  simp only [Effect.fraction, exampleEffect]
  norm_num

theorem exampleEffect_fraction_1600 : exampleEffect.fraction 1600 = 1 := by
  simp only [Effect.fraction, exampleEffect]
  norm_num

theorem exampleEffect_advance_1250 :
    exampleEffect.advance 1250
      = (exampleEffect,
         { before := exampleEffect.before, after := exampleEffect.after,
           algorithm := 10, fraction := 1 / 2 }) := by
  simp only [Effect.advance, exampleEffect_fraction_1250]
  norm_num [exampleEffect]

theorem exampleEffect_advance_1600 :
    exampleEffect.advance 1600
      = ({ exampleEffect with finished := true },
         { before := exampleEffect.before, after := exampleEffect.after,
           algorithm := 10, fraction := 1 }) := by
  simp only [Effect.advance, exampleEffect_fraction_1600]
  norm_num [exampleEffect]

theorem transitionScenario_frame_1250 :
    transitionScenario.Frame (quietFrame 1250)
      = { transitionScenario with
          ticks := 1250
          advance_log := [(0, 1250)]
          composites := [{ before := exampleEffect.before, after := exampleEffect.after,
                           algorithm := 10, fraction := 1 / 2 }] } := by
  simp only [transitionScenario, RLMachine.Frame, RLMachine.AdvanceTopOnly,
    RLMachine.PushLongOperation, exampleMachineAt1000, exampleMachine, quietFrame,
    LongOperation.cancelled, LongOperation.advance, LongOperation.is_finished,
    exampleEffect_advance_1250]
  rfl

theorem transitionScenario_frame_1600 :
    (transitionScenario.Frame (quietFrame 1250)).Frame (quietFrame 1600)
      = { transitionScenario with
          ticks := 1600
          stack := []
          resumes := 1
          advance_log := [(0, 1250), (0, 1600)]
          composites := [{ before := exampleEffect.before, after := exampleEffect.after,
                           algorithm := 10, fraction := 1 / 2 },
                         { before := exampleEffect.before, after := exampleEffect.after,
                           algorithm := 10, fraction := 1 }] } := by
  rw [transitionScenario_frame_1250]
  simp only [transitionScenario, RLMachine.Frame, RLMachine.AdvanceTopOnly,
    RLMachine.PushLongOperation, exampleMachineAt1000, exampleMachine, quietFrame,
    LongOperation.cancelled, LongOperation.advance, LongOperation.is_finished,
    exampleEffect_advance_1600]
  rfl

/-- C12: a transition effect of duration 500 ms, built by the factory at time
`start = 1000` and pushed.  The frame at `now = start + 250` calls its advance,
which requests the composite with fraction exactly `1/2`, and the effect stays
on the stack.  The frame at `now = start + 600` requests the composite with
fraction exactly `1`; the effect is then finished and popped: the stack is
empty and control has returned to the interpreter once. -/
theorem C12_transition_scenario :
    BuildFromSEL exampleFactory exampleMachineAt1000 { pixels := [1] } { pixels := [0] } 0
        = .ok (.Transition exampleEffect)
    ∧ (exampleEffect.advance 1250).2.fraction = 1 / 2
    ∧ (exampleEffect.advance 1250).1.finished = false
    ∧ (transitionScenario.Frame (quietFrame 1250)).composites.map (fun r => r.fraction)
        = [1 / 2]
    ∧ (transitionScenario.Frame (quietFrame 1250)).stackIds = [0]
    ∧ (exampleEffect.advance 1600).2.fraction = 1
    ∧ (exampleEffect.advance 1600).1.finished = true
    ∧ ((transitionScenario.Frame (quietFrame 1250)).Frame (quietFrame 1600)).composites.map
        (fun r => r.fraction) = [1 / 2, 1]
    ∧ ((transitionScenario.Frame (quietFrame 1250)).Frame (quietFrame 1600)).stack = []
    ∧ ((transitionScenario.Frame (quietFrame 1250)).Frame (quietFrame 1600)).resumes = 1 := by
  rw [transitionScenario_frame_1600, transitionScenario_frame_1250,
    exampleEffect_advance_1250, exampleEffect_advance_1600]
  exact ⟨rfl, rfl, rfl, rfl, rfl, rfl, rfl, rfl, rfl, rfl⟩

/-! ## C13: unknown selector codes -/

theorem promoteRenderBuildPush_unknown (be : GraphicsBackend)
    (factory : Int → Option SelEntry) (s : BgrSystem) (before : Surface) (sel : Int)
    (h : factory sel = none) :
    (promoteRenderBuildPush be factory s before sel).error = some .ConfigurationError
    ∧ (promoteRenderBuildPush be factory s before sel).system.machine.stack
        = s.machine.stack := by
  constructor <;> simp [promoteRenderBuildPush, BuildFromSEL, h]

theorem bgrMultiLoop_error (be : GraphicsBackend) (commands : List BgrMultiCommand) :
    ∀ (graphics : GraphicsSystem) (e : RLError),
      (bgrMultiLoop be graphics commands).2 = some e →
      ∃ g name, be.getSurfaceNamedAndMarkViewed g name = .error e := by
  induction commands with
  | nil => intro graphics e h; simp [bgrMultiLoop] at h
  | cons it rest ih =>
    intro graphics e h
    unfold bgrMultiLoop at h
    cases hstep : bgrMultiStep be graphics it with
    | error e1 =>
      rw [hstep] at h
      simp only [Option.some.injEq] at h
      subst h
      unfold bgrMultiStep at hstep
      split_ifs at hstep with h0 h2
      · cases hload : be.getSurfaceNamedAndMarkViewed graphics it.first with
        | error e2 =>
          rw [hload] at hstep
          simp only [Except.error.injEq] at hstep
          exact ⟨graphics, it.first, by rw [hload, hstep]⟩
        | ok r => rw [hload] at hstep; simp at hstep
      · cases hload : be.getSurfaceNamedAndMarkViewed graphics it.third.1 with
        | error e2 =>
          rw [hload] at hstep
          simp only [Except.error.injEq] at hstep
          exact ⟨graphics, it.third.1, by rw [hload, hstep]⟩
        | ok r => rw [hload] at hstep; simp at hstep
    | ok g1 =>
      rw [hstep] at h
      exact ih g1 e h

/-- C13: for every selector code the effect factory does not know, building
the effect fails with `ConfigurationError` (no default algorithm is used).
`bgrLoadHaikei_blank` then ends with that error and pushes nothing.
`bgrLoadHaikei_main` (on its effect path, the file not being a HIK script) and
`bgrMulti_1` end with an error and push nothing; the error is
`ConfigurationError` unless an image load failed before the effect was
built. -/
theorem C13_unknown_selector_is_configuration_error (be : GraphicsBackend)
    (factory : Int → Option SelEntry) (s : BgrSystem) (sel : Int)
    (h : factory sel = none) :
    (∀ (machine : RLMachine) (after before : Surface),
        BuildFromSEL factory machine after before sel = .error .ConfigurationError)
    ∧ ((bgrLoadHaikei_blank be factory s sel).error = some .ConfigurationError
        ∧ (bgrLoadHaikei_blank be factory s sel).system.machine.stack = s.machine.stack)
    ∧ (∀ filename : String, iends_with_hik (be.FindFile filename) = false →
        (bgrLoadHaikei_main be factory s filename sel).system.machine.stack = s.machine.stack
        ∧ ((bgrLoadHaikei_main be factory s filename sel).error = some .ConfigurationError
            ∨ ∃ g name e, be.getSurfaceNamedAndMarkViewed g name = .error e
                ∧ (bgrLoadHaikei_main be factory s filename sel).error = some e))
    ∧ (∀ (filename : String) (commands : List BgrMultiCommand),
        (bgrMulti_1 be factory s filename sel commands).system.machine.stack = s.machine.stack
        ∧ ((bgrMulti_1 be factory s filename sel commands).error = some .ConfigurationError
            ∨ ∃ g name e, be.getSurfaceNamedAndMarkViewed g name = .error e
                ∧ (bgrMulti_1 be factory s filename sel commands).error = some e)) := by
  refine ⟨?_, ?_, ?_, ?_⟩
  · intro machine after before
    simp only [BuildFromSEL, h]
  · unfold bgrLoadHaikei_blank
    exact promoteRenderBuildPush_unknown be factory _ _ sel h
  · intro filename hhik
    unfold bgrLoadHaikei_main
    simp only [hhik, Bool.false_eq_true, if_false]
    split_ifs with hpath
    · cases hload : be.getSurfaceNamedAndMarkViewed
          (((s.graphics.setDefaultBgrName filename).setGraphicsBackground
            .BACKGROUND_HIK).clearStack) filename with
      | error e =>
        exact ⟨rfl, Or.inr ⟨_, _, e, hload, rfl⟩⟩
      | ok r =>
        have hp := promoteRenderBuildPush_unknown be factory
          { s with graphics :=
              { r.2 with
                haikei := be.blitToSurface r.1 r.2.getHaikei (be.rect r.1) (be.rect r.1)
                  255 true } }
          (be.renderToSurface (((s.graphics.setDefaultBgrName filename).setGraphicsBackground
            .BACKGROUND_HIK).clearStack) s.machine.objects) sel h
        exact ⟨hp.2, Or.inl hp.1⟩
    · have hp := promoteRenderBuildPush_unknown be factory
        { s with graphics := ((s.graphics.setDefaultBgrName filename).setGraphicsBackground
            .BACKGROUND_HIK).clearStack }
        (be.renderToSurface (((s.graphics.setDefaultBgrName filename).setGraphicsBackground
            .BACKGROUND_HIK).clearStack) s.machine.objects) sel h
      exact ⟨hp.2, Or.inl hp.1⟩
  · intro filename commands
    unfold bgrMulti_1
    simp only []
    cases hload : be.getSurfaceNamedAndMarkViewed
        (s.graphics.setGraphicsBackground .BACKGROUND_HIK)
        (if filename = "???" then
          (s.graphics.setGraphicsBackground .BACKGROUND_HIK).defaultBgrName
        else filename) with
    | error e =>
      exact ⟨rfl, Or.inr ⟨_, _, e, hload, rfl⟩⟩
    | ok r =>
      obtain ⟨surface, g1⟩ := r
      show (match bgrMultiLoop be
              { g1 with
                haikei := be.blitToSurface surface g1.getHaikei (be.rect surface)
                  (be.rect surface) 255 true }
              commands with
            | (graphics, some e) =>
              ({ system := { s with graphics := graphics }, error := some e } : Outcome)
            | (graphics, none) =>
              promoteRenderBuildPush be factory { s with graphics := graphics }
                (be.renderToSurface s.graphics s.machine.objects) sel).system.machine.stack
            = s.machine.stack
          ∧ ((match bgrMultiLoop be
              { g1 with
                haikei := be.blitToSurface surface g1.getHaikei (be.rect surface)
                  (be.rect surface) 255 true }
              commands with
            | (graphics, some e) =>
              ({ system := { s with graphics := graphics }, error := some e } : Outcome)
            | (graphics, none) =>
              promoteRenderBuildPush be factory { s with graphics := graphics }
                (be.renderToSurface s.graphics s.machine.objects) sel).error
              = some .ConfigurationError
            ∨ ∃ g name e, be.getSurfaceNamedAndMarkViewed g name = .error e
                ∧ (match bgrMultiLoop be
                    { g1 with
                      haikei := be.blitToSurface surface g1.getHaikei (be.rect surface)
                        (be.rect surface) 255 true }
                    commands with
                  | (graphics, some e) =>
                    ({ system := { s with graphics := graphics }, error := some e } : Outcome)
                  | (graphics, none) =>
                    promoteRenderBuildPush be factory { s with graphics := graphics }
                      (be.renderToSurface s.graphics s.machine.objects) sel).error = some e)
      cases hloop : bgrMultiLoop be
          { g1 with
            haikei := be.blitToSurface surface g1.getHaikei (be.rect surface)
              (be.rect surface) 255 true }
          commands with
      | mk g err =>
        cases err with
        | some e =>
          obtain ⟨g', name, hl⟩ := bgrMultiLoop_error be commands _ e
            (congrArg Prod.snd hloop)
          exact ⟨rfl, Or.inr ⟨g', name, e, hl, rfl⟩⟩
        | none =>
          have hp := promoteRenderBuildPush_unknown be factory { s with graphics := g }
            (be.renderToSurface s.graphics s.machine.objects) sel h
          exact ⟨hp.2, Or.inl hp.1⟩

/-- Witness of C13: the example factory does not know selector 7; on the
example system `bgrLoadHaikei_blank` ends with `ConfigurationError` and the
stack stays empty. -/
theorem C13_unknown_selector_witness :
    exampleFactory 7 = none
      ∧ (bgrLoadHaikei_blank exampleBackend exampleFactory exampleBgrSystem 7).error
          = some .ConfigurationError
      ∧ (bgrLoadHaikei_blank exampleBackend exampleFactory exampleBgrSystem 7).system.machine.stack
          = [] :=
  ⟨rfl, (C13_unknown_selector_is_configuration_error exampleBackend exampleFactory
    exampleBgrSystem 7 rfl).2.1⟩

/-! ## C14: coupled properties -/

theorem AdjustMutator_SetToEnd_slots (a : AdjustMutator) (o : GraphicsObject) :
    (a.SetToEnd o).adjust_x = slotSet o.adjust_x a.repno_ a.end_x_
    ∧ (a.SetToEnd o).adjust_y = slotSet o.adjust_y a.repno_ a.end_y_ :=
  ⟨rfl, rfl⟩

theorem AdjustMutator_PerformSetting_slots (a : AdjustMutator) (now : Int)
    (o : GraphicsObject) :
    (a.PerformSetting now o).adjust_x
        = slotSet o.adjust_x a.repno_ (a.base.GetValueForTime now a.start_x_ a.end_x_)
    ∧ (a.PerformSetting now o).adjust_y
        = slotSet o.adjust_y a.repno_ (a.base.GetValueForTime now a.start_y_ a.end_y_) :=
  ⟨rfl, rfl⟩

/-- A second write to a slot overrides the first. -/
theorem slotSet_slotSet_other (slots : List Int) (idx v w : Int) :
    slotSet (slotSet slots idx v) idx w = slotSet slots idx w := by
  unfold slotSet
  by_cases h : 0 ≤ idx ∧ idx < slots.length
  · simp [h]
  · simp [h]

/-- C14: one `PerformSetting` call of an `AdjustMutator` writes both
`x_adjustment(repno)` and `y_adjustment(repno)`, with the values interpolated
for the same time `now`; one `PerformSetting` call of a `DisplayMutator` with
`move_mod` set writes both `x` and `y`, again for the same `now`.  A tick of
either mutator leaves both coordinates of the pair as they were, or writes
both (the interpolated pair for `now`, or the end pair): never one without the
other. -/
theorem C14_coupled_properties_same_tick (o : GraphicsObject) (now : Int) :
    (∀ a : AdjustMutator,
        (a.PerformSetting now o).adjust_x
            = slotSet o.adjust_x a.repno_ (a.base.GetValueForTime now a.start_x_ a.end_x_)
        ∧ (a.PerformSetting now o).adjust_y
            = slotSet o.adjust_y a.repno_ (a.base.GetValueForTime now a.start_y_ a.end_y_)
        ∧ (((Mutator.Adjust a).tick now o).1.adjust_x = o.adjust_x
              ∧ ((Mutator.Adjust a).tick now o).1.adjust_y = o.adjust_y
            ∨ ∃ vx vy : Int,
                ((Mutator.Adjust a).tick now o).1.adjust_x = slotSet o.adjust_x a.repno_ vx
                ∧ ((Mutator.Adjust a).tick now o).1.adjust_y
                    = slotSet o.adjust_y a.repno_ vy
                ∧ ((vx = a.base.GetValueForTime now a.start_x_ a.end_x_
                      ∧ vy = a.base.GetValueForTime now a.start_y_ a.end_y_)
                    ∨ (vx = a.end_x_ ∧ vy = a.end_y_))))
    ∧ (∀ d : DisplayMutator, d.move_mod_ = true →
        (d.PerformSetting now o).x
            = d.base.GetValueForTime now d.move_start_x_ d.move_end_x_
        ∧ (d.PerformSetting now o).y
            = d.base.GetValueForTime now d.move_start_y_ d.move_end_y_
        ∧ ((((Mutator.Display d).tick now o).1.x = o.x
              ∧ ((Mutator.Display d).tick now o).1.y = o.y)
            ∨ (((Mutator.Display d).tick now o).1.x
                  = d.base.GetValueForTime now d.move_start_x_ d.move_end_x_
              ∧ ((Mutator.Display d).tick now o).1.y
                  = d.base.GetValueForTime now d.move_start_y_ d.move_end_y_)
            ∨ (((Mutator.Display d).tick now o).1.x = d.move_end_x_
              ∧ ((Mutator.Display d).tick now o).1.y = d.move_end_y_))) := by
  constructor
  · intro a
    refine ⟨rfl, rfl, ?_⟩
    unfold Mutator.tick
    split_ifs with h1 h2 h3
    · exact Or.inr ⟨a.end_x_, a.end_y_, rfl, rfl, Or.inr ⟨rfl, rfl⟩⟩
    · exact Or.inl ⟨rfl, rfl⟩
    · refine Or.inr ⟨a.end_x_, a.end_y_, ?_, ?_, Or.inr ⟨rfl, rfl⟩⟩
      · show slotSet (slotSet o.adjust_x a.repno_ _) a.repno_ a.end_x_ = _
        exact slotSet_slotSet_other _ _ _ _
      · show slotSet (slotSet o.adjust_y a.repno_ _) a.repno_ a.end_y_ = _
        exact slotSet_slotSet_other _ _ _ _
    · exact Or.inr ⟨_, _, rfl, rfl, Or.inl ⟨rfl, rfl⟩⟩
  · intro d hm
    have hp := (DisplayMutator_PerformSetting_fields d now o).2.2 hm
    refine ⟨hp.1, hp.2, ?_⟩
    unfold Mutator.tick
    split_ifs with h1 h2 h3
    · exact Or.inr (Or.inr ((DisplayMutator_SetToEnd_fields d o).2.2 hm))
    · exact Or.inl ⟨rfl, rfl⟩
    · exact Or.inr (Or.inr ((DisplayMutator_SetToEnd_fields d _).2.2 hm))
    · exact Or.inr (Or.inl hp)

/-- Witness of C14: a `DisplayMutator` built with `move_mod` set, on the
example object. -/
theorem C14_coupled_properties_witness :
    ((DisplayMutator.new exampleObject 0 1000 0 1 0 0 1 30 40 0 0 0 0 0 0 0 0 0).PerformSetting
        500 exampleObject).x
      = (DisplayMutator.new exampleObject 0 1000 0 1 0 0 1 30 40 0 0 0 0 0 0 0 0
          0).base.GetValueForTime 500 (-30) 0 :=
  ((C14_coupled_properties_same_tick exampleObject 500).2
    (DisplayMutator.new exampleObject 0 1000 0 1 0 0 1 30 40 0 0 0 0 0 0 0 0 0) rfl).1

/-! ## C15: adding a mutator replaces nothing -/

theorem GetGraphicsObject_SetGraphicsObject (objects : List GraphicsObject) (obj : Int)
    (o o1 : GraphicsObject) (h : GetGraphicsObject objects obj = some o) :
    GetGraphicsObject (SetGraphicsObject objects obj o1) obj = some o1 := by
  unfold GetGraphicsObject at h ⊢
  unfold SetGraphicsObject
  by_cases hobj : 0 ≤ obj
  · rw [if_pos hobj] at h
    rw [if_pos hobj, if_pos hobj]
    generalize obj.toNat = n at h
    induction objects generalizing n with
    | nil => simp at h
    | cons a l ih =>
      cases n with
      | zero => simp
      | succ k =>
        simp only [List.get?_cons_succ] at h
        simp only [List.set_cons_succ, List.get?_cons_succ]
        exact ih k h
  · rw [if_neg hobj] at h
    exact absurd h (by simp)

theorem withObject_get (machine : RLMachine) (obj : Int) (o o1 : GraphicsObject)
    (h : GetGraphicsObject machine.objects obj = some o) :
    GetGraphicsObject (machine.withObject obj o1).objects obj = some o1 :=
  GetGraphicsObject_SetGraphicsObject machine.objects obj o o1 h

theorem Except_bind_ok {ε α β : Type} (x : Except ε α) (f : α → Except ε β) (r : β)
    (h : (x >>= f) = .ok r) : ∃ a, x = .ok a ∧ f a = .ok r := by
  cases x with
  | error e => simp [bind, Except.bind] at h
  | ok a => exact ⟨a, rfl, h⟩

theorem objEveDisplay_1_ok (objdisp : Int → List Int) (machine : RLMachine)
    (obj display duration_time delay param : Int) (object : GraphicsObject)
    (m1 : RLMachine) (h : GetGraphicsObject machine.objects obj = some object)
    (hres : objEveDisplay_1 objdisp machine obj display duration_time delay param = .ok m1) :
    ∃ d0 d1 d2 d3 d4 d5 d6 d7 d8 d9 d10 d11 d12 d13 : Int,
      m1 = machine.withObject obj (object.AddObjectMutator (.Display
        (DisplayMutator.new object (unsigned_to_int machine.ticks) duration_time delay
          display
          d0 d1 d2 d3 d4 d5 d6 d7 d8 d9 d10 d11 d12 d13))) := by
  simp only [objEveDisplay_1, h] at hres
  obtain ⟨d0, -, hres⟩ := Except_bind_ok _ _ _ hres
  obtain ⟨d1, -, hres⟩ := Except_bind_ok _ _ _ hres
  obtain ⟨d2, -, hres⟩ := Except_bind_ok _ _ _ hres
  obtain ⟨d3, -, hres⟩ := Except_bind_ok _ _ _ hres
  obtain ⟨d4, -, hres⟩ := Except_bind_ok _ _ _ hres
  obtain ⟨d5, -, hres⟩ := Except_bind_ok _ _ _ hres
  obtain ⟨d6, -, hres⟩ := Except_bind_ok _ _ _ hres
  obtain ⟨d7, -, hres⟩ := Except_bind_ok _ _ _ hres
  obtain ⟨d8, -, hres⟩ := Except_bind_ok _ _ _ hres
  obtain ⟨d9, -, hres⟩ := Except_bind_ok _ _ _ hres
  obtain ⟨d10, -, hres⟩ := Except_bind_ok _ _ _ hres
  obtain ⟨d11, -, hres⟩ := Except_bind_ok _ _ _ hres
  obtain ⟨d12, -, hres⟩ := Except_bind_ok _ _ _ hres
  obtain ⟨d13, -, hres⟩ := Except_bind_ok _ _ _ hres
  simp only [Except.ok.injEq] at hres
  exact ⟨d0, d1, d2, d3, d4, d5, d6, d7, d8, d9, d10, d11, d12, d13, hres.symm⟩

/-- C15: for every object, whatever its registry holds, `objEveAdjust`,
`objEveDisplay_2` and `objEveDisplay_3` return normally and leave the object
with the previous entries in unchanged order followed by one new entry, the
new mutator (tagged `objEveAdjust` with the repno of the script, or
`objEveDisplay` with repno `-1`); so does `objEveDisplay_1` whenever it returns
normally.  Nothing is replaced, also when an entry with the same name and repno
is already present. -/
theorem C15_add_mutator_appends (machine : RLMachine) (obj : Int) (object : GraphicsObject)
    (h : GetGraphicsObject machine.objects obj = some object) :
    (∀ repno x y duration_time delay type : Int,
        ∃ (m1 : RLMachine) (object1 : GraphicsObject) (new : Mutator),
          objEveAdjust machine obj repno x y duration_time delay type = .ok m1
          ∧ GetGraphicsObject m1.objects obj = some object1
          ∧ object1.object_mutators = object.object_mutators ++ [new]
          ∧ object1.object_mutators.length = object.object_mutators.length + 1
          ∧ new.base.name = "objEveAdjust" ∧ new.base.repno = repno)
    ∧ (∀ display duration_time delay disp_event_mod tr_mod move_mod move_len_x
        move_len_y : Int,
        ∃ (m1 : RLMachine) (object1 : GraphicsObject) (new : Mutator),
          objEveDisplay_2 machine obj display duration_time delay disp_event_mod tr_mod
              move_mod move_len_x move_len_y = .ok m1
          ∧ GetGraphicsObject m1.objects obj = some object1
          ∧ object1.object_mutators = object.object_mutators ++ [new]
          ∧ object1.object_mutators.length = object.object_mutators.length + 1
          ∧ new.base.name = "objEveDisplay" ∧ new.base.repno = -1)
    ∧ (∀ display duration_time delay disp_event_mod tr_mod move_mod move_len_x move_len_y
        rotate_mod rotate_count scale_x_mod scale_x_percent scale_y_mod scale_y_percent
        sin_mod sin_len sin_count : Int,
        ∃ (m1 : RLMachine) (object1 : GraphicsObject) (new : Mutator),
          objEveDisplay_3 machine obj display duration_time delay disp_event_mod tr_mod
              move_mod move_len_x move_len_y rotate_mod rotate_count scale_x_mod
              scale_x_percent scale_y_mod scale_y_percent sin_mod sin_len sin_count = .ok m1
          ∧ GetGraphicsObject m1.objects obj = some object1
          ∧ object1.object_mutators = object.object_mutators ++ [new]
          ∧ object1.object_mutators.length = object.object_mutators.length + 1
          ∧ new.base.name = "objEveDisplay" ∧ new.base.repno = -1)
    ∧ (∀ (objdisp : Int → List Int) (display duration_time delay param : Int)
        (m1 : RLMachine),
        objEveDisplay_1 objdisp machine obj display duration_time delay param = .ok m1 →
        ∃ (object1 : GraphicsObject) (new : Mutator),
          GetGraphicsObject m1.objects obj = some object1
          ∧ object1.object_mutators = object.object_mutators ++ [new]
          ∧ object1.object_mutators.length = object.object_mutators.length + 1
          ∧ new.base.name = "objEveDisplay" ∧ new.base.repno = -1) := by
  refine ⟨?_, ?_, ?_, ?_⟩
  · intro repno x y duration_time delay type
    simp only [objEveAdjust, h]
    exact ⟨_, _, _, rfl, withObject_get machine obj object _ h, rfl,
      List.length_append _ _, rfl, rfl⟩
  · intro display duration_time delay disp_event_mod tr_mod move_mod move_len_x move_len_y
    simp only [objEveDisplay_2, h]
    exact ⟨_, _, _, rfl, withObject_get machine obj object _ h, rfl,
      List.length_append _ _, rfl, rfl⟩
  · intro display duration_time delay disp_event_mod tr_mod move_mod move_len_x move_len_y
      rotate_mod rotate_count scale_x_mod scale_x_percent scale_y_mod scale_y_percent
      sin_mod sin_len sin_count
    simp only [objEveDisplay_3, h]
    exact ⟨_, _, _, rfl, withObject_get machine obj object _ h, rfl,
      List.length_append _ _, rfl, rfl⟩
  · intro objdisp display duration_time delay param m1 hres
    obtain ⟨d0, d1, d2, d3, d4, d5, d6, d7, d8, d9, d10, d11, d12, d13, hm⟩ :=
      objEveDisplay_1_ok objdisp machine obj display duration_time delay param object m1 h
        hres
    subst hm
    exact ⟨_, _, withObject_get machine obj object _ h, rfl,
      List.length_append _ _, rfl, rfl⟩

/-- Witness of C15: `objEveAdjust` on the scenario object, whose registry
already holds one entry. -/
theorem C15_add_mutator_appends_witness :
    ∃ (m1 : RLMachine) (object1 : GraphicsObject) (new : Mutator),
      objEveAdjust { exampleMachine with objects := [scenarioObject] } 0 3 5 6 1000 0 0
          = .ok m1
      ∧ GetGraphicsObject m1.objects 0 = some object1
      ∧ object1.object_mutators = scenarioObject.object_mutators ++ [new]
      ∧ object1.object_mutators.length = scenarioObject.object_mutators.length + 1
      ∧ new.base.name = "objEveAdjust" ∧ new.base.repno = 3 :=
  (C15_add_mutator_appends { exampleMachine with objects := [scenarioObject] } 0
    scenarioObject rfl).1 3 5 6 1000 0 0

/-! ## C16: repno outside the slots -/

/-- C16: for a repno outside the adjustment slots of the object, `objEveAdjust`
returns normally and adds its mutator, and no adjustment slot of the object
changes: not at creation, and not at any later tick or force-end of that
mutator, which leave every object with the same slot ranges exactly as it
was. -/
theorem C16_out_of_range_repno_changes_no_slot (machine : RLMachine) (obj : Int)
    (object : GraphicsObject) (repno x y duration_time delay type : Int)
    (h : GetGraphicsObject machine.objects obj = some object)
    (hx : ¬ (0 ≤ repno ∧ repno < object.adjust_x.length))
    (hy : ¬ (0 ≤ repno ∧ repno < object.adjust_y.length)) :
    ∃ (m1 : RLMachine) (object1 : GraphicsObject) (a : AdjustMutator),
      objEveAdjust machine obj repno x y duration_time delay type = .ok m1
      ∧ GetGraphicsObject m1.objects obj = some object1
      ∧ object1.object_mutators = object.object_mutators ++ [.Adjust a]
      ∧ object1.adjust_x = object.adjust_x
      ∧ object1.adjust_y = object.adjust_y
      ∧ object1.adjust_alpha = object.adjust_alpha
      ∧ ∀ (now : Int) (o : GraphicsObject),
          o.adjust_x.length = object.adjust_x.length →
          o.adjust_y.length = object.adjust_y.length →
          ((Mutator.Adjust a).tick now o).1 = o
          ∧ (Mutator.Adjust a).PerformSetting now o = o
          ∧ (Mutator.Adjust a).SetToEnd o = o := by
  simp only [objEveAdjust, h]
  refine ⟨_, _, _, rfl, withObject_get machine obj object _ h, rfl, rfl, rfl, rfl, ?_⟩
  intro now o hlx hly
  have hx' : ¬ (0 ≤ repno ∧ repno < o.adjust_x.length) := by rw [hlx]; exact hx
  have hy' : ¬ (0 ≤ repno ∧ repno < o.adjust_y.length) := by rw [hly]; exact hy
  exact ⟨tick_Adjust_invalid _ now o hx' hy',
    AdjustMutator_PerformSetting_invalid _ now o hx' hy',
    AdjustMutator_SetToEnd_invalid _ o hx' hy'⟩

/-- Witness of C16: repno 8 on the example object, whose slots are 0 to 7. -/
theorem C16_out_of_range_repno_witness :
    ∃ (m1 : RLMachine) (object1 : GraphicsObject) (a : AdjustMutator),
      objEveAdjust exampleMachine 0 8 5 6 1000 0 0 = .ok m1
      ∧ GetGraphicsObject m1.objects 0 = some object1
      ∧ object1.object_mutators = exampleObject.object_mutators ++ [.Adjust a]
      ∧ object1.adjust_x = exampleObject.adjust_x
      ∧ object1.adjust_y = exampleObject.adjust_y
      ∧ object1.adjust_alpha = exampleObject.adjust_alpha
      ∧ ∀ (now : Int) (o : GraphicsObject),
          o.adjust_x.length = exampleObject.adjust_x.length →
          o.adjust_y.length = exampleObject.adjust_y.length →
          ((Mutator.Adjust a).tick now o).1 = o
          ∧ (Mutator.Adjust a).PerformSetting now o = o
          ∧ (Mutator.Adjust a).SetToEnd o = o :=
  C16_out_of_range_repno_changes_no_slot exampleMachine 0 exampleObject 8 5 6 1000 0 0 rfl
    (by decide) (by decide)

/-! ## C19: the start values captured by `objEveAdjust` -/

theorem unsigned_to_int_of_lt (u : Int) (h0 : 0 ≤ u) (h1 : u < 2147483648) :
    unsigned_to_int u = u := by
  unfold unsigned_to_int
  omega

theorem unsigned_to_int_of_ge (u : Int) (h0 : 2147483648 ≤ u) (h1 : u < 4294967296) :
    unsigned_to_int u = u - 4294967296 := by
  unfold unsigned_to_int
  omega

/-- C19, as stated, fails: at the tick count 3000000000 the mutator that
`objEveAdjust` adds has the creation time `-1294967296`, not the tick count;
the opcode holds the tick count in an `unsigned int` and passes it to the
`int creation_time` parameter of the `AdjustMutator` constructor. -/
theorem C19_counterexample_tick_count_narrowed :
    exampleMachineLate.ticks = 3000000000
      ∧ ∃ a : AdjustMutator,
          objEveAdjust exampleMachineLate 0 3 5 6 1000 0 0
              = .ok (exampleMachineLate.withObject 0
                  (exampleObject.AddObjectMutator (.Adjust a)))
          ∧ a.base.creation_time = -1294967296
          ∧ a.base.creation_time ≠ exampleMachineLate.ticks :=
  ⟨rfl,
    { base := { repno := 3, name := "objEveAdjust", creation_time := -1294967296,
                duration_time := 1000, delay := 0, type := 0 }
      repno_ := 3, start_x_ := 0, end_x_ := 5, start_y_ := 0, end_y_ := 6 },
    rfl, rfl, by decide⟩

/-- C19 (amended): the mutator that `objEveAdjust` adds has `start_x` and
`start_y` equal to `x_adjustment(repno)` and `y_adjustment(repno)` of the
object at the moment the opcode executes, end values equal to the arguments
`x` and `y`, and the duration, delay and type of the script; its creation time
is the current tick count converted from `unsigned int` to `int`, which is the
tick count itself as long as that is below `2^31`, and the tick count minus
`2^32` from `2^31` on; the opcode changes no adjustment of the object. -/
theorem C19_objEveAdjust_captures_start (machine : RLMachine) (obj : Int)
    (object : GraphicsObject) (repno x y duration_time delay type : Int)
    (h : GetGraphicsObject machine.objects obj = some object) :
    ∃ (m1 : RLMachine) (object1 : GraphicsObject) (a : AdjustMutator),
      objEveAdjust machine obj repno x y duration_time delay type = .ok m1
      ∧ GetGraphicsObject m1.objects obj = some object1
      ∧ object1.object_mutators = object.object_mutators ++ [.Adjust a]
      ∧ a.repno_ = repno ∧ a.base.repno = repno
      ∧ a.start_x_ = object.x_adjustment repno
      ∧ a.start_y_ = object.y_adjustment repno
      ∧ a.end_x_ = x ∧ a.end_y_ = y
      ∧ a.base.creation_time = unsigned_to_int machine.ticks
      ∧ (0 ≤ machine.ticks → machine.ticks < 2147483648 →
          a.base.creation_time = machine.ticks)
      ∧ (2147483648 ≤ machine.ticks → machine.ticks < 4294967296 →
          a.base.creation_time = machine.ticks - 4294967296)
      ∧ a.base.duration_time = duration_time ∧ a.base.delay = delay ∧ a.base.type = type
      ∧ (∀ idx : Int,
          object1.x_adjustment idx = object.x_adjustment idx
          ∧ object1.y_adjustment idx = object.y_adjustment idx
          ∧ object1.alpha_adjustment idx = object.alpha_adjustment idx)
      ∧ m1.ticks = machine.ticks ∧ m1.stack = machine.stack := by
  simp only [objEveAdjust, h]
  exact ⟨_, _, _, rfl, withObject_get machine obj object _ h, rfl, rfl, rfl, rfl, rfl, rfl,
    rfl, rfl, fun h0 h1 => unsigned_to_int_of_lt _ h0 h1,
    fun h0 h1 => unsigned_to_int_of_ge _ h0 h1, rfl, rfl, rfl,
    fun _ => ⟨rfl, rfl, rfl⟩, rfl, rfl⟩

/-- Witness of C19 (amended): the scenario object with slot 3 preset to
`(11, 12)`, at the tick count 0. -/
theorem C19_objEveAdjust_captures_start_witness :
    ∃ (m1 : RLMachine) (object1 : GraphicsObject) (a : AdjustMutator),
      objEveAdjust
          { exampleMachine with
            objects := [(exampleObject.SetXAdjustment 3 11).SetYAdjustment 3 12] }
          0 3 5 6 1000 0 0 = .ok m1
      ∧ GetGraphicsObject m1.objects 0 = some object1
      ∧ a.start_x_ = 11 ∧ a.start_y_ = 12 ∧ a.end_x_ = 5 ∧ a.end_y_ = 6
      ∧ a.base.creation_time = 0
      ∧ object1.object_mutators = [.Adjust a] := by
  obtain ⟨m1, object1, a, h1, h2, h3, _, _, h4, h5, h6, h7, _, h8, _⟩ :=
    C19_objEveAdjust_captures_start
      { exampleMachine with
        objects := [(exampleObject.SetXAdjustment 3 11).SetYAdjustment 3 12] }
      0 ((exampleObject.SetXAdjustment 3 11).SetYAdjustment 3 12) 3 5 6 1000 0 0 rfl
  exact ⟨m1, object1, a, h1, h2, h4, h5, h6, h7, h8 (by decide) (by decide), h3⟩

/-! ## C17: creating and querying opcodes share their tag -/

theorem created_stored (op : EveOperation) (object : GraphicsObject) (repno arg : Int)
    (m : Mutator) (h : op.created object repno arg = some m) :
    ∃ tag slot, op.stored = some (tag, slot) ∧ m.base.name = tag
      ∧ m.base.repno = if slot then repno else -1 := by
  cases op <;> cases h <;> exact ⟨_, _, rfl, rfl, rfl⟩

theorem stored_created (op : EveOperation) (object : GraphicsObject) (repno arg : Int)
    (tag : String) (slot : Bool) (h : op.stored = some (tag, slot)) :
    ∃ m, op.created object repno arg = some m := by
  cases op <;> cases h <;> exact ⟨_, rfl⟩

set_option maxRecDepth 100000 in
theorem table_tags_agree :
    ∀ e ∈ addEveObjectFunctions,
      e.op.queried = none
      ∨ ((∃ c ∈ addEveObjectFunctions,
            c.opcode = 2000 + e.opcode % 1000 ∧ c.op.stored = e.op.queried)
          ∧ ∀ c ∈ addEveObjectFunctions, c.opcode = 2000 + e.opcode % 1000 →
              c.op.stored = none ∨ c.op.stored = e.op.queried) := by
  decide

/-- C17: every wait opcode (4000 to 4040), click-interruptible wait opcode
(5000 to 5040) and end opcode (6000 to 6040) of `addEveObjectFunctions` queries
the tag that the mutator-creating overloads of the 2000-series opcode with the
same last three digits store: such an overload is registered, and every mutator
created by an overload of that opcode carries the queried tag, with the repno of
the script when the wait or end opcode takes a repno and with repno `-1` when it
does not.  The queried tags are listed opcode by opcode. -/
theorem C17_wait_and_end_tags_match_creators :
    (∀ e ∈ addEveObjectFunctions, ∀ (tag : String) (takes : Bool),
        e.op.queried = some (tag, takes) →
        (∃ c ∈ addEveObjectFunctions,
            c.opcode = 2000 + e.opcode % 1000 ∧ c.op.stored = some (tag, takes))
        ∧ ∀ c ∈ addEveObjectFunctions, c.opcode = 2000 + e.opcode % 1000 →
            ∀ (object : GraphicsObject) (repno arg : Int) (m : Mutator),
              c.op.created object repno arg = some m →
              m.base.name = tag ∧ m.base.repno = if takes then repno else -1)
    ∧ (∀ (op : EveOperation) (object : GraphicsObject) (repno arg : Int) (tag : String)
        (slot : Bool), op.stored = some (tag, slot) →
        ∃ m, op.created object repno arg = some m ∧ m.base.name = tag
          ∧ m.base.repno = if slot then repno else -1)
    ∧ (addEveObjectFunctions.filter (fun e => e.op.queried.isSome)).map
          (fun e => (e.opcode, e.op.queried))
        = [(4000, some ("objEveMove", false)), (4001, some ("objEveLeft", false)),
           (4002, some ("objEveTop", false)), (4003, some ("objEveAlpha", false)),
           (4004, some ("objEveDisplay", false)), (4006, some ("objEveAdjust", true)),
           (4040, some ("objEveAdjustAlpha", true)),
           (5000, some ("objEveMove", false)), (5001, some ("objEveLeft", false)),
           (5002, some ("objEveTop", false)), (5003, some ("objEveAlpha", false)),
           (5004, some ("objEveDisplay", false)), (5006, some ("objEveAdjust", true)),
           (5040, some ("objEveAdjustAlpha", true)),
           (6000, some ("objEveMove", false)), (6001, some ("objEveLeft", false)),
           (6002, some ("objEveTop", false)), (6003, some ("objEveAlpha", false)),
           (6004, some ("objEveDisplay", false)), (6006, some ("objEveAdjust", true)),
           (6040, some ("objEveAdjustAlpha", true))] := by
  refine ⟨?_, ?_, by decide⟩
  · intro e he tag takes hq
    rcases table_tags_agree e he with hnone | ⟨⟨c, hc, hop, hst⟩, hall⟩
    · rw [hq] at hnone
      exact absurd hnone (by simp)
    · refine ⟨⟨c, hc, hop, by rw [hst, hq]⟩, ?_⟩
      intro c1 hc1 hop1 object repno arg m hm
      obtain ⟨tag1, slot1, hs1, hname, hrep⟩ := created_stored c1.op object repno arg m hm
      rcases hall c1 hc1 hop1 with h0 | h0
      · rw [hs1] at h0
        exact absurd h0 (by simp)
      · rw [hs1, hq] at h0
        simp only [Option.some.injEq, Prod.mk.injEq] at h0
        rw [← h0.1, ← h0.2]
        exact ⟨hname, hrep⟩
  · intro op object repno arg tag slot hs
    obtain ⟨m, hm⟩ := stored_created op object repno arg tag slot hs
    obtain ⟨tag1, slot1, hs1, hname, hrep⟩ := created_stored op object repno arg m hm
    rw [hs] at hs1
    simp only [Option.some.injEq, Prod.mk.injEq] at hs1
    rw [← hs1.1] at hname
    rw [← hs1.2] at hrep
    exact ⟨m, hm, hname, hrep⟩

/-- Witness of C17: opcode 4006 queries `objEveAdjust` with a repno; opcode
2006 has an overload that stores that tag with the slot repno, and the mutator
it creates on slot 3 carries the tag and repno 3. -/
theorem C17_wait_and_end_tags_witness :
    (∃ c ∈ addEveObjectFunctions,
        c.opcode = 2000 + 4006 % 1000 ∧ c.op.stored = some ("objEveAdjust", true))
    ∧ ∃ m, EveOperation.created .objEveAdjust exampleObject 3 7 = some m
        ∧ m.base.name = "objEveAdjust" ∧ m.base.repno = if true then 3 else -1 :=
  ⟨(C17_wait_and_end_tags_match_creators.1
      { opcode := 4006, overload := 0, name := "objEveAdjustEnd",
        op := .Op_MutatorWaitRepNo "objEveAdjust" }
      (by decide) "objEveAdjust" true rfl).1,
    C17_wait_and_end_tags_match_creators.2.1 .objEveAdjust exampleObject 3 7
      "objEveAdjust" true rfl⟩

/-! ## C18: the subtractive shader is built once -/

theorem render_glsl_built (sh pr : Nat → Nat) (g : ShaderStatics)
    (hg : g.m_shaderObjectID ≠ 0) (calls : List (Texture × Coords)) :
    calls.foldl (renderToScreenAsColorMask_subtractive_glsl sh pr) g = g := by
  induction calls with
  | nil => rfl
  | cons call rest ih =>
    have hstep : renderToScreenAsColorMask_subtractive_glsl sh pr g call = g := by
      unfold renderToScreenAsColorMask_subtractive_glsl
      split_ifs <;> rfl
    rw [List.foldl_cons, hstep, ih]

theorem render_glsl_from_initial (sh pr : Nat → Nat) (hnz : ∀ k, sh k ≠ 0)
    (calls : List (Texture × Coords)) :
    calls.foldl (renderToScreenAsColorMask_subtractive_glsl sh pr) ShaderStatics.initial
      = if calls.any (fun call => (call.1.filterCoords call.2).1) then
          { m_shaderObjectID := sh 0, m_programObjectID := pr 0, builds := 1 }
        else ShaderStatics.initial := by
  induction calls with
  | nil => rfl
  | cons call rest ih =>
    rw [List.foldl_cons]
    cases hpass : (call.1.filterCoords call.2).1 with
    | false =>
      have hstep : renderToScreenAsColorMask_subtractive_glsl sh pr ShaderStatics.initial call
          = ShaderStatics.initial := by
        simp [renderToScreenAsColorMask_subtractive_glsl, hpass]
      rw [hstep, ih]
      simp only [List.any_cons, hpass, Bool.false_or]
    | true =>
      have hstep : renderToScreenAsColorMask_subtractive_glsl sh pr ShaderStatics.initial call
          = { m_shaderObjectID := sh 0, m_programObjectID := pr 0, builds := 1 } := by
        simp [renderToScreenAsColorMask_subtractive_glsl, hpass, ShaderStatics.initial,
          buildShader]
      rw [hstep, render_glsl_built sh pr _ (hnz 0) rest]
      simp only [List.any_cons, hpass, Bool.true_or, if_true]

/-- C18: provided shader creation returns a non-zero handle, over every
sequence of `renderToScreenAsColorMask_subtractive_glsl` calls on any textures
started from the initial statics (`m_shaderObjectID = 0`), `buildShader` is
invoked at most once; it is invoked exactly when some call passed
`filterCoords` (so on the first such call), the ids are then those of that one
build, and every later sequence of calls leaves the statics as they are. -/
theorem C18_shader_built_at_most_once (sh pr : Nat → Nat) (hnz : ∀ k, sh k ≠ 0)
    (calls later : List (Texture × Coords)) :
    (calls.foldl (renderToScreenAsColorMask_subtractive_glsl sh pr)
        ShaderStatics.initial).builds ≤ 1
    ∧ ((calls.foldl (renderToScreenAsColorMask_subtractive_glsl sh pr)
          ShaderStatics.initial).builds = 1
        ↔ ∃ call ∈ calls, (call.1.filterCoords call.2).1 = true)
    ∧ ((∀ call ∈ calls, (call.1.filterCoords call.2).1 = false) →
        calls.foldl (renderToScreenAsColorMask_subtractive_glsl sh pr) ShaderStatics.initial
          = ShaderStatics.initial)
    ∧ ((∃ call ∈ calls, (call.1.filterCoords call.2).1 = true) →
        calls.foldl (renderToScreenAsColorMask_subtractive_glsl sh pr) ShaderStatics.initial
          = { m_shaderObjectID := sh 0, m_programObjectID := pr 0, builds := 1 }
        ∧ later.foldl (renderToScreenAsColorMask_subtractive_glsl sh pr)
            (calls.foldl (renderToScreenAsColorMask_subtractive_glsl sh pr)
              ShaderStatics.initial)
          = calls.foldl (renderToScreenAsColorMask_subtractive_glsl sh pr)
              ShaderStatics.initial) := by
  rw [render_glsl_from_initial sh pr hnz calls]
  by_cases hany : calls.any (fun call => (call.1.filterCoords call.2).1) = true
  · have hex : ∃ call ∈ calls, (call.1.filterCoords call.2).1 = true := by
      simpa [List.any_eq_true] using hany
    rw [if_pos hany]
    refine ⟨le_refl 1, ⟨fun _ => hex, fun _ => rfl⟩, ?_, ?_⟩
    · intro hall
      obtain ⟨call, hc, hp⟩ := hex
      rw [hall call hc] at hp
      exact absurd hp (by simp)
    · intro _
      exact ⟨rfl, render_glsl_built sh pr _ (hnz 0) later⟩
  · have hall : ∀ call ∈ calls, (call.1.filterCoords call.2).1 = false := by
      simpa [List.any_eq_true] using hany
    rw [if_neg hany]
    refine ⟨Nat.zero_le 1, ⟨fun h => ?_, fun hex => ?_⟩, fun _ => rfl, fun hex => ?_⟩
    · exact absurd h (by decide)
    · obtain ⟨call, hc, hp⟩ := hex
      rw [hall call hc] at hp
      exact absurd hp (by simp)
    · obtain ⟨call, hc, hp⟩ := hex
      rw [hall call hc] at hp
      exact absurd hp (by simp)

/-- Witness of C18: a call that `filterCoords` rejects, then one that passes;
the shader is built once, with the handles 7 and 9 of the driver. -/
theorem C18_shader_built_at_most_once_witness :
    ([(exampleTexture, exampleCoordsOutside), (exampleTexture, exampleCoords)].foldl
        (renderToScreenAsColorMask_subtractive_glsl (fun _ => 7) (fun _ => 9))
        ShaderStatics.initial).builds ≤ 1
    ∧ [(exampleTexture, exampleCoordsOutside), (exampleTexture, exampleCoords)].foldl
        (renderToScreenAsColorMask_subtractive_glsl (fun _ => 7) (fun _ => 9))
        ShaderStatics.initial
      = { m_shaderObjectID := 7, m_programObjectID := 9, builds := 1 } :=
  ⟨(C18_shader_built_at_most_once (fun _ => 7) (fun _ => 9) (fun _ => Nat.succ_ne_zero 6)
      [(exampleTexture, exampleCoordsOutside), (exampleTexture, exampleCoords)] []).1,
    ((C18_shader_built_at_most_once (fun _ => 7) (fun _ => 9) (fun _ => Nat.succ_ne_zero 6)
      [(exampleTexture, exampleCoordsOutside), (exampleTexture, exampleCoords)] []).2.2.2
      ⟨(exampleTexture, exampleCoords), by simp, by decide⟩).1⟩

/-! ## C20: `filterCoords` is the intersection test -/

theorem filterCoords_true_iff (t : Texture) (c : Coords) :
    (t.filterCoords c).1 = true
      ↔ (c.x1 + (c.x2 - c.x1) > t.m_xOffset ∧ c.x1 < t.m_xOffset + t.m_logicalWidth ∧
          c.y1 + (c.y2 - c.y1) > t.m_yOffset ∧ c.y1 < t.m_yOffset + t.m_logicalHeight) := by
  unfold Texture.filterCoords
  simp only []
  split_ifs with h
  · exact ⟨fun _ => h, fun _ => rfl⟩
  · exact ⟨fun h0 => absurd h0 (by simp), fun h0 => absurd h0 h⟩

theorem filterCoords_false_unchanged (t : Texture) (c : Coords)
    (h : (t.filterCoords c).1 = false) : (t.filterCoords c).2 = c := by
  by_cases hc : c.x1 + (c.x2 - c.x1) > t.m_xOffset ∧ c.x1 < t.m_xOffset + t.m_logicalWidth ∧
      c.y1 + (c.y2 - c.y1) > t.m_yOffset ∧ c.y1 < t.m_yOffset + t.m_logicalHeight
  · rw [((filterCoords_true_iff t c).mpr hc)] at h
    exact absurd h (by simp)
  · unfold Texture.filterCoords
    simp only []
    rw [if_neg hc]

/-- C20: for a texture piece of positive logical size and an input with
`x1 < x2` and `y1 < y2`, `filterCoords` returns true if and only if the source
rectangle `[x1, x2) x [y1, y2)` and the rectangle of the piece
`[m_xOffset, m_xOffset + m_logicalWidth) x [m_yOffset, m_yOffset + m_logicalHeight)`
have a point in common; when it returns false the eight coordinates are
unchanged. -/
theorem C20_filterCoords_intersection_test (t : Texture) (c : Coords)
    (hw : 0 < t.m_logicalWidth) (hh : 0 < t.m_logicalHeight)
    (hx : c.x1 < c.x2) (hy : c.y1 < c.y2) :
    ((t.filterCoords c).1 = true
      ↔ ∃ px py : Int,
          (c.x1 ≤ px ∧ px < c.x2 ∧ c.y1 ≤ py ∧ py < c.y2)
          ∧ (t.m_xOffset ≤ px ∧ px < t.m_xOffset + t.m_logicalWidth
              ∧ t.m_yOffset ≤ py ∧ py < t.m_yOffset + t.m_logicalHeight))
    ∧ ((t.filterCoords c).1 = false → (t.filterCoords c).2 = c) := by
  refine ⟨?_, filterCoords_false_unchanged t c⟩
  rw [filterCoords_true_iff]
  constructor
  · rintro ⟨h1, h2, h3, h4⟩
    refine ⟨max c.x1 t.m_xOffset, max c.y1 t.m_yOffset, ?_, ?_⟩
    · refine ⟨le_max_left _ _, ?_, le_max_left _ _, ?_⟩
      · exact max_lt hx (by omega)
      · exact max_lt hy (by omega)
    · refine ⟨le_max_right _ _, ?_, le_max_right _ _, ?_⟩
      · exact max_lt h2 (by omega)
      · exact max_lt h4 (by omega)
  · rintro ⟨px, py, ⟨a1, a2, a3, a4⟩, b1, b2, b3, b4⟩
    refine ⟨by omega, by omega, by omega, by omega⟩

/-- Witness of C20: on the example texture the overlapping source rectangle is
accepted and the one to its right is rejected and left unchanged. -/
theorem C20_filterCoords_intersection_witness :
    ((exampleTexture.filterCoords exampleCoords).1 = true
      ↔ ∃ px py : Int,
          (exampleCoords.x1 ≤ px ∧ px < exampleCoords.x2
            ∧ exampleCoords.y1 ≤ py ∧ py < exampleCoords.y2)
          ∧ (exampleTexture.m_xOffset ≤ px
              ∧ px < exampleTexture.m_xOffset + exampleTexture.m_logicalWidth
              ∧ exampleTexture.m_yOffset ≤ py
              ∧ py < exampleTexture.m_yOffset + exampleTexture.m_logicalHeight))
    ∧ (exampleTexture.filterCoords exampleCoordsOutside).2 = exampleCoordsOutside :=
  ⟨(C20_filterCoords_intersection_test exampleTexture exampleCoords (by decide) (by decide)
      (by decide) (by decide)).1,
    (C20_filterCoords_intersection_test exampleTexture exampleCoordsOutside (by decide)
      (by decide) (by decide) (by decide)).2 (by decide)⟩

/-! ## C21: the source coordinates written back by `filterCoords` -/

/-- C21: when `filterCoords` returns true for an input with `x1 < x2` and
`y1 < y2` on a piece of positive logical size, the source coordinates written
back are the intersection in the local coordinates of the piece,
`x1' = max(x1, m_xOffset) - m_xOffset` and
`x2' = min(x2, m_xOffset + m_logicalWidth) - m_xOffset` (likewise for `y`), so
that `0 ≤ x1' < x2' ≤ m_logicalWidth` and `0 ≤ y1' < y2' ≤ m_logicalHeight`;
the divisors `w1 = x2 - x1` and `h1 = y2 - y1` of the destination adjustment are
not zero. -/
theorem C21_filterCoords_local_intersection (t : Texture) (c : Coords)
    (hw : 0 < t.m_logicalWidth) (hh : 0 < t.m_logicalHeight)
    (hx : c.x1 < c.x2) (hy : c.y1 < c.y2) (h : (t.filterCoords c).1 = true) :
    (t.filterCoords c).2.x1 = max c.x1 t.m_xOffset - t.m_xOffset
    ∧ (t.filterCoords c).2.x2 = min c.x2 (t.m_xOffset + t.m_logicalWidth) - t.m_xOffset
    ∧ (t.filterCoords c).2.y1 = max c.y1 t.m_yOffset - t.m_yOffset
    ∧ (t.filterCoords c).2.y2 = min c.y2 (t.m_yOffset + t.m_logicalHeight) - t.m_yOffset
    ∧ (0 ≤ (t.filterCoords c).2.x1 ∧ (t.filterCoords c).2.x1 < (t.filterCoords c).2.x2
        ∧ (t.filterCoords c).2.x2 ≤ t.m_logicalWidth)
    ∧ (0 ≤ (t.filterCoords c).2.y1 ∧ (t.filterCoords c).2.y1 < (t.filterCoords c).2.y2
        ∧ (t.filterCoords c).2.y2 ≤ t.m_logicalHeight)
    ∧ c.x2 - c.x1 ≠ 0 ∧ c.y2 - c.y1 ≠ 0 := by
  have hc := (filterCoords_true_iff t c).mp h
  have hx1 : (t.filterCoords c).2.x1 = max c.x1 t.m_xOffset - t.m_xOffset := by
    unfold Texture.filterCoords
    simp only []
    rw [if_pos hc]
  have hx2 : (t.filterCoords c).2.x2
      = min c.x2 (t.m_xOffset + t.m_logicalWidth) - t.m_xOffset := by
    unfold Texture.filterCoords
    simp only []
    rw [if_pos hc]
    have : c.x1 + (c.x2 - c.x1) = c.x2 := by ring
    simp only [this]
    ring
  have hy1 : (t.filterCoords c).2.y1 = max c.y1 t.m_yOffset - t.m_yOffset := by
    unfold Texture.filterCoords
    simp only []
    rw [if_pos hc]
  have hy2 : (t.filterCoords c).2.y2
      = min c.y2 (t.m_yOffset + t.m_logicalHeight) - t.m_yOffset := by
    unfold Texture.filterCoords
    simp only []
    rw [if_pos hc]
    have : c.y1 + (c.y2 - c.y1) = c.y2 := by ring
    simp only [this]
    ring
  obtain ⟨h1, h2, h3, h4⟩ := hc
  rw [hx1, hx2, hy1, hy2]
  refine ⟨rfl, rfl, rfl, rfl, ⟨?_, ?_, ?_⟩, ⟨?_, ?_, ?_⟩, by omega, by omega⟩
  · have := le_max_right c.x1 t.m_xOffset
    omega
  · have : max c.x1 t.m_xOffset < min c.x2 (t.m_xOffset + t.m_logicalWidth) :=
      max_lt (lt_min hx h2) (lt_min (by omega) (by omega))
    omega
  · have := min_le_right c.x2 (t.m_xOffset + t.m_logicalWidth)
    omega
  · have := le_max_right c.y1 t.m_yOffset
    omega
  · have : max c.y1 t.m_yOffset < min c.y2 (t.m_yOffset + t.m_logicalHeight) :=
      max_lt (lt_min hy h4) (lt_min (by omega) (by omega))
    omega
  · have := min_le_right c.y2 (t.m_yOffset + t.m_logicalHeight)
    omega

/-- Witness of C21: the example coordinates `[600, 700) x [400, 500)` on the
640 by 480 example texture come back as `[600, 640) x [400, 480)`. -/
theorem C21_filterCoords_local_intersection_witness :
    (exampleTexture.filterCoords exampleCoords).2.x1 = max 600 0 - 0
      ∧ (exampleTexture.filterCoords exampleCoords).2.x2 = min 700 (0 + 640) - 0 :=
  ⟨(C21_filterCoords_local_intersection exampleTexture exampleCoords (by decide) (by decide)
      (by decide) (by decide) (by decide)).1,
    (C21_filterCoords_local_intersection exampleTexture exampleCoords (by decide) (by decide)
      (by decide) (by decide) (by decide)).2.1⟩

/-! ## C22 and C23: clipping in `renderToScreenAsObject` -/

theorem clipCoords_outside (i : ObjectRenderInput) (c : Coords)
    (h : c.dx2 < i.clipX1 ∨ c.dx1 > i.clipX2 ∨ c.dy2 < i.clipY1 ∨ c.dy1 > i.clipY2) :
    clipCoords i c = none := by
  unfold clipCoords
  rw [if_pos h]

theorem clipCoords_inside (i : ObjectRenderInput) (c : Coords)
    (h : ¬ (c.dx2 < i.clipX1 ∨ c.dx1 > i.clipX2 ∨ c.dy2 < i.clipY1 ∨ c.dy1 > i.clipY2)) :
    ∃ r, clipCoords i c = some r
      ∧ r.dx1 = (if c.dx1 < i.clipX1 then i.clipX1 else c.dx1)
      ∧ r.dy1 = (if c.dy1 < i.clipY1 then i.clipY1 else c.dy1)
      ∧ r.dx2 = (if c.dx2 ≥ i.clipX2 then i.clipX2 + 1 else c.dx2)
      ∧ r.dy2 = (if c.dy2 ≥ i.clipY2 then i.clipY2 + 1 else c.dy2)
      ∧ r.x1 = (if c.dx1 < i.clipX1 then c.x1 + (i.clipX1 - c.dx1) else c.x1)
      ∧ r.y1 = (if c.dy1 < i.clipY1 then c.y1 + (i.clipY1 - c.dy1) else c.y1)
      ∧ r.x2 = (if c.dx2 ≥ i.clipX2 then c.x2 - (c.dx2 - i.clipX2) else c.x2)
      ∧ r.y2 = (if c.dy2 ≥ i.clipY2 then c.y2 - (c.dy2 - i.clipY2) else c.y2) := by
  unfold clipCoords
  rw [if_neg h]
  refine ⟨_, rfl, ?_⟩
  by_cases h1 : c.dx1 < i.clipX1 <;> by_cases h2 : c.dy1 < i.clipY1 <;>
    simp only [h1, h2, if_true, if_false] <;>
    by_cases h3 : c.dx2 ≥ i.clipX2 <;> by_cases h4 : c.dy2 ≥ i.clipY2 <;>
    simp only [h3, h4, if_true, if_false, and_self]

/-! ### Single-precision arithmetic -/

theorem roundHalfEven_ge (x : ℚ) (k : Int) (h : (k : ℚ) ≤ x) : k ≤ roundHalfEven x := by
  have hk : k ≤ ⌊x⌋ := Int.le_floor.mpr h
  unfold roundHalfEven
  split_ifs <;> omega

theorem roundHalfEven_le (x : ℚ) (k : Int) (h : x ≤ (k : ℚ)) : roundHalfEven x ≤ k := by
  have hf : (⌊x⌋ : ℚ) ≤ x := Int.floor_le x
  have hk : ⌊x⌋ ≤ k := by exact_mod_cast hf.trans h
  unfold roundHalfEven
  by_cases h1 : x - ⌊x⌋ < 1 / 2
  · rw [if_pos h1]
    exact hk
  · have hlt : (⌊x⌋ : ℚ) < k := by linarith
    have hlt' : ⌊x⌋ < k := by exact_mod_cast hlt
    rw [if_neg h1]
    split_ifs <;> omega

theorem floatUlp_pos (q : ℚ) : (0 : ℚ) < 2 ^ (floatExponent q - 23) :=
  zpow_pos (by norm_num) _

theorem roundToFloat_grid (q : ℚ) (k : Int) :
    ((k : ℚ) * 2 ^ (floatExponent q - 23) ≤ q →
        (k : ℚ) * 2 ^ (floatExponent q - 23) ≤ roundToFloat q)
    ∧ (q ≤ (k : ℚ) * 2 ^ (floatExponent q - 23) →
        roundToFloat q ≤ (k : ℚ) * 2 ^ (floatExponent q - 23)) := by
  have hu := floatUlp_pos q
  by_cases hq : q = 0
  · simp only [roundToFloat, if_pos hq]
    subst hq
    exact ⟨fun h => h, fun h => h⟩
  · simp only [roundToFloat, if_neg hq]
    constructor
    · intro h
      have h1 : (k : ℚ) ≤ q / 2 ^ (floatExponent q - 23) := (le_div_iff₀ hu).mpr h
      have h2 := roundHalfEven_ge _ k h1
      have h3 : (k : ℚ) ≤ (roundHalfEven (q / 2 ^ (floatExponent q - 23)) : ℚ) := by
        exact_mod_cast h2
      exact mul_le_mul_of_nonneg_right h3 hu.le
    · intro h
      have h1 : q / 2 ^ (floatExponent q - 23) ≤ (k : ℚ) := (div_le_iff₀ hu).mpr h
      have h2 := roundHalfEven_le _ k h1
      have h3 : (roundHalfEven (q / 2 ^ (floatExponent q - 23)) : ℚ) ≤ (k : ℚ) := by
        exact_mod_cast h2
      exact mul_le_mul_of_nonneg_right h3 hu.le

theorem zpow_two_cancel (e : Int) : (2 : ℚ) ^ (23 - e) * 2 ^ (e - 23) = 1 := by
  rw [← zpow_add₀ (by norm_num : (2 : ℚ) ≠ 0)]
  have : 23 - e + (e - 23) = 0 := by ring
  rw [this, zpow_zero]

theorem zpow_two_split (e : Int) : (8388608 : ℚ) * 2 ^ (e - 23) = 2 ^ e := by
  have h23 : (8388608 : ℚ) = 2 ^ (23 : Int) := by norm_num
  rw [h23, ← zpow_add₀ (by norm_num : (2 : ℚ) ≠ 0)]
  have : 23 + (e - 23) = e := by ring
  rw [this]

theorem roundToFloat_sandwich (n : Int) (hn : |n| ≤ 16777216) (q : ℚ) :
    ((n : ℚ) ≤ q → (n : ℚ) ≤ roundToFloat q) ∧ (q ≤ (n : ℚ) → roundToFloat q ≤ (n : ℚ)) := by
  have hn1 : (n : ℚ) ≤ 16777216 := by exact_mod_cast (le_abs_self n).trans hn
  have hn2 : (-16777216 : ℚ) ≤ n := by
    have h : (-16777216 : Int) ≤ n := (abs_le.mp hn).1
    exact_mod_cast h
  by_cases he : floatExponent q ≤ 23
  · -- `n` lies on the grid of `q`
    have hk : ((n * 2 ^ (23 - floatExponent q).toNat : Int) : ℚ) * 2 ^ (floatExponent q - 23)
        = n := by
      have h1 : ((2 ^ (23 - floatExponent q).toNat : Int) : ℚ)
          = (2 : ℚ) ^ (23 - floatExponent q) := by
        have h2 : ((23 - floatExponent q).toNat : Int) = 23 - floatExponent q :=
          Int.toNat_of_nonneg (by omega)
        rw [← h2]
        push_cast
        rw [zpow_natCast, h2]
      rw [Int.cast_mul, h1, mul_assoc, zpow_two_cancel, mul_one]
    have hg := roundToFloat_grid q (n * 2 ^ (23 - floatExponent q).toNat)
    rw [hk] at hg
    exact hg
  · have he' : 24 ≤ floatExponent q := by omega
    have hlog : floatExponent q = Int.log 2 |q| := by
      unfold floatExponent at he' ⊢
      rcases max_cases (Int.log 2 |q|) (-126) with ⟨h1, _⟩ | ⟨h1, _⟩
      · exact h1
      · rw [h1] at he'
        omega
    have hq0 : q ≠ 0 := by
      intro h0
      rw [h0, abs_zero, Int.log_zero_right] at hlog
      rw [h0] at he'
      omega
    have habs : (0 : ℚ) < |q| := abs_pos.mpr hq0
    have hpow : (2 : ℚ) ^ floatExponent q ≤ |q| := by
      rw [hlog]
      exact_mod_cast Int.zpow_log_le_self (by norm_num) habs
    have h24 : (16777216 : ℚ) ≤ 2 ^ floatExponent q := by
      have h1 : (2 : ℚ) ^ (24 : Int) ≤ 2 ^ floatExponent q :=
        zpow_le_zpow_right₀ (by norm_num) he'
      have h2 : (2 : ℚ) ^ (24 : Int) = 16777216 := by norm_num
      rw [h2] at h1
      exact h1
    rcases lt_or_gt_of_ne hq0 with hneg | hpos
    · -- `q` is negative
      rw [abs_of_neg hneg] at hpow
      have hg := roundToFloat_grid q (-(2 ^ 23 : Int))
      have hk : (((-(2 ^ 23 : Int)) : Int) : ℚ) * 2 ^ (floatExponent q - 23)
          = -(2 ^ floatExponent q) := by
        push_cast
        rw [neg_mul]
        congr 1
        exact zpow_two_split _
      rw [hk] at hg
      constructor
      · intro h
        have := hg.1 (by linarith)
        linarith
      · intro _
        have := hg.2 (by linarith)
        linarith
    · rw [abs_of_pos hpos] at hpow
      have hg := roundToFloat_grid q (2 ^ 23 : Int)
      have hk : (((2 ^ 23 : Int)) : ℚ) * 2 ^ (floatExponent q - 23)
          = 2 ^ floatExponent q := by
        push_cast
        exact zpow_two_split _
      rw [hk] at hg
      constructor
      · intro _
        have := hg.1 hpow
        linarith
      · intro h
        have := hg.2 (by linarith)
        linarith

theorem roundToFloat_intCast (n : Int) (hn : |n| ≤ 16777216) :
    roundToFloat (n : ℚ) = n :=
  le_antisymm ((roundToFloat_sandwich n hn n).2 le_rfl)
    ((roundToFloat_sandwich n hn n).1 le_rfl)

theorem floatExponent_eq (q : ℚ) (e : Int) (h1 : (2 : ℚ) ^ e ≤ |q|)
    (h2 : |q| < (2 : ℚ) ^ (e + 1)) (h3 : -126 ≤ e) : floatExponent q = e := by
  have hpos : (0 : ℚ) < |q| := lt_of_lt_of_le (zpow_pos (by norm_num) _) h1
  have ha : e ≤ Int.log 2 |q| :=
    (Int.zpow_le_iff_le_log (by norm_num) hpos).mp (by exact_mod_cast h1)
  have hb : Int.log 2 |q| < e + 1 :=
    (Int.lt_zpow_iff_log_lt (by norm_num) hpos).mp (by exact_mod_cast h2)
  unfold floatExponent
  rw [max_eq_left (by omega)]
  omega

theorem roundHalfEven_eq (x : ℚ) (m : Int) (h1 : (m : ℚ) - 1 / 2 < x)
    (h2 : x < (m : ℚ) + 1 / 2) : roundHalfEven x = m := by
  have hf : (⌊x⌋ : ℚ) ≤ x := Int.floor_le x
  have hf2 : x < (⌊x⌋ : ℚ) + 1 := Int.lt_floor_add_one x
  unfold roundHalfEven
  by_cases ha : x - ⌊x⌋ < 1 / 2
  · rw [if_pos ha]
    have h3 : (m : ℚ) - 1 < ⌊x⌋ := by linarith
    have h4 : (⌊x⌋ : ℚ) < m + 1 := by linarith
    have h3' : m - 1 < ⌊x⌋ := by exact_mod_cast h3
    have h4' : ⌊x⌋ < m + 1 := by exact_mod_cast h4
    omega
  · rw [if_neg ha]
    by_cases hb : 1 / 2 < x - ⌊x⌋
    · rw [if_pos hb]
      have h3 : (m : ℚ) - 1 < ⌊x⌋ + 1 := by linarith
      have h4 : (⌊x⌋ : ℚ) + 1 < m + 1 := by linarith
      have h3' : m - 1 < ⌊x⌋ + 1 := by exact_mod_cast h3
      have h4' : ⌊x⌋ + 1 < m + 1 := by exact_mod_cast h4
      omega
    · exfalso
      have hc : x - ⌊x⌋ = 1 / 2 := le_antisymm (not_lt.mp hb) (not_lt.mp ha)
      have h3 : (m : ℚ) - 1 < ⌊x⌋ := by linarith
      have h4 : (⌊x⌋ : ℚ) < m := by linarith
      have h3' : m - 1 < ⌊x⌋ := by exact_mod_cast h3
      have h4' : ⌊x⌋ < m := by exact_mod_cast h4
      omega

theorem roundToFloat_eq (q : ℚ) (e m : Int) (h1 : (2 : ℚ) ^ e ≤ |q|)
    (h2 : |q| < (2 : ℚ) ^ (e + 1)) (h3 : -126 ≤ e)
    (h4 : (m : ℚ) - 1 / 2 < q / 2 ^ (e - 23)) (h5 : q / 2 ^ (e - 23) < (m : ℚ) + 1 / 2) :
    roundToFloat q = (m : ℚ) * 2 ^ (e - 23) := by
  have hq : q ≠ 0 := by
    intro h0
    rw [h0, abs_zero] at h1
    exact absurd h1 (not_le.mpr (zpow_pos (by norm_num) _))
  simp only [roundToFloat, if_neg hq, floatExponent_eq q e h1 h2 h3,
    roundHalfEven_eq _ m h4 h5]

theorem Float32.round_between (lo hi : Int) (hlo : |lo| ≤ 16777216)
    (hhi : |hi| ≤ 16777216) (q : ℚ) (h1 : (lo : ℚ) ≤ q) (h2 : q ≤ (hi : ℚ)) :
    ∃ r : ℚ, Float32.round q = Float32.finite r ∧ (lo : ℚ) ≤ r ∧ r ≤ (hi : ℚ) := by
  have ha := (roundToFloat_sandwich lo hlo q).1 h1
  have hb := (roundToFloat_sandwich hi hhi q).2 h2
  have hlo' : (-16777216 : ℚ) ≤ lo := by exact_mod_cast (abs_le.mp hlo).1
  have hhi' : (hi : ℚ) ≤ 16777216 := by exact_mod_cast (abs_le.mp hhi).2
  have habs : |roundToFloat q| ≤ 16777216 := abs_le.mpr ⟨by linarith, by linarith⟩
  refine ⟨roundToFloat q, ?_, ha, hb⟩
  unfold Float32.round
  rw [if_neg]
  intro h
  have : (16777216 : ℚ) < 2 ^ 128 := by norm_num
  linarith

theorem Float32.round_intCast (n : Int) (hn : |n| ≤ 16777216) :
    Float32.round (n : ℚ) = Float32.finite (n : ℚ) := by
  obtain ⟨r, hr, h1, h2⟩ := Float32.round_between n n hn hn n le_rfl le_rfl
  rw [hr, le_antisymm h2 h1]

theorem Float32.ofInt_small (n : Int) (hn : |n| ≤ 16777216) :
    Float32.ofInt n = Float32.finite (n : ℚ) :=
  Float32.round_intCast n hn

theorem Float32.toInt_floor_between (lo hi : Int) (hlo : -2147483648 ≤ lo)
    (hhi : hi < 2147483648) (r : ℚ) (h1 : (lo : ℚ) ≤ r) (h2 : r ≤ (hi : ℚ)) :
    lo ≤ (Float32.finite r).floor.toInt ∧ (Float32.finite r).floor.toInt ≤ hi := by
  have ha : lo ≤ ⌊r⌋ := Int.le_floor.mpr h1
  have hb : ⌊r⌋ ≤ hi := by
    have : (⌊r⌋ : ℚ) ≤ hi := (Int.floor_le r).trans h2
    exact_mod_cast this
  simp only [Float32.floor, Float32.toInt, truncate_intCast]
  rw [if_pos ⟨by omega, by omega⟩]
  exact ⟨ha, hb⟩

theorem Float32.toInt_intCast (n : Int) (h1 : -2147483648 ≤ n) (h2 : n < 2147483648) :
    (Float32.finite (n : ℚ)).toInt = n := by
  simp only [Float32.toInt, truncate_intCast]
  rw [if_pos ⟨h1, h2⟩]

/-- The fraction `a / w1` that `filterCoords` computes for `0 ≤ a ≤ w1` is a
finite `float` between 0 and 1. -/
theorem Float32.div_unit (a w1 : Int) (ha : 0 ≤ a) (haw : a ≤ w1) (hw : 0 < w1)
    (hw1 : w1 ≤ 16777216) :
    ∃ f : ℚ, (Float32.ofInt a).div (Float32.ofInt w1) = Float32.finite f
      ∧ 0 ≤ f ∧ f ≤ 1 := by
  have hwq : (0 : ℚ) < w1 := by exact_mod_cast hw
  rw [Float32.ofInt_small a (abs_le.mpr ⟨by omega, by omega⟩),
    Float32.ofInt_small w1 (abs_le.mpr ⟨by omega, by omega⟩)]
  simp only [Float32.div]
  rw [if_neg hwq.ne']
  have h0 : ((0 : Int) : ℚ) ≤ (a : ℚ) / w1 := by
    have : (0 : ℚ) ≤ a := by exact_mod_cast ha
    simpa using div_nonneg this hwq.le
  have h1 : (a : ℚ) / w1 ≤ ((1 : Int) : ℚ) := by
    have : (a : ℚ) ≤ w1 := by exact_mod_cast haw
    simpa using (div_le_one hwq).mpr this
  obtain ⟨f, hf, hf0, hf1⟩ := Float32.round_between 0 1 (by decide) (by decide) _ h0 h1
  exact ⟨f, hf, by simpa using hf0, by simpa using hf1⟩

/-- The scaled offset `dxWidth * off` for `0 ≤ off ≤ 1` and
`0 ≤ dxWidth ≤ 2^24` is a finite `float` between 0 and `dxWidth`. -/
theorem Float32.mul_unit (w : Int) (hw0 : 0 ≤ w) (hw1 : w ≤ 16777216) (f : ℚ)
    (hf0 : 0 ≤ f) (hf1 : f ≤ 1) :
    ∃ p : ℚ, (Float32.ofInt w).mul (Float32.finite f) = Float32.finite p
      ∧ 0 ≤ p ∧ p ≤ (w : ℚ) := by
  have hwq : (0 : ℚ) ≤ w := by exact_mod_cast hw0
  rw [Float32.ofInt_small w (abs_le.mpr ⟨by omega, by omega⟩)]
  simp only [Float32.mul]
  have h0 : ((0 : Int) : ℚ) ≤ (w : ℚ) * f := by simpa using mul_nonneg hwq hf0
  have h1 : (w : ℚ) * f ≤ (w : ℚ) := by
    have := mul_le_mul_of_nonneg_left hf1 hwq
    simpa using this
  obtain ⟨p, hp, hp0, hp1⟩ := Float32.round_between 0 w (by decide)
    (abs_le.mpr ⟨by omega, by omega⟩) _ h0 h1
  exact ⟨p, hp, by simpa using hp0, hp1⟩

/-- The destination start coordinate that `filterCoords` writes back lies
within the destination range it was given. -/
theorem filterCoords_dest_start (d1 d2 a w1 : Int) (hd : d1 ≤ d2)
    (hd1 : |d1| ≤ 8388608) (hd2 : |d2| ≤ 8388608) (ha : 0 ≤ a) (haw : a ≤ w1)
    (hw : 0 < w1) (hw1 : w1 ≤ 16777216) :
    d1 ≤ (((Float32.ofInt d1).add
          ((Float32.ofInt (d2 - d1)).mul
            ((Float32.ofInt a).div (Float32.ofInt w1)))).floor).toInt
    ∧ (((Float32.ofInt d1).add
          ((Float32.ofInt (d2 - d1)).mul
            ((Float32.ofInt a).div (Float32.ofInt w1)))).floor).toInt ≤ d2 := by
  have hb1 := abs_le.mp hd1
  have hb2 := abs_le.mp hd2
  obtain ⟨f, hf, hf0, hf1⟩ := Float32.div_unit a w1 ha haw hw hw1
  obtain ⟨p, hp, hp0, hp1⟩ := Float32.mul_unit (d2 - d1) (by omega) (by omega) f hf0 hf1
  rw [hf, hp, Float32.ofInt_small d1 (abs_le.mpr ⟨by omega, by omega⟩)]
  simp only [Float32.add]
  have h0 : (d1 : ℚ) ≤ (d1 : ℚ) + p := by linarith
  have h1 : (d1 : ℚ) + p ≤ (d2 : ℚ) := by
    have : ((d2 - d1 : Int) : ℚ) = (d2 : ℚ) - d1 := by push_cast; ring
    rw [this] at hp1
    linarith
  obtain ⟨s, hs, hs0, hs1⟩ := Float32.round_between d1 d2
    (abs_le.mpr ⟨by omega, by omega⟩) (abs_le.mpr ⟨by omega, by omega⟩) _ h0 h1
  rw [hs]
  exact Float32.toInt_floor_between d1 d2 (by omega) (by omega) s hs0 hs1

/-- The destination end coordinate that `filterCoords` writes back lies within
the destination range it was given. -/
theorem filterCoords_dest_end (d1 d2 b w1 : Int) (hd : d1 ≤ d2)
    (hd1 : |d1| ≤ 8388608) (hd2 : |d2| ≤ 8388608) (hb : 0 ≤ b) (hbw : b ≤ w1)
    (hw : 0 < w1) (hw1 : w1 ≤ 16777216) :
    d1 ≤ (((Float32.ofInt d2).sub
          ((Float32.ofInt (d2 - d1)).mul
            ((Float32.ofInt b).div (Float32.ofInt w1)))).floor).toInt
    ∧ (((Float32.ofInt d2).sub
          ((Float32.ofInt (d2 - d1)).mul
            ((Float32.ofInt b).div (Float32.ofInt w1)))).floor).toInt ≤ d2 := by
  have hb1 := abs_le.mp hd1
  have hb2 := abs_le.mp hd2
  obtain ⟨f, hf, hf0, hf1⟩ := Float32.div_unit b w1 hb hbw hw hw1
  obtain ⟨p, hp, hp0, hp1⟩ := Float32.mul_unit (d2 - d1) (by omega) (by omega) f hf0 hf1
  rw [hf, hp, Float32.ofInt_small d2 (abs_le.mpr ⟨by omega, by omega⟩)]
  simp only [Float32.sub]
  have h1 : (d2 : ℚ) - p ≤ (d2 : ℚ) := by linarith
  have h0 : (d1 : ℚ) ≤ (d2 : ℚ) - p := by
    have : ((d2 - d1 : Int) : ℚ) = (d2 : ℚ) - d1 := by push_cast; ring
    rw [this] at hp1
    linarith
  obtain ⟨s, hs, hs0, hs1⟩ := Float32.round_between d1 d2
    (abs_le.mpr ⟨by omega, by omega⟩) (abs_le.mpr ⟨by omega, by omega⟩) _ h0 h1
  rw [hs]
  exact Float32.toInt_floor_between d1 d2 (by omega) (by omega) s hs0 hs1
theorem filterCoords_dest_within (t : Texture) (c : Coords)
    (h : (t.filterCoords c).1 = true) (hx : c.x1 < c.x2) (hy : c.y1 < c.y2)
    (hdx : c.dx1 ≤ c.dx2) (hdy : c.dy1 ≤ c.dy2) (hs : c.small) :
    (c.dx1 ≤ (t.filterCoords c).2.dx1 ∧ (t.filterCoords c).2.dx1 ≤ c.dx2)
    ∧ (c.dx1 ≤ (t.filterCoords c).2.dx2 ∧ (t.filterCoords c).2.dx2 ≤ c.dx2)
    ∧ (c.dy1 ≤ (t.filterCoords c).2.dy1 ∧ (t.filterCoords c).2.dy1 ≤ c.dy2)
    ∧ (c.dy1 ≤ (t.filterCoords c).2.dy2 ∧ (t.filterCoords c).2.dy2 ≤ c.dy2) := by
  have hc := (filterCoords_true_iff t c).mp h
  obtain ⟨⟨_, _⟩, ⟨_, _⟩, ⟨_, _⟩, ⟨_, _⟩, ⟨_, _⟩, ⟨_, _⟩, ⟨_, _⟩, ⟨_, _⟩⟩ := hs
  obtain ⟨h1, h2, h3, h4⟩ := hc
  have hMx1 := le_max_left c.x1 t.m_xOffset
  have hMx2 : max c.x1 t.m_xOffset ≤ c.x2 := max_le (by omega) (by omega)
  have hNx1 := min_le_left (c.x1 + (c.x2 - c.x1)) (t.m_xOffset + t.m_logicalWidth)
  have hNx2 : c.x1 ≤ min (c.x1 + (c.x2 - c.x1)) (t.m_xOffset + t.m_logicalWidth) :=
    le_min (by omega) (by omega)
  have hMy1 := le_max_left c.y1 t.m_yOffset
  have hMy2 : max c.y1 t.m_yOffset ≤ c.y2 := max_le (by omega) (by omega)
  have hNy1 := min_le_left (c.y1 + (c.y2 - c.y1)) (t.m_yOffset + t.m_logicalHeight)
  have hNy2 : c.y1 ≤ min (c.y1 + (c.y2 - c.y1)) (t.m_yOffset + t.m_logicalHeight) :=
    le_min (by omega) (by omega)
  have hcx := (filterCoords_true_iff t c).mp h
  unfold Texture.filterCoords
  simp only []
  rw [if_pos hcx]
  refine ⟨?_, ?_, ?_, ?_⟩
  · exact filterCoords_dest_start c.dx1 c.dx2 (max c.x1 t.m_xOffset - c.x1) (c.x2 - c.x1)
      hdx (abs_le.mpr ⟨by omega, by omega⟩) (abs_le.mpr ⟨by omega, by omega⟩)
      (by omega) (by omega) (by omega) (by omega)
  · exact filterCoords_dest_end c.dx1 c.dx2
      (c.x2 - c.x1
        - (min (c.x1 + (c.x2 - c.x1)) (t.m_xOffset + t.m_logicalWidth)
            - max c.x1 t.m_xOffset)
        - (max c.x1 t.m_xOffset - c.x1)) (c.x2 - c.x1)
      hdx (abs_le.mpr ⟨by omega, by omega⟩) (abs_le.mpr ⟨by omega, by omega⟩)
      (by omega) (by omega) (by omega) (by omega)
  · exact filterCoords_dest_start c.dy1 c.dy2 (max c.y1 t.m_yOffset - c.y1) (c.y2 - c.y1)
      hdy (abs_le.mpr ⟨by omega, by omega⟩) (abs_le.mpr ⟨by omega, by omega⟩)
      (by omega) (by omega) (by omega) (by omega)
  · exact filterCoords_dest_end c.dy1 c.dy2
      (c.y2 - c.y1
        - (min (c.y1 + (c.y2 - c.y1)) (t.m_yOffset + t.m_logicalHeight)
            - max c.y1 t.m_yOffset)
        - (max c.y1 t.m_yOffset - c.y1)) (c.y2 - c.y1)
      hdy (abs_le.mpr ⟨by omega, by omega⟩) (abs_le.mpr ⟨by omega, by omega⟩)
      (by omega) (by omega) (by omega) (by omega)

theorem Float32.ofInt_zero : Float32.ofInt 0 = Float32.finite 0 := by
  have := Float32.ofInt_small 0 (by decide)
  simpa using this

theorem Float32.unscaled (p s : Int) (hp : -8388608 ≤ p ∧ p ≤ 8388608)
    (hs : -8388608 ≤ s ∧ s ≤ 8388608) :
    ((Float32.ofInt p).add
      ((Float32.ofInt s).mul ((Float32.ofInt 100).div (Float32.finite 100)))).toInt
      = p + s := by
  have h100 : (Float32.ofInt 100).div (Float32.finite 100) = Float32.finite 1 := by
    rw [Float32.ofInt_small 100 (by decide)]
    simp only [Float32.div]
    rw [if_neg (by norm_num)]
    have := Float32.round_intCast 1 (by decide)
    simpa using this
  rw [h100, Float32.ofInt_small p (abs_le.mpr ⟨by omega, by omega⟩),
    Float32.ofInt_small s (abs_le.mpr ⟨by omega, by omega⟩)]
  simp only [Float32.mul, mul_one]
  rw [Float32.round_intCast s (abs_le.mpr ⟨by omega, by omega⟩)]
  simp only [Float32.add]
  have hsum : (p : ℚ) + (s : ℚ) = ((p + s : Int) : ℚ) := by push_cast; ring
  rw [hsum, Float32.round_intCast (p + s) (abs_le.mpr ⟨by omega, by omega⟩)]
  exact Float32.toInt_intCast _ (by omega) (by omega)

theorem objectCoords_unscaled (i : ObjectRenderInput) (hw : i.width = 100)
    (hh : i.height = 100)
    (hx : -8388608 ≤ i.x + i.xAdjustmentSum ∧ i.x + i.xAdjustmentSum ≤ 8388608)
    (hy : -8388608 ≤ i.y + i.yAdjustmentSum ∧ i.y + i.yAdjustmentSum ≤ 8388608)
    (hsx : -8388608 ≤ i.xSrc2 - i.xSrc1 ∧ i.xSrc2 - i.xSrc1 ≤ 8388608)
    (hsy : -8388608 ≤ i.ySrc2 - i.ySrc1 ∧ i.ySrc2 - i.ySrc1 ≤ 8388608) :
    objectCoords i
      = { x1 := i.xSrc1, y1 := i.ySrc1, x2 := i.xSrc2, y2 := i.ySrc2
          dx1 := i.x + i.xAdjustmentSum, dy1 := i.y + i.yAdjustmentSum
          dx2 := i.x + i.xAdjustmentSum + (i.xSrc2 - i.xSrc1)
          dy2 := i.y + i.yAdjustmentSum + (i.ySrc2 - i.ySrc1) } := by
  simp only [objectCoords, hw, hh, Float32.unscaled _ _ hx hsx, Float32.unscaled _ _ hy hsy]

theorem truncate_of_nonneg (q : ℚ) (h : 0 ≤ q) : truncate q = ⌊q⌋ := by
  unfold truncate
  rw [Rat.floor_def, Int.tdiv_eq_ediv (Rat.num_nonneg.mpr h) (by exact_mod_cast Nat.zero_le _)]

theorem truncate_of_nonpos (q : ℚ) (h : q ≤ 0) : truncate q = -⌊-q⌋ := by
  have h1 := truncate_of_nonneg (-q) (by linarith)
  rw [← h1]
  unfold truncate
  rw [Rat.neg_num, Rat.neg_den, Int.neg_tdiv, neg_neg]

theorem Float32.round_eq (q : ℚ) (e m : Int) (h1 : (2 : ℚ) ^ e ≤ |q|)
    (h2 : |q| < (2 : ℚ) ^ (e + 1)) (h3 : -126 ≤ e)
    (h4 : (m : ℚ) - 1 / 2 < q / 2 ^ (e - 23)) (h5 : q / 2 ^ (e - 23) < (m : ℚ) + 1 / 2)
    (h6 : |(m : ℚ) * 2 ^ (e - 23)| < 2 ^ 128) :
    Float32.round q = Float32.finite ((m : ℚ) * 2 ^ (e - 23)) := by
  unfold Float32.round
  rw [roundToFloat_eq q e m h1 h2 h3 h4 h5, if_neg (not_le.mpr h6)]

/-- The scaled example of 9 percent: `9 / 100.0f` rounds up, the product with
600 rounds up to `54.0000038...`, and the sum with `-100` truncates to `-45`,
where the exact value is `-46`. -/
theorem objectCoords_exampleScaled9 : (objectCoords exampleScaled9).dx2 = -45 := by
  have hdiv : (Float32.ofInt 9).div (Float32.finite 100)
      = Float32.finite (12079596 / 134217728) := by
    rw [Float32.ofInt_small 9 (by decide)]
    simp only [Float32.div]
    rw [if_neg (by norm_num)]
    rw [Float32.round_eq _ (-4) 12079596 (by norm_num [abs_of_pos])
      (by norm_num [abs_of_pos]) (by norm_num) (by norm_num) (by norm_num)
      (by norm_num [abs_of_pos])]
    norm_num
  have hmul : (Float32.ofInt 600).mul (Float32.finite (12079596 / 134217728))
      = Float32.finite (14155777 / 262144) := by
    rw [Float32.ofInt_small 600 (by decide)]
    simp only [Float32.mul]
    rw [Float32.round_eq _ 5 14155777 (by norm_num [abs_of_pos])
      (by norm_num [abs_of_pos]) (by norm_num) (by norm_num) (by norm_num)
      (by norm_num [abs_of_pos])]
    norm_num
  have hadd : (Float32.ofInt (-100)).add (Float32.finite (14155777 / 262144))
      = Float32.finite (-12058623 / 262144) := by
    rw [Float32.ofInt_small (-100) (by decide)]
    simp only [Float32.add]
    rw [Float32.round_eq _ 5 (-12058623) (by norm_num [abs_of_neg])
      (by norm_num [abs_of_neg]) (by norm_num) (by norm_num) (by norm_num)
      (by norm_num [abs_of_neg])]
    norm_num
  have htr : truncate (-12058623 / 262144 : ℚ) = -45 := by
    rw [truncate_of_nonpos _ (by norm_num)]
    have : ⌊-(-12058623 / 262144 : ℚ)⌋ = 45 := by
      rw [Int.floor_eq_iff]
      constructor <;> norm_num
    rw [this]
  simp only [objectCoords, exampleScaled9, sub_zero, add_zero, hdiv, hmul, hadd,
    Float32.toInt, htr]
  norm_num

/-- The scaled example of 21 percent: `21 / 100.0f` rounds down, and the
product with 300 truncates to `62`, where the exact value is `63`. -/
theorem objectCoords_exampleScaled21 : (objectCoords exampleScaled21).dx2 = 62 := by
  have hdiv : (Float32.ofInt 21).div (Float32.finite 100)
      = Float32.finite (14092861 / 67108864) := by
    rw [Float32.ofInt_small 21 (by decide)]
    simp only [Float32.div]
    rw [if_neg (by norm_num)]
    rw [Float32.round_eq _ (-3) 14092861 (by norm_num [abs_of_pos])
      (by norm_num [abs_of_pos]) (by norm_num) (by norm_num) (by norm_num)
      (by norm_num [abs_of_pos])]
    norm_num
  have hmul : (Float32.ofInt 300).mul (Float32.finite (14092861 / 67108864))
      = Float32.finite (16515071 / 262144) := by
    rw [Float32.ofInt_small 300 (by decide)]
    simp only [Float32.mul]
    rw [Float32.round_eq _ 5 16515071 (by norm_num [abs_of_pos])
      (by norm_num [abs_of_pos]) (by norm_num) (by norm_num) (by norm_num)
      (by norm_num [abs_of_pos])]
    norm_num
  have hadd : (Float32.ofInt 0).add (Float32.finite (16515071 / 262144))
      = Float32.finite (16515071 / 262144) := by
    rw [Float32.ofInt_zero]
    simp only [Float32.add, zero_add]
    rw [Float32.round_eq _ 5 16515071 (by norm_num [abs_of_pos])
      (by norm_num [abs_of_pos]) (by norm_num) (by norm_num) (by norm_num)
      (by norm_num [abs_of_pos])]
    norm_num
  have htr : truncate (16515071 / 262144 : ℚ) = 62 := by
    rw [truncate_of_nonneg _ (by norm_num), Int.floor_eq_iff]
    constructor <;> norm_num
  simp only [objectCoords, exampleScaled21, sub_zero, add_zero, hdiv, hmul, hadd,
    Float32.toInt, htr]
  norm_num

/-! ### The clip handling -/

theorem coordsForObject_clip (i : ObjectRenderInput) (h : i.hasClip = true) :
    coordsForObject i = clipCoords i (objectCoords i) := by
  unfold coordsForObject
  rw [if_pos h]

theorem objectCoords_exampleClippedInside :
    objectCoords exampleClippedInside
      = { x1 := 0, y1 := 0, x2 := 100, y2 := 100, dx1 := 0, dy1 := 0, dx2 := 100,
          dy2 := 100 } := by
  rw [objectCoords_unscaled exampleClippedInside rfl rfl (by decide) (by decide) (by decide)
    (by decide)]
  rfl

/-- What holds of `renderToScreenAsObject` with clipping active, for every
input.  If the destination rectangle of the object lies wholly outside the
clip area (`xPos2 < clipX1`, `xPos1 > clipX2`, `yPos2 < clipY1` or
`yPos1 > clipY2`) the function returns at once and nothing is rendered.
Otherwise the adjusted destination rectangle satisfies `clipX1 ≤ xPos1`,
`clipY1 ≤ yPos1`, `xPos2 ≤ clipX2 + 1` and `yPos2 ≤ clipY2 + 1`, and it is this
rectangle, with the adjusted source rectangle, that is handed to
`filterCoords`, which decides whether and where a quad is drawn.  When the
adjusted source rectangle has a width and a height above zero, the adjusted
destination rectangle is not inverted, and the adjusted coordinates have a
magnitude of at most `2^23`, every destination coordinate of the quad that is
drawn lies within the adjusted destination rectangle, hence within the bounds
of the clip area. -/
theorem renderToScreenAsObject_clip (t : Texture) (i : ObjectRenderInput)
    (hclip : i.hasClip = true) :
    (((objectCoords i).dx2 < i.clipX1 ∨ (objectCoords i).dx1 > i.clipX2
        ∨ (objectCoords i).dy2 < i.clipY1 ∨ (objectCoords i).dy1 > i.clipY2) →
      coordsForObject i = none ∧ t.renderToScreenAsObject i = none)
    ∧ (¬ ((objectCoords i).dx2 < i.clipX1 ∨ (objectCoords i).dx1 > i.clipX2
        ∨ (objectCoords i).dy2 < i.clipY1 ∨ (objectCoords i).dy1 > i.clipY2) →
      ∃ c, coordsForObject i = some c
        ∧ i.clipX1 ≤ c.dx1 ∧ i.clipY1 ≤ c.dy1
        ∧ c.dx2 ≤ i.clipX2 + 1 ∧ c.dy2 ≤ i.clipY2 + 1
        ∧ t.renderToScreenAsObject i
            = (if (t.filterCoords c).1 then some (t.filterCoords c).2 else none)
        ∧ (c.x1 < c.x2 → c.y1 < c.y2 → c.dx1 ≤ c.dx2 → c.dy1 ≤ c.dy2 → c.small →
            ∀ r, t.renderToScreenAsObject i = some r →
              (i.clipX1 ≤ r.dx1 ∧ r.dx1 ≤ i.clipX2 + 1)
              ∧ (i.clipX1 ≤ r.dx2 ∧ r.dx2 ≤ i.clipX2 + 1)
              ∧ (i.clipY1 ≤ r.dy1 ∧ r.dy1 ≤ i.clipY2 + 1)
              ∧ (i.clipY1 ≤ r.dy2 ∧ r.dy2 ≤ i.clipY2 + 1))) := by
  constructor
  · intro h
    have hc : coordsForObject i = none := by
      simp only [coordsForObject, hclip, if_true, clipCoords_outside i _ h]
    refine ⟨hc, ?_⟩
    simp only [Texture.renderToScreenAsObject, hc]
  · intro h
    obtain ⟨c, hr, h1, h2, h3, h4, _⟩ := clipCoords_inside i (objectCoords i) h
    have hc : coordsForObject i = some c := by
      simp only [coordsForObject, hclip, if_true, hr]
    have hb1 : i.clipX1 ≤ c.dx1 := by rw [h1]; split_ifs <;> omega
    have hb2 : i.clipY1 ≤ c.dy1 := by rw [h2]; split_ifs <;> omega
    have hb3 : c.dx2 ≤ i.clipX2 + 1 := by rw [h3]; split_ifs <;> omega
    have hb4 : c.dy2 ≤ i.clipY2 + 1 := by rw [h4]; split_ifs <;> omega
    have hrender : t.renderToScreenAsObject i
        = (if (t.filterCoords c).1 then some (t.filterCoords c).2 else none) := by
      simp only [Texture.renderToScreenAsObject, hc]
    refine ⟨c, hc, hb1, hb2, hb3, hb4, hrender, ?_⟩
    intro hx hy hdx hdy hs r hrr
    rw [hrender] at hrr
    by_cases hacc : (t.filterCoords c).1 = true
    · rw [if_pos hacc] at hrr
      simp only [Option.some.injEq] at hrr
      subst hrr
      obtain ⟨⟨a1, a2⟩, ⟨a3, a4⟩, ⟨a5, a6⟩, ⟨a7, a8⟩⟩ :=
        filterCoords_dest_within t c hacc hx hy hdx hdy hs
      exact ⟨⟨by omega, by omega⟩, ⟨by omega, by omega⟩, ⟨by omega, by omega⟩,
        ⟨by omega, by omega⟩⟩
    · rw [if_neg hacc] at hrr
      exact absurd hrr (by simp)

/-- Two instances.  The object scaled to 21 percent has `xPos2 = 62` in `float`
arithmetic, to the left of its clip area that starts at 63, and is not
rendered.  The example object clipped to `(10, 20) - (49, 59)` is drawn as a
quad whose destination coordinates lie within `(10, 20) - (50, 60)`. -/
theorem renderToScreenAsObject_clip_examples :
    (exampleScaled21.hasClip = true
      ∧ coordsForObject exampleScaled21 = none
      ∧ exampleTexture.renderToScreenAsObject exampleScaled21 = none)
    ∧ (exampleClippedInside.hasClip = true
      ∧ ∃ r, exampleTexture.renderToScreenAsObject exampleClippedInside = some r
          ∧ (10 ≤ r.dx1 ∧ r.dx1 ≤ 50) ∧ (10 ≤ r.dx2 ∧ r.dx2 ≤ 50)
          ∧ (20 ≤ r.dy1 ∧ r.dy1 ≤ 60) ∧ (20 ≤ r.dy2 ∧ r.dy2 ≤ 60)) := by
  refine ⟨⟨rfl, (renderToScreenAsObject_clip exampleTexture exampleScaled21 rfl).1
      (Or.inl (by rw [objectCoords_exampleScaled21]; decide))⟩, rfl, ?_⟩
  obtain ⟨c, hc, _, _, _, _, hrender, hwithin⟩ :=
    (renderToScreenAsObject_clip exampleTexture exampleClippedInside rfl).2
      (by rw [objectCoords_exampleClippedInside]; decide)
  have hc' : coordsForObject exampleClippedInside
      = some { x1 := 10, y1 := 20, x2 := 49, y2 := 59, dx1 := 10, dy1 := 20, dx2 := 50,
               dy2 := 60 } := by
    have h := coordsForObject_clip exampleClippedInside rfl
    rw [h, objectCoords_exampleClippedInside]
    decide
  rw [hc'] at hc
  simp only [Option.some.injEq] at hc
  subst hc
  have hacc : (exampleTexture.filterCoords
      { x1 := 10, y1 := 20, x2 := 49, y2 := 59, dx1 := 10, dy1 := 20, dx2 := 50,
        dy2 := 60 }).1 = true :=
    (filterCoords_true_iff _ _).mpr (by decide)
  rw [if_pos hacc] at hrender
  exact ⟨_, hrender, hwithin (by decide) (by decide) (by decide) (by decide)
    (by unfold Coords.small; decide) _ hrender⟩

theorem clip_equal_sizes (i : ObjectRenderInput) (c0 c : Coords)
    (hx : c0.dx2 - c0.dx1 = c0.x2 - c0.x1) (hy : c0.dy2 - c0.dy1 = c0.y2 - c0.y1)
    (h : clipCoords i c0 = some c) :
    c.dx2 - c.dx1 = (c.x2 - c.x1) + (if c0.dx2 ≥ i.clipX2 then 1 else 0)
    ∧ c.dy2 - c.dy1 = (c.y2 - c.y1) + (if c0.dy2 ≥ i.clipY2 then 1 else 0) := by
  by_cases hout : c0.dx2 < i.clipX1 ∨ c0.dx1 > i.clipX2 ∨ c0.dy2 < i.clipY1
      ∨ c0.dy1 > i.clipY2
  · rw [clipCoords_outside i _ hout] at h
    exact absurd h (by simp)
  · obtain ⟨r, hr, h1, h2, h3, h4, h5, h6, h7, h8⟩ := clipCoords_inside i c0 hout
    rw [hr] at h
    simp only [Option.some.injEq] at h
    subst h
    rw [h1, h2, h3, h4, h5, h6, h7, h8]
    constructor <;> split_ifs <;> omega

theorem objectCoords_exampleClipped :
    objectCoords exampleClipped
      = { x1 := 0, y1 := 0, x2 := 100, y2 := 100, dx1 := 0, dy1 := 0, dx2 := 100,
          dy2 := 100 } := by
  rw [objectCoords_unscaled exampleClipped rfl rfl (by decide) (by decide) (by decide)
    (by decide)]
  rfl

/-- C23 at the failing input: an unscaled object showing the pattern
`[0, 100) x [0, 100)` at the origin, clipped to `(0, 0) - (99, 99)`.  Before
clipping the destination and source rectangles have the same size (100 by
100).  The clip adjustment leaves the destination at 100 by 100 and trims the
source to 99 by 99: the right and bottom trims take `xPos2 - clipX2` off the
source while the destination ends at `clipX2 + 1`. -/
theorem C23_clip_trims_source_one_more :
    exampleClipped.width = 100 ∧ exampleClipped.height = 100
      ∧ (objectCoords exampleClipped).dx2 - (objectCoords exampleClipped).dx1
          = (objectCoords exampleClipped).x2 - (objectCoords exampleClipped).x1
      ∧ (objectCoords exampleClipped).dy2 - (objectCoords exampleClipped).dy1
          = (objectCoords exampleClipped).y2 - (objectCoords exampleClipped).y1
      ∧ coordsForObject exampleClipped
          = some { x1 := 0, y1 := 0, x2 := 99, y2 := 99, dx1 := 0, dy1 := 0, dx2 := 100,
                   dy2 := 100 }
      ∧ (100 : Int) - 0 ≠ 99 - 0 := by
  refine ⟨rfl, rfl, ?_, ?_, ?_, by decide⟩
  · rw [objectCoords_exampleClipped]
  · rw [objectCoords_exampleClipped]
  · have h := coordsForObject_clip exampleClipped rfl
    rw [h, objectCoords_exampleClipped]
    decide

/-! ## C24, C25 and C26: what a `DisplayMutator` writes -/

theorem DisplayMutator_alpha_untouched (d : DisplayMutator) (h : d.tr_mod_ = false)
    (now : Int) (o : GraphicsObject) :
    (d.PerformSetting now o).alpha = o.alpha ∧ (d.SetToEnd o).alpha = o.alpha := by
  unfold DisplayMutator.PerformSetting DisplayMutator.SetToEnd
  rw [h]
  cases d.move_mod_ <;>
    simp [GraphicsObject.SetVisible, GraphicsObject.SetAlpha, GraphicsObject.SetX,
      GraphicsObject.SetY]

theorem DisplayMutator_position_untouched (d : DisplayMutator) (h : d.move_mod_ = false)
    (now : Int) (o : GraphicsObject) :
    ((d.PerformSetting now o).x = o.x ∧ (d.PerformSetting now o).y = o.y)
      ∧ ((d.SetToEnd o).x = o.x ∧ (d.SetToEnd o).y = o.y) := by
  unfold DisplayMutator.PerformSetting DisplayMutator.SetToEnd
  rw [h]
  cases d.tr_mod_ <;>
    simp [GraphicsObject.SetVisible, GraphicsObject.SetAlpha, GraphicsObject.SetX,
      GraphicsObject.SetY]

/-- C24: the alpha endpoints of a `DisplayMutator`.  For every construction
with `tr_mod` non-zero, `(tr_start, tr_end)` is `(0, 255)` when `display` is
non-zero and `(255, 0)` when `display` is zero.  For every construction with
`tr_mod` zero, neither `PerformSetting` (at any time, on any object state) nor
`SetToEnd` changes the alpha of the object. -/
theorem C24_display_alpha_endpoints (object : GraphicsObject) (creation_time
    duration_time delay display dip_event_mod tr_mod move_mod move_len_x move_len_y
    rotate_mod rotate_count scale_x_mod scale_x_percent scale_y_mod scale_y_percent
    sin_mod sin_len sin_count : Int) (d : DisplayMutator)
    (hd : d = DisplayMutator.new object creation_time duration_time delay display
      dip_event_mod tr_mod move_mod move_len_x move_len_y rotate_mod rotate_count
      scale_x_mod scale_x_percent scale_y_mod scale_y_percent sin_mod sin_len sin_count) :
    (tr_mod ≠ 0 → display ≠ 0 → d.tr_start_ = 0 ∧ d.tr_end_ = 255)
    ∧ (tr_mod ≠ 0 → display = 0 → d.tr_start_ = 255 ∧ d.tr_end_ = 0)
    ∧ (tr_mod = 0 → ∀ (now : Int) (o : GraphicsObject),
        (d.PerformSetting now o).alpha = o.alpha ∧ (d.SetToEnd o).alpha = o.alpha) := by
  subst hd
  refine ⟨?_, ?_, ?_⟩
  · intro h1 h2
    simp [DisplayMutator.new, h1, h2]
  · intro h1 h2
    simp [DisplayMutator.new, h1, h2]
  · intro h1 now o
    exact DisplayMutator_alpha_untouched _ (by simp [DisplayMutator.new, h1]) now o

/-- Witness of C24: a showing mutator with `tr_mod` set on the example object
fades from 0 to 255. -/
theorem C24_display_alpha_endpoints_witness :
    (DisplayMutator.new exampleObject 0 1000 0 1 0 1 0 0 0 0 0 0 0 0 0 0 0 0).tr_start_ = 0
      ∧ (DisplayMutator.new exampleObject 0 1000 0 1 0 1 0 0 0 0 0 0 0 0 0 0 0 0).tr_end_
          = 255 :=
  (C24_display_alpha_endpoints exampleObject 0 1000 0 1 0 1 0 0 0 0 0 0 0 0 0 0 0 0 _ rfl).1
    (by decide) (by decide)

/-- C25: the move endpoints of a `DisplayMutator`.  For every object position
and every `(move_len_x, move_len_y)` with `move_mod` non-zero, a showing
mutator (`display` non-zero) starts at `(x - move_len_x, y - move_len_y)` and
ends at the position the object had at construction, which is where `SetToEnd`
puts the object; a hiding mutator (`display` zero) starts at the position of
the object and ends at `(x + move_len_x, y + move_len_y)`; in both cases
`end - start = (move_len_x, move_len_y)`.  With `move_mod` zero, neither
`PerformSetting` nor `SetToEnd` changes the position of the object. -/
theorem C25_display_move_endpoints (object : GraphicsObject) (creation_time
    duration_time delay display dip_event_mod tr_mod move_mod move_len_x move_len_y
    rotate_mod rotate_count scale_x_mod scale_x_percent scale_y_mod scale_y_percent
    sin_mod sin_len sin_count : Int) (d : DisplayMutator)
    (hd : d = DisplayMutator.new object creation_time duration_time delay display
      dip_event_mod tr_mod move_mod move_len_x move_len_y rotate_mod rotate_count
      scale_x_mod scale_x_percent scale_y_mod scale_y_percent sin_mod sin_len sin_count) :
    (move_mod ≠ 0 → display ≠ 0 →
        d.move_start_x_ = object.x - move_len_x ∧ d.move_start_y_ = object.y - move_len_y
        ∧ d.move_end_x_ = object.x ∧ d.move_end_y_ = object.y
        ∧ ∀ o : GraphicsObject, (d.SetToEnd o).x = object.x ∧ (d.SetToEnd o).y = object.y)
    ∧ (move_mod ≠ 0 → display = 0 →
        d.move_start_x_ = object.x ∧ d.move_start_y_ = object.y
        ∧ d.move_end_x_ = object.x + move_len_x ∧ d.move_end_y_ = object.y + move_len_y)
    ∧ (move_mod ≠ 0 →
        d.move_end_x_ - d.move_start_x_ = move_len_x
        ∧ d.move_end_y_ - d.move_start_y_ = move_len_y)
    ∧ (move_mod = 0 → ∀ (now : Int) (o : GraphicsObject),
        ((d.PerformSetting now o).x = o.x ∧ (d.PerformSetting now o).y = o.y)
        ∧ ((d.SetToEnd o).x = o.x ∧ (d.SetToEnd o).y = o.y)) := by
  subst hd
  refine ⟨?_, ?_, ?_, ?_⟩
  · intro h1 h2
    refine ⟨by simp [DisplayMutator.new, h1, h2], by simp [DisplayMutator.new, h1, h2],
      by simp [DisplayMutator.new, h1, h2], by simp [DisplayMutator.new, h1, h2], ?_⟩
    intro o
    have he := (DisplayMutator_SetToEnd_fields
      (DisplayMutator.new object creation_time duration_time delay display
        dip_event_mod tr_mod move_mod move_len_x move_len_y rotate_mod rotate_count
        scale_x_mod scale_x_percent scale_y_mod scale_y_percent sin_mod sin_len sin_count)
      o).2.2 (by simp [DisplayMutator.new, h1])
    rw [he.1, he.2]
    constructor <;> simp [DisplayMutator.new, h1, h2]
  · intro h1 h2
    refine ⟨by simp [DisplayMutator.new, h1, h2], by simp [DisplayMutator.new, h1, h2],
      by simp [DisplayMutator.new, h1, h2], by simp [DisplayMutator.new, h1, h2]⟩
  · intro h1
    by_cases h2 : display = 0
    · constructor <;> simp [DisplayMutator.new, h1, h2]
    · constructor <;> simp [DisplayMutator.new, h1, h2]
  · intro h1 now o
    exact DisplayMutator_position_untouched _ (by simp [DisplayMutator.new, h1]) now o

/-- Witness of C25: a hiding mutator with `move_mod` set and a move of
`(30, 40)` on the example object, which stands at the origin. -/
theorem C25_display_move_endpoints_witness :
    exampleHiding.move_start_x_ = exampleObject.x
      ∧ exampleHiding.move_start_y_ = exampleObject.y
      ∧ exampleHiding.move_end_x_ = exampleObject.x + 30
      ∧ exampleHiding.move_end_y_ = exampleObject.y + 40 :=
  (C25_display_move_endpoints exampleObject 0 0 0 0 0 1 1 30 40 0 0 0 0 0 0 0 0 0
    exampleHiding rfl).2.1 (by decide) rfl

theorem Display_tick_cases (d : DisplayMutator) (now : Int) (o : GraphicsObject) :
    (Mutator.Display d).tick now o = (d.SetToEnd o, true)
    ∨ (now < d.base.creation_time + d.base.delay
        ∧ (Mutator.Display d).tick now o = (o, false))
    ∨ (Mutator.Display d).tick now o = (d.SetToEnd (d.PerformSetting now o), true)
    ∨ (Mutator.Display d).tick now o = (d.PerformSetting now o, false) := by
  unfold Mutator.tick
  simp only [Mutator.base, Mutator.SetToEnd, Mutator.PerformSetting]
  by_cases h1 : d.base.duration_time ≤ 0
  · rw [if_pos h1]
    exact Or.inl rfl
  · rw [if_neg h1]
    by_cases h2 : now < d.base.creation_time + d.base.delay
    · rw [if_pos h2]
      exact Or.inr (Or.inl ⟨h2, rfl⟩)
    · rw [if_neg h2]
      by_cases h3 : d.base.progress now = 1
      · rw [if_pos h3]
        exact Or.inr (Or.inr (Or.inl rfl))
      · rw [if_neg h3]
        exact Or.inr (Or.inr (Or.inr rfl))

/-- C26: while a display transition is being performed the object is
displayed.  For every `DisplayMutator`, time and object state,
`PerformSetting` leaves the object visible whatever the display flag is, and
`SetToEnd` sets the visibility to the display flag.  Hence a tick that falls
in the running time of the mutator and does not finish it leaves the object
visible, also for a hiding mutator; the visibility is the display flag once
the tick finishes the mutator, and once the mutator is force-ended. -/
theorem C26_visible_while_performing (d : DisplayMutator) (now : Int)
    (o : GraphicsObject) :
    (d.PerformSetting now o).visible = 1
    ∧ (d.SetToEnd o).visible = (if d.display_ then 1 else 0)
    ∧ (((Mutator.Display d).tick now o).2 = false →
        d.base.creation_time + d.base.delay ≤ now →
        ((Mutator.Display d).tick now o).1.visible = 1)
    ∧ (((Mutator.Display d).tick now o).2 = true →
        ((Mutator.Display d).tick now o).1.visible = (if d.display_ then 1 else 0))
    ∧ ((Mutator.Display d).SetToEnd o).visible = (if d.display_ then 1 else 0) := by
  have hp := fun o1 => (DisplayMutator_PerformSetting_fields d now o1).1
  have he := fun o1 => (DisplayMutator_SetToEnd_fields d o1).1
  refine ⟨hp o, he o, ?_, ?_, he o⟩
  · intro hfin hnow
    rcases Display_tick_cases d now o with h | ⟨h0, h⟩ | h | h
    · rw [h] at hfin
      exact absurd hfin (by simp)
    · omega
    · rw [h] at hfin
      exact absurd hfin (by simp)
    · rw [h]
      exact hp o
  · intro hfin
    rcases Display_tick_cases d now o with h | ⟨h0, h⟩ | h | h
    · rw [h]
      exact he o
    · rw [h] at hfin
      exact absurd hfin (by simp)
    · rw [h]
      exact he _
    · rw [h] at hfin
      exact absurd hfin (by simp)

/-- Witness of C26: the hiding example mutator has duration 0; its first tick
finishes it and only then is the example object hidden. -/
theorem C26_visible_while_performing_witness :
    ((Mutator.Display exampleHiding).tick 0 exampleObject).2 = true
      ∧ ((Mutator.Display exampleHiding).tick 0 exampleObject).1.visible
          = (if exampleHiding.display_ then 1 else 0) :=
  ⟨rfl, (C26_visible_while_performing exampleHiding 0 exampleObject).2.2.2.1 rfl⟩

/-! ## C27: the unsupported display parameters -/

/-- C27: the unsupported display parameters have no effect on the object.
Two `DisplayMutator`s constructed on the same object state with equal
`creation_time`, `duration_time`, `delay`, `display`, `tr_mod`, `move_mod`,
`move_len_x` and `move_len_y`, and any values of `dip_event_mod`,
`rotate_mod`, `rotate_count`, `scale_x_mod`, `scale_x_percent`, `scale_y_mod`,
`scale_y_percent`, `sin_mod`, `sin_len` and `sin_count`, produce the same
object state under `PerformSetting` at every time, under `SetToEnd` and under
a tick, and match the same queries.  Consequently `objEveDisplay_3` behaves as
`objEveDisplay_2` for any values of its nine extra arguments: on a handle that
addresses no object both leave the machine as it is, and otherwise both return
the machine with one registry entry added to the object, the entry of
`objEveDisplay_3` being the entry of `objEveDisplay_2` in all but the three
stored flags `rotate_mod_`, `scale_x_mod_`, `scale_y_mod_`, which no method of
the mutator reads; the two results are the same machine when these three flags
are passed as zero. -/
theorem C27_unsupported_parameters_have_no_effect (object : GraphicsObject)
    (creation_time duration_time delay display tr_mod move_mod move_len_x move_len_y : Int)
    (dip_event_mod rotate_mod rotate_count scale_x_mod scale_x_percent scale_y_mod
      scale_y_percent sin_mod sin_len sin_count : Int)
    (dip_event_mod2 rotate_mod2 rotate_count2 scale_x_mod2 scale_x_percent2 scale_y_mod2
      scale_y_percent2 sin_mod2 sin_len2 sin_count2 : Int) :
    (∀ (now : Int) (o : GraphicsObject),
        (DisplayMutator.new object creation_time duration_time delay display
            dip_event_mod tr_mod move_mod move_len_x move_len_y rotate_mod rotate_count
            scale_x_mod scale_x_percent scale_y_mod scale_y_percent sin_mod sin_len
            sin_count).PerformSetting now o
          = (DisplayMutator.new object creation_time duration_time delay display
            dip_event_mod2 tr_mod move_mod move_len_x move_len_y rotate_mod2 rotate_count2
            scale_x_mod2 scale_x_percent2 scale_y_mod2 scale_y_percent2 sin_mod2 sin_len2
            sin_count2).PerformSetting now o)
    ∧ (∀ o : GraphicsObject,
        (DisplayMutator.new object creation_time duration_time delay display
            dip_event_mod tr_mod move_mod move_len_x move_len_y rotate_mod rotate_count
            scale_x_mod scale_x_percent scale_y_mod scale_y_percent sin_mod sin_len
            sin_count).SetToEnd o
          = (DisplayMutator.new object creation_time duration_time delay display
            dip_event_mod2 tr_mod move_mod move_len_x move_len_y rotate_mod2 rotate_count2
            scale_x_mod2 scale_x_percent2 scale_y_mod2 scale_y_percent2 sin_mod2 sin_len2
            sin_count2).SetToEnd o)
    ∧ (∀ (now : Int) (o : GraphicsObject),
        (Mutator.Display (DisplayMutator.new object creation_time duration_time delay display
            dip_event_mod tr_mod move_mod move_len_x move_len_y rotate_mod rotate_count
            scale_x_mod scale_x_percent scale_y_mod scale_y_percent sin_mod sin_len
            sin_count)).tick now o
          = (Mutator.Display (DisplayMutator.new object creation_time duration_time delay
            display dip_event_mod2 tr_mod move_mod move_len_x move_len_y rotate_mod2
            rotate_count2 scale_x_mod2 scale_x_percent2 scale_y_mod2 scale_y_percent2
            sin_mod2 sin_len2 sin_count2)).tick now o)
    ∧ (∀ (repno : Int) (name : String),
        (Mutator.Display (DisplayMutator.new object creation_time duration_time delay display
            dip_event_mod tr_mod move_mod move_len_x move_len_y rotate_mod rotate_count
            scale_x_mod scale_x_percent scale_y_mod scale_y_percent sin_mod sin_len
            sin_count)).OperationMatches repno name
          = (Mutator.Display (DisplayMutator.new object creation_time duration_time delay
            display dip_event_mod2 tr_mod move_mod move_len_x move_len_y rotate_mod2
            rotate_count2 scale_x_mod2 scale_x_percent2 scale_y_mod2 scale_y_percent2
            sin_mod2 sin_len2 sin_count2)).OperationMatches repno name)
    ∧ (∀ (machine : RLMachine) (obj : Int),
        (GetGraphicsObject machine.objects obj = none
          ∧ objEveDisplay_2 machine obj display duration_time delay dip_event_mod tr_mod
              move_mod move_len_x move_len_y = .ok machine
          ∧ objEveDisplay_3 machine obj display duration_time delay dip_event_mod tr_mod
              move_mod move_len_x move_len_y rotate_mod rotate_count scale_x_mod
              scale_x_percent scale_y_mod scale_y_percent sin_mod sin_len sin_count
              = .ok machine)
        ∨ ∃ (target : GraphicsObject) (d2 : DisplayMutator),
            GetGraphicsObject machine.objects obj = some target
            ∧ objEveDisplay_2 machine obj display duration_time delay dip_event_mod tr_mod
                move_mod move_len_x move_len_y
                = .ok (machine.withObject obj (target.AddObjectMutator (.Display d2)))
            ∧ objEveDisplay_3 machine obj display duration_time delay dip_event_mod tr_mod
                move_mod move_len_x move_len_y rotate_mod rotate_count scale_x_mod
                scale_x_percent scale_y_mod scale_y_percent sin_mod sin_len sin_count
                = .ok (machine.withObject obj (target.AddObjectMutator (.Display
                    { d2 with rotate_mod_ := rotate_mod != 0
                              scale_x_mod_ := scale_x_mod != 0
                              scale_y_mod_ := scale_y_mod != 0 })))
            ∧ (∀ (now : Int) (o : GraphicsObject),
                (Mutator.Display
                    { d2 with rotate_mod_ := rotate_mod != 0
                              scale_x_mod_ := scale_x_mod != 0
                              scale_y_mod_ := scale_y_mod != 0 }).tick now o
                  = (Mutator.Display d2).tick now o)
            ∧ (∀ o : GraphicsObject,
                (Mutator.Display
                    { d2 with rotate_mod_ := rotate_mod != 0
                              scale_x_mod_ := scale_x_mod != 0
                              scale_y_mod_ := scale_y_mod != 0 }).SetToEnd o
                  = (Mutator.Display d2).SetToEnd o))
    ∧ (∀ (machine : RLMachine) (obj : Int),
        objEveDisplay_3 machine obj display duration_time delay dip_event_mod tr_mod
            move_mod move_len_x move_len_y 0 rotate_count 0 scale_x_percent 0
            scale_y_percent sin_mod sin_len sin_count
          = objEveDisplay_2 machine obj display duration_time delay dip_event_mod tr_mod
            move_mod move_len_x move_len_y) := by
  refine ⟨fun _ _ => rfl, fun _ => rfl, fun _ _ => rfl, fun _ _ => rfl, ?_, ?_⟩
  · intro machine obj
    cases h : GetGraphicsObject machine.objects obj with
    | none =>
      refine Or.inl ⟨rfl, ?_, ?_⟩
      · simp only [objEveDisplay_2, h]
      · simp only [objEveDisplay_3, h]
    | some target =>
      refine Or.inr ⟨target, DisplayMutator.new target (unsigned_to_int machine.ticks)
        duration_time delay
        display dip_event_mod tr_mod move_mod move_len_x move_len_y 0 0 0 0 0 0 0 0 0,
        rfl, ?_, ?_, fun _ _ => rfl, fun _ => rfl⟩
      · simp only [objEveDisplay_2, h]
      · simp only [objEveDisplay_3, h]
        rfl
  · intro machine obj
    rfl

/-! ## C28: `objEveDisplay_1` reads `OBJDISP.param` -/

theorem vectorAt_lt (v : List Int) (i : Nat) (h : i < v.length) :
    vectorAt v i = .ok (v.getD i 0) := by
  unfold vectorAt
  rw [List.get?_eq_get h, List.getD_eq_getElem v 0 h]
  rfl

/-- C28: `objEveDisplay_1` reads its parameters from the Gameexe entry
`OBJDISP.param`.  On a handle that addresses an object: if that vector has
fewer than 14 elements the opcode fails with the out-of-range error (no machine
state is produced, so no mutator is added); if it has at least 14 elements
`v`, the opcode returns what `objEveDisplay_3` returns for
`(obj, display, duration_time, delay, v[0], ..., v[13])`, the machine with
exactly that mutator added to the object. -/
theorem C28_objEveDisplay_1_reads_OBJDISP (objdisp : Int → List Int)
    (machine : RLMachine) (obj display duration_time delay param : Int)
    (object : GraphicsObject) (h : GetGraphicsObject machine.objects obj = some object) :
    ((objdisp param).length < 14 →
      objEveDisplay_1 objdisp machine obj display duration_time delay param
        = .error .OutOfRange)
    ∧ (14 ≤ (objdisp param).length →
      objEveDisplay_1 objdisp machine obj display duration_time delay param
          = objEveDisplay_3 machine obj display duration_time delay
              ((objdisp param).getD 0 0) ((objdisp param).getD 1 0)
              ((objdisp param).getD 2 0) ((objdisp param).getD 3 0)
              ((objdisp param).getD 4 0) ((objdisp param).getD 5 0)
              ((objdisp param).getD 6 0) ((objdisp param).getD 7 0)
              ((objdisp param).getD 8 0) ((objdisp param).getD 9 0)
              ((objdisp param).getD 10 0) ((objdisp param).getD 11 0)
              ((objdisp param).getD 12 0) ((objdisp param).getD 13 0)
      ∧ objEveDisplay_1 objdisp machine obj display duration_time delay param
          = .ok (machine.withObject obj (object.AddObjectMutator (.Display
              (DisplayMutator.new object (unsigned_to_int machine.ticks) duration_time delay
          display
                ((objdisp param).getD 0 0) ((objdisp param).getD 1 0)
                ((objdisp param).getD 2 0) ((objdisp param).getD 3 0)
                ((objdisp param).getD 4 0) ((objdisp param).getD 5 0)
                ((objdisp param).getD 6 0) ((objdisp param).getD 7 0)
                ((objdisp param).getD 8 0) ((objdisp param).getD 9 0)
                ((objdisp param).getD 10 0) ((objdisp param).getD 11 0)
                ((objdisp param).getD 12 0) ((objdisp param).getD 13 0)))))) := by
  constructor
  · intro hlen
    simp only [objEveDisplay_1, h]
    generalize objdisp param = v at hlen
    rcases v with _ | ⟨a0, v⟩
    · rfl
    rcases v with _ | ⟨a1, v⟩
    · rfl
    rcases v with _ | ⟨a2, v⟩
    · rfl
    rcases v with _ | ⟨a3, v⟩
    · rfl
    rcases v with _ | ⟨a4, v⟩
    · rfl
    rcases v with _ | ⟨a5, v⟩
    · rfl
    rcases v with _ | ⟨a6, v⟩
    · rfl
    rcases v with _ | ⟨a7, v⟩
    · rfl
    rcases v with _ | ⟨a8, v⟩
    · rfl
    rcases v with _ | ⟨a9, v⟩
    · rfl
    rcases v with _ | ⟨a10, v⟩
    · rfl
    rcases v with _ | ⟨a11, v⟩
    · rfl
    rcases v with _ | ⟨a12, v⟩
    · rfl
    rcases v with _ | ⟨a13, v⟩
    · rfl
    simp only [List.length_cons] at hlen
    omega
  · intro hlen
    have h1 : objEveDisplay_1 objdisp machine obj display duration_time delay param
        = .ok (machine.withObject obj (object.AddObjectMutator (.Display
            (DisplayMutator.new object (unsigned_to_int machine.ticks) duration_time delay
          display
              ((objdisp param).getD 0 0) ((objdisp param).getD 1 0)
              ((objdisp param).getD 2 0) ((objdisp param).getD 3 0)
              ((objdisp param).getD 4 0) ((objdisp param).getD 5 0)
              ((objdisp param).getD 6 0) ((objdisp param).getD 7 0)
              ((objdisp param).getD 8 0) ((objdisp param).getD 9 0)
              ((objdisp param).getD 10 0) ((objdisp param).getD 11 0)
              ((objdisp param).getD 12 0) ((objdisp param).getD 13 0))))) := by
      simp only [objEveDisplay_1, h]
      rw [vectorAt_lt _ 0 (by omega), vectorAt_lt _ 1 (by omega),
        vectorAt_lt _ 2 (by omega), vectorAt_lt _ 3 (by omega),
        vectorAt_lt _ 4 (by omega), vectorAt_lt _ 5 (by omega),
        vectorAt_lt _ 6 (by omega), vectorAt_lt _ 7 (by omega),
        vectorAt_lt _ 8 (by omega), vectorAt_lt _ 9 (by omega),
        vectorAt_lt _ 10 (by omega), vectorAt_lt _ 11 (by omega),
        vectorAt_lt _ 12 (by omega), vectorAt_lt _ 13 (by omega)]
      rfl
    refine ⟨?_, h1⟩
    rw [h1]
    simp only [objEveDisplay_3, h]

/-- Witness of C28: on the example machine, an `OBJDISP` entry of three
elements makes the opcode fail with the out-of-range error, and an entry of
fourteen elements makes it return what `objEveDisplay_3` returns for them. -/
theorem C28_objEveDisplay_1_reads_OBJDISP_witness :
    GetGraphicsObject exampleMachine.objects 0 = some exampleObject
      ∧ objEveDisplay_1 (fun _ => [0, 1, 1]) exampleMachine 0 1 1000 0 5
          = .error .OutOfRange
      ∧ objEveDisplay_1 (fun _ => [0, 1, 1, 30, 40, 0, 0, 0, 0, 0, 0, 0, 0, 0])
            exampleMachine 0 1 1000 0 5
          = objEveDisplay_3 exampleMachine 0 1 1000 0 0 1 1 30 40 0 0 0 0 0 0 0 0 0 :=
  ⟨rfl, (C28_objEveDisplay_1_reads_OBJDISP (fun _ => [0, 1, 1]) exampleMachine 0 1 1000 0 5
    exampleObject rfl).1 (by decide),
    ((C28_objEveDisplay_1_reads_OBJDISP
      (fun _ => [0, 1, 1, 30, 40, 0, 0, 0, 0, 0, 0, 0, 0, 0]) exampleMachine 0 1 1000 0 5
      exampleObject rfl).2 (by decide)).1⟩

/-! ## C29: the snapshots of the effect opcodes -/

theorem promoteRenderBuildPush_ok (be : GraphicsBackend)
    (factory : Int → Option SelEntry) (s : BgrSystem) (before : Surface) (sel : Int)
    (h : (promoteRenderBuildPush be factory s before sel).error = none) :
    (promoteRenderBuildPush be factory s before sel).pushedEffectFrom be factory s before
      sel := by
  unfold Outcome.pushedEffectFrom
  cases hf : factory sel with
  | none =>
    rw [(promoteRenderBuildPush_unknown be factory s before sel hf).1] at h
    exact absurd h (by simp)
  | some entry =>
    simp only [promoteRenderBuildPush, BuildFromSEL, hf]
    exact ⟨_, rfl, rfl⟩

/-- C29, as stated, fails for `bgrLoadHaikei_blank`: on a system that shows
the `BACKGROUND_DC0` background, with a backend whose snapshot shows the kind
of background, the opcode completes and pushes one effect whose `before`
snapshot shows `BACKGROUND_HIK`, while a snapshot of the state in which the
opcode began shows `BACKGROUND_DC0`: the opcode sets the background kind (and
the default name and the HIK renderer) before it renders `before`. -/
theorem C29_counterexample_before_rendered_after_changes :
    exampleBgrSystem.graphics.graphics_background = .BACKGROUND_DC0
      ∧ (bgrLoadHaikei_blank exampleKindBackend exampleFactory exampleBgrSystem 0).error
          = none
      ∧ (∃ e : Effect,
          (bgrLoadHaikei_blank exampleKindBackend exampleFactory exampleBgrSystem
              0).system.machine.stack
            = [{ id := 0, op := .Transition e }]
          ∧ e.before = { pixels := [1] })
      ∧ exampleKindBackend.renderToSurface exampleBgrSystem.graphics
          exampleBgrSystem.machine.objects = { pixels := [0] } :=
  ⟨rfl, rfl, ⟨_, rfl, rfl⟩, rfl⟩

/-- C29, amended: whenever one of the three effect opcodes completes
(`bgrLoadHaikei_main` on its effect path, the file found not being a HIK
script), exactly one effect is pushed, on top of the stack the opcode found; it
is the effect that `BuildFromSEL` builds from the selector of the script and
two snapshots.  The `after` snapshot is rendered from the state the opcode
leaves behind.  The `before` snapshot of `bgrMulti_1` is rendered from the
state in which the opcode began.  The `before` snapshot of
`bgrLoadHaikei_blank` is rendered after the opcode has set the default
background name to the empty string, the HIK renderer to none and the
background kind to `BACKGROUND_HIK`; that of `bgrLoadHaikei_main` after the
opcode has set the default background name to the file name and the background
kind to `BACKGROUND_HIK` and has cleared the graphics stack; both are rendered
before the haikei surface is changed and the objects are promoted. -/
theorem C29_before_and_after_snapshots (be : GraphicsBackend)
    (factory : Int → Option SelEntry) (s : BgrSystem) (sel : Int) :
    ((bgrLoadHaikei_blank be factory s sel).error = none →
      (bgrLoadHaikei_blank be factory s sel).pushedEffectFrom be factory s
        (be.renderToSurface
          (((s.graphics.setDefaultBgrName "").setHikRenderer none).setGraphicsBackground
            .BACKGROUND_HIK) s.machine.objects) sel)
    ∧ (∀ filename : String, iends_with_hik (be.FindFile filename) = false →
      (bgrLoadHaikei_main be factory s filename sel).error = none →
      (bgrLoadHaikei_main be factory s filename sel).pushedEffectFrom be factory s
        (be.renderToSurface
          (((s.graphics.setDefaultBgrName filename).setGraphicsBackground
            .BACKGROUND_HIK).clearStack) s.machine.objects) sel)
    ∧ (∀ (filename : String) (commands : List BgrMultiCommand),
      (bgrMulti_1 be factory s filename sel commands).error = none →
      (bgrMulti_1 be factory s filename sel commands).pushedEffectFrom be factory s
        (be.renderToSurface s.graphics s.machine.objects) sel) := by
  refine ⟨?_, ?_, ?_⟩
  · intro h
    exact promoteRenderBuildPush_ok be factory _ _ sel h
  · intro filename hhik
    unfold bgrLoadHaikei_main
    simp only [hhik, Bool.false_eq_true, if_false]
    split_ifs with hpath
    · cases hload : be.getSurfaceNamedAndMarkViewed
          (((s.graphics.setDefaultBgrName filename).setGraphicsBackground
            .BACKGROUND_HIK).clearStack) filename with
      | error e =>
        intro h
        exact absurd h (by simp)
      | ok r =>
        intro h
        exact promoteRenderBuildPush_ok be factory
          { s with graphics :=
              { r.2 with
                haikei := be.blitToSurface r.1 r.2.getHaikei (be.rect r.1) (be.rect r.1)
                  255 true } }
          (be.renderToSurface (((s.graphics.setDefaultBgrName filename).setGraphicsBackground
            .BACKGROUND_HIK).clearStack) s.machine.objects) sel h
    · intro h
      exact promoteRenderBuildPush_ok be factory
        { s with graphics := ((s.graphics.setDefaultBgrName filename).setGraphicsBackground
            .BACKGROUND_HIK).clearStack }
        (be.renderToSurface (((s.graphics.setDefaultBgrName filename).setGraphicsBackground
            .BACKGROUND_HIK).clearStack) s.machine.objects) sel h
  · intro filename commands
    unfold bgrMulti_1
    simp only []
    cases hload : be.getSurfaceNamedAndMarkViewed
        (s.graphics.setGraphicsBackground .BACKGROUND_HIK)
        (if filename = "???" then
          (s.graphics.setGraphicsBackground .BACKGROUND_HIK).defaultBgrName
        else filename) with
    | error e =>
      intro h
      exact absurd h (by simp)
    | ok r =>
      obtain ⟨surface, g1⟩ := r
      show (match bgrMultiLoop be
              { g1 with
                haikei := be.blitToSurface surface g1.getHaikei (be.rect surface)
                  (be.rect surface) 255 true }
              commands with
            | (graphics, some e) =>
              ({ system := { s with graphics := graphics }, error := some e } : Outcome)
            | (graphics, none) =>
              promoteRenderBuildPush be factory { s with graphics := graphics }
                (be.renderToSurface s.graphics s.machine.objects) sel).error = none →
          (match bgrMultiLoop be
              { g1 with
                haikei := be.blitToSurface surface g1.getHaikei (be.rect surface)
                  (be.rect surface) 255 true }
              commands with
            | (graphics, some e) =>
              ({ system := { s with graphics := graphics }, error := some e } : Outcome)
            | (graphics, none) =>
              promoteRenderBuildPush be factory { s with graphics := graphics }
                (be.renderToSurface s.graphics s.machine.objects) sel).pushedEffectFrom
            be factory s (be.renderToSurface s.graphics s.machine.objects) sel
      cases hloop : bgrMultiLoop be
          { g1 with
            haikei := be.blitToSurface surface g1.getHaikei (be.rect surface)
              (be.rect surface) 255 true }
          commands with
      | mk g err =>
        cases err with
        | some e =>
          intro h
          exact absurd h (by simp)
        | none =>
          intro h
          exact promoteRenderBuildPush_ok be factory { s with graphics := g }
            (be.renderToSurface s.graphics s.machine.objects) sel h

/-- Witness of C29: on the example system, with the backend whose snapshot
shows the kind of background, `bgrLoadHaikei_blank` with selector 0
completes and pushes the one effect. -/
theorem C29_before_and_after_snapshots_witness :
    (bgrLoadHaikei_blank exampleKindBackend exampleFactory exampleBgrSystem 0).error = none
      ∧ (bgrLoadHaikei_blank exampleKindBackend exampleFactory exampleBgrSystem
          0).pushedEffectFrom exampleKindBackend exampleFactory exampleBgrSystem
          (exampleKindBackend.renderToSurface
            (((exampleBgrSystem.graphics.setDefaultBgrName "").setHikRenderer
              none).setGraphicsBackground .BACKGROUND_HIK)
            exampleBgrSystem.machine.objects) 0 :=
  ⟨rfl, (C29_before_and_after_snapshots exampleKindBackend exampleFactory exampleBgrSystem
    0).1 rfl⟩

end RLVM
